import Mathlib

/-!
# Verification of the trireme-lib supervisor / packet-filter renderer

A shallow embedding of the supervisor (`internal/supervisor`), the iptables
controller (`internal/supervisor/iptablesctrl`) and the `policy.PURuntime`
constructor of the trireme-lib repository, together with proofs of the
specification claims about them.

Go strings are modelled as Lean `String`s whose characters are the bytes of
the Go string (the contextIDs, marks and rule arguments handled by this code
are ASCII, where the two representations agree byte for byte).
-/

set_option maxRecDepth 4000

namespace Trireme

/-! ## MD5 (crypto/md5), faithful to RFC 1321, over byte lists -/

/-- 32-bit truncation. -/
def m32 (x : Nat) : Nat := x % 4294967296

/-- 32-bit left rotation. -/
def rotl32 (x n : Nat) : Nat := m32 ((x <<< n) ||| (x >>> (32 - n)))

/-- 32-bit bitwise complement. -/
def not32 (x : Nat) : Nat := 4294967295 ^^^ x

/-- The 64 MD5 sine-table constants `K[i] = floor(2^32 * |sin(i+1)|)`. -/
def md5K : List Nat :=
  [0xd76aa478, 0xe8c7b756, 0x242070db, 0xc1bdceee,
   0xf57c0faf, 0x4787c62a, 0xa8304613, 0xfd469501,
   0x698098d8, 0x8b44f7af, 0xffff5bb1, 0x895cd7be,
   0x6b901122, 0xfd987193, 0xa679438e, 0x49b40821,
   0xf61e2562, 0xc040b340, 0x265e5a51, 0xe9b6c7aa,
   0xd62f105d, 0x02441453, 0xd8a1e681, 0xe7d3fbc8,
   0x21e1cde6, 0xc33707d6, 0xf4d50d87, 0x455a14ed,
   0xa9e3e905, 0xfcefa3f8, 0x676f02d9, 0x8d2a4c8a,
   0xfffa3942, 0x8771f681, 0x6d9d6122, 0xfde5380c,
   0xa4beea44, 0x4bdecfa9, 0xf6bb4b60, 0xbebfbc70,
   0x289b7ec6, 0xeaa127fa, 0xd4ef3085, 0x04881d05,
   0xd9d4d039, 0xe6db99e5, 0x1fa27cf8, 0xc4ac5665,
   0xf4292244, 0x432aff97, 0xab9423a7, 0xfc93a039,
   0x655b59c3, 0x8f0ccc92, 0xffeff47d, 0x85845dd1,
   0x6fa87e4f, 0xfe2ce6e0, 0xa3014314, 0x4e0811a1,
   0xf7537e82, 0xbd3af235, 0x2ad7d2bb, 0xeb86d391]

/-- The per-round MD5 shift amounts. -/
def md5S : List Nat :=
  [7, 12, 17, 22, 7, 12, 17, 22, 7, 12, 17, 22, 7, 12, 17, 22,
   5,  9, 14, 20, 5,  9, 14, 20, 5,  9, 14, 20, 5,  9, 14, 20,
   4, 11, 16, 23, 4, 11, 16, 23, 4, 11, 16, 23, 4, 11, 16, 23,
   6, 10, 15, 21, 6, 10, 15, 21, 6, 10, 15, 21, 6, 10, 15, 21]

/-- Little-endian 32-bit word `j` of a 64-byte chunk. -/
def md5Word (chunk : List Nat) (j : Nat) : Nat :=
  chunk.getD (4 * j) 0 + 256 * chunk.getD (4 * j + 1) 0 +
    65536 * chunk.getD (4 * j + 2) 0 + 16777216 * chunk.getD (4 * j + 3) 0

/-- One of the 64 MD5 steps applied to the running state `(a, b, c, d)`. -/
def md5Step (chunk : List Nat) (st : Nat × Nat × Nat × Nat) (i : Nat) :
    Nat × Nat × Nat × Nat :=
  let (a, b, c, d) := st
  let f :=
    if i < 16 then (b &&& c) ||| (not32 b &&& d)
    else if i < 32 then (d &&& b) ||| (not32 d &&& c)
    else if i < 48 then b ^^^ c ^^^ d
    else c ^^^ (b ||| not32 d)
  let g :=
    if i < 16 then i
    else if i < 32 then (5 * i + 1) % 16
    else if i < 48 then (3 * i + 5) % 16
    else (7 * i) % 16
  let tmp := m32 (f + a + md5K.getD i 0 + md5Word chunk g)
  (d, m32 (b + rotl32 tmp (md5S.getD i 0)), b, c)

/-- Process one 64-byte chunk into the MD5 state `(a0, b0, c0, d0)`. -/
def md5Chunk (st : Nat × Nat × Nat × Nat) (chunk : List Nat) :
    Nat × Nat × Nat × Nat :=
  let (a0, b0, c0, d0) := st
  let (a, b, c, d) := (List.range 64).foldl (md5Step chunk) (a0, b0, c0, d0)
  (m32 (a0 + a), m32 (b0 + b), m32 (c0 + c), m32 (d0 + d))

/-- Split a byte list into 64-byte chunks (structural recursion on a fuel
bound that always suffices, so the definition reduces in the kernel). -/
def chunks64Aux : Nat → List Nat → List (List Nat)
  | _, [] => []
  | 0, _ :: _ => []
  | fuel + 1, b :: rest =>
      (b :: rest).take 64 :: chunks64Aux fuel ((b :: rest).drop 64)

/-- Split a byte list into 64-byte chunks. -/
def chunks64 (bs : List Nat) : List (List Nat) := chunks64Aux bs.length bs

/-- MD5 padding: a `0x80` byte, zeros to 56 mod 64, then the bit length in
64-bit little-endian. -/
def md5Pad (msg : List Nat) : List Nat :=
  let l := msg.length
  let k := (64 + 56 - (l + 1) % 64) % 64
  let bitLen := (8 * l) % 18446744073709551616
  msg ++ [0x80] ++ List.replicate k 0 ++
    (List.range 8).map (fun j => bitLen / (256 ^ j) % 256)

/-- Serialize one 32-bit word to 4 little-endian bytes. -/
def wordBytes (w : Nat) : List Nat :=
  [w % 256, w / 256 % 256, w / 65536 % 256, w / 16777216 % 256]

/-- The 16-byte MD5 digest of a byte list (`crypto/md5`). -/
def md5Bytes (msg : List Nat) : List Nat :=
  let (a, b, c, d) :=
    (chunks64 (md5Pad msg)).foldl md5Chunk
      (0x67452301, 0xefcdab89, 0x98badcfe, 0x10325476)
  wordBytes a ++ wordBytes b ++ wordBytes c ++ wordBytes d

/-! ## base64.URLEncoding (encoding/base64) -/

/-- The URL-safe base64 alphabet. -/
def b64Char (n : Nat) : Char :=
  "ABCDEFGHIJKLMNOPQRSTUVWXYZabcdefghijklmnopqrstuvwxyz0123456789-_".toList.getD n 'A'

/-- base64.URLEncoding.EncodeToString over a byte list, with `=` padding. -/
def base64Url (bs : List Nat) : List Char :=
  match bs with
  | [] => []
  | [b0] =>
      [b64Char (b0 / 4), b64Char (b0 % 4 * 16), '=', '=']
  | [b0, b1] =>
      [b64Char (b0 / 4), b64Char (b0 % 4 * 16 + b1 / 16), b64Char (b1 % 16 * 4), '=']
  | b0 :: b1 :: b2 :: rest =>
      b64Char (b0 / 4) :: b64Char (b0 % 4 * 16 + b1 / 16) ::
        b64Char (b1 % 16 * 4 + b2 / 64) :: b64Char (b2 % 64) :: base64Url rest

/-- The bytes of a Go string (ASCII characters are one byte each). -/
def strBytes (s : String) : List Nat := s.data.map Char.toNat

/-- Go byte-slicing `s[:n]` under the byte-per-character modelling. -/
def strTake (s : String) (n : Nat) : String := ⟨s.data.take n⟩

/-- The base64-URL encoding of the MD5 digest of a string, as produced by
`base64.URLEncoding.EncodeToString(hash.Sum(nil))` in `chainName` and
`PuPortSetName`. -/
def md5B64 (s : String) : String := ⟨base64Url (md5Bytes (strBytes s))⟩

/-! ## Decimal rendering (strconv.Itoa for the non-negative ints that occur) -/

/-- One decimal digit character. -/
def digitCh (n : Nat) : Char :=
  match n with
  | 0 => '0' | 1 => '1' | 2 => '2' | 3 => '3' | 4 => '4'
  | 5 => '5' | 6 => '6' | 7 => '7' | 8 => '8' | _ => '9'

/-- Decimal digits of a natural number (fuel-structural so it reduces). -/
def natDigits : Nat → Nat → List Char
  | 0, _ => []
  | fuel + 1, n =>
      if n < 10 then [digitCh n]
      else natDigits fuel (n / 10) ++ [digitCh (n % 10)]

/-- `strconv.Itoa`. The version argument of `chainName` is a Go `int`, but the
supervisor only ever passes 0 or 1 (`doCreatePU` stores version 0 and `revert`
xors the stored version with 1), so versions are modelled as `Nat`. -/
def itoa (n : Nat) : String := ⟨natDigits (n + 1) n⟩

/-! ## Chain and set names (iptablesctrl, src/unnamed/part_004) -/

/-- Source constant `chainPrefix`. -/
def chainPfx : String := "TRIREME-"

/-- Source constant `appChainPrefix`. -/
def appChainPfx : String := chainPfx ++ "App-"

/-- Source constant `netChainPrefix`. -/
def netChainPfx : String := chainPfx ++ "Net-"

/-- Source constant `PuPortSet`. -/
def puPortSetPfx : String := "PUPort-"

/-- Source constant `proxyPortSet`. -/
def proxyPortSetPfx : String := "Proxy-"

/-- The tag out of which `chainName` builds both chain names: the first 4
bytes of the contextID (all of it when it has at most 4 bytes) followed by
the first 6 characters of the base64 MD5 of the contextID. -/
def chainTag (contextID : String) : String :=
  let output := md5B64 contextID
  if contextID.length > 4 then strTake contextID 4 ++ strTake output 6
  else contextID ++ strTake output 6

/-- `Instance.chainName` (part_004:107-124).  The `io.WriteString` into the
md5 hash cannot fail, so the error result is omitted. -/
def chainName (contextID : String) (version : Nat) : String × String :=
  (appChainPfx ++ chainTag contextID ++ "-" ++ itoa version,
   netChainPfx ++ chainTag contextID ++ "-" ++ itoa version)

/-- `PuPortSetName` (part_004:127-143). -/
def PuPortSetName (contextID mark pfx : String) : String :=
  let output := md5B64 contextID
  let contextID' :=
    if contextID.length > 4 then strTake contextID 4 ++ strTake output 4
    else contextID ++ strTake output 4
  pfx ++ contextID' ++ mark

/-! ## The policy data model (policy package, src/unnamed/part_000 and its
collaborators) -/

/-- `constants.ModeType`. -/
inductive ModeType
  | LocalServer
  | LocalContainer
  | RemoteContainer
  deriving DecidableEq

/-- `constants.PUType`. -/
inductive PUType
  | ContainerPU
  | LinuxProcessPU
  | UIDLoginPU
  deriving DecidableEq

/-- `policy.DefaultNamespace`; its definition is not under src/ (only callers
are), the concrete value is irrelevant to every claim. -/
def DefaultNamespace : String := "bridge"

/-- `policy.ExtendedMap`, a map from namespace to IP address. -/
abbrev ExtendedMap := List (String × String)

/-- `policy.TagStore`; `NewTagStore` produces an empty store. -/
structure TagStore where
  tags : List String
  deriving DecidableEq

/-- `policy.NewTagStore`. -/
def NewTagStore : TagStore := ⟨[]⟩

/-- Modelled from the spec: `policy.OptionsType` is not under src/; per §6 the
runtime options carry `options.proxyPort`, `options.cgroupMark`,
`options.userID` and `options.services` (a list of port specs), which are all
the fields this code reads.  The Go zero value has every field empty. -/
structure OptionsType where
  CgroupMark : String := ""
  UserID : String := ""
  Services : List String := []
  ProxyPort : String := ""
  deriving DecidableEq

/-- Modelled from the spec: `policy.ConvertServicesToPortList` is not under
src/; it renders the service port specs as one comma-separated port-list
string, `"0"` when there are none (the multiport jump rule needs a port). -/
def ConvertServicesToPortList (services : List String) : String :=
  if services = [] then "0" else String.intercalate "," services

/-- `policy.PURuntime` (part_000:11-34).  The pointer/nil-able fields `ips`,
`tags` and `options` are modelled as `Option`. -/
structure PURuntime where
  puType : PUType
  pid : Int
  nsPath : String
  name : String
  ips : Option ExtendedMap
  tags : Option TagStore
  options : Option OptionsType
  sidecarUID : String

/-- `policy.NewPURuntime` (part_000:55-82). -/
def NewPURuntime (name : String) (pid : Int) (nsPath : String)
    (tags : Option TagStore) (ips : Option ExtendedMap) (puType : PUType)
    (options : Option OptionsType) (sidecarUID : String) : PURuntime :=
  let t := match tags with
    | none => NewTagStore
    | some t => t
  let i := match ips with
    | none => ([] : ExtendedMap)
    | some i => i
  let options' := match options with
    | none => ({ ProxyPort := "5000" } : OptionsType)
    | some o => o
  { puType := puType, tags := some t, ips := some i, options := some options',
    pid := pid, nsPath := nsPath, name := name, sidecarUID := sidecarUID }

/-- `policy.NewPURuntimeWithDefaults` (part_000:85-88). -/
def NewPURuntimeWithDefaults : PURuntime :=
  NewPURuntime "" 0 "" none none PUType.ContainerPU none ""

/-- `PURuntime.Options` (part_000:243-252): the zero-value `OptionsType` when
the stored pointer is nil. -/
def PURuntime.Options (r : PURuntime) : OptionsType :=
  match r.options with
  | none => {}
  | some o => o

/-- Modelled from the spec: the observation enum of §3,
`{None, ObserveContinue, ObserveApply}`; its Go definition
(`policy.ObserveActionType`) is not under src/. -/
inductive ObserveActionType
  | ObserveNone
  | ObserveContinue
  | ObserveApply
  deriving DecidableEq

/-- `ObserveActionType.ObserveContinue()`. -/
def ObserveActionType.observeContinue : ObserveActionType → Bool
  | .ObserveContinue => true
  | _ => false

/-- `ObserveActionType.ObserveApply()`. -/
def ObserveActionType.observeApply : ObserveActionType → Bool
  | .ObserveApply => true
  | _ => false

/-- `ObserveActionType.Observed()`: any observation mode other than none. -/
def ObserveActionType.observed : ObserveActionType → Bool
  | .ObserveNone => false
  | _ => true

/-- Modelled from the spec: the action bitmask of §3 (`policy.ActionType` is
not under src/): `{Accept, Reject}` exclusive, optionally OR-ed with `Log`.
Only the bit-disjointness of the three values matters. -/
def ActionAccept : Nat := 1

/-- The reject bit of the action bitmask. -/
def ActionReject : Nat := 2

/-- The log bit of the action bitmask. -/
def ActionLog : Nat := 4

/-- `policy.FlowPolicy` as read by the ACL renderers: the action bitmask, the
observation mode, and the policy id used in log prefixes. -/
structure FlowPolicy where
  Action : Nat
  ObserveAction : ObserveActionType
  PolicyID : String := ""
  deriving DecidableEq

/-- Modelled from the spec: `FlowPolicy.LogPrefix(contextID)` (not under
src/) renders the NFLOG prefix from the contextID and the policy id. -/
def FlowPolicy.logPfxOf (p : FlowPolicy) (contextID : String) : String :=
  contextID ++ ":" ++ p.PolicyID

/-- Modelled from the spec: `policy.DefaultLogPrefix(contextID)` (not under
src/), the NFLOG prefix of the tail catch-all log rule. -/
def defaultLogPfxOf (contextID : String) : String :=
  contextID ++ ":default"

/-- `policy.IPRule`.  The `Policy` pointer is always non-nil where the ACL
renderers dereference it and is modelled as a plain field. -/
structure IPRule where
  Address : String
  Port : String
  Protocol : String
  Policy : FlowPolicy
  deriving DecidableEq

/-- `policy.IPRuleList`. -/
abbrev IPRuleList := List IPRule

/-- `policy.ProxiedServicesInfo`. -/
structure ProxiedServicesInfo where
  PublicIPPortPair : List String := []
  PrivateIPPortPair : List String := []
  deriving DecidableEq

/-- The part of `policy.PUPolicy` the supervisor reads, with fields named
after the accessors it calls. -/
structure PUPolicy where
  ipAddresses : ExtendedMap
  applicationACLs : IPRuleList
  networkACLs : IPRuleList
  excludedNetworks : List String
  triremeNetworks : List String
  proxiedServices : ProxiedServicesInfo

/-- `policy.PUInfo` with its `Policy` and `Runtime` pointers non-nil; the
callers that must handle nil pointers take an `Option PUInfo`, a nil
`PUInfo`, a nil `Policy` and a nil `Runtime` being rejected identically
(`Supervise`, part_006:92; `UpdateRules`, part_004:322-329). -/
structure PUInfo where
  Policy : PUPolicy
  Runtime : PURuntime

/-! ## The packet-filter engine surface

Every call the iptables controller makes to the rule engine (the
`IptablesProvider` and `IpsetProvider` collaborators and the port-set
tracker) is recorded as one `Cmd`; the controller's functions produce the
exact sequence of calls they would issue, together with the error they
return.  An oracle decides which engine calls succeed. -/

/-- One call into the packet-filter engine or the port-set tracker. -/
inductive Cmd
  | newChain (table chain : String)
  | clearChain (table chain : String)
  | deleteChain (table chain : String)
  | append (table chain : String) (rulespec : List String)
  | insert (table chain : String) (pos : Nat) (rulespec : List String)
  | delete (table chain : String) (rulespec : List String)
  | createSet (name : String)
  | destroySet (name : String)
  | addUserPortSet (uid portset mark : String)
  | delUserPortSet (uid mark : String)
  | updateProxySet (name : String)
  deriving DecidableEq

/-- The typed errors these functions return. -/
inductive Err
  | invalidPU
  | notFound (contextID : String)
  | noIP
  | noMark
  | nilContainer
  | portsetNil
  | engine (c : Cmd)
  deriving DecidableEq

/-- What a run of a controller function produces: the engine calls it
attempted, in order, and the error it returned (none on success). -/
structure EngineResult where
  trace : List Cmd
  err : Option Err
  deriving DecidableEq

/-- Sequencing with the Go early-return discipline: if the first part
errored, the second never runs. -/
def EngineResult.seq (r s : EngineResult) : EngineResult :=
  match r.err with
  | some _ => r
  | none => ⟨r.trace ++ s.trace, s.err⟩

/-- An immediately failing result. -/
def engineErr (e : Err) : EngineResult := ⟨[], some e⟩

/-- Issue calls in order, stopping at the first one the engine rejects
(the discipline of `NewChain`/`Append`/`Insert` call sites). -/
def runStrict (oracle : Cmd → Bool) : List Cmd → EngineResult
  | [] => ⟨[], none⟩
  | c :: cs =>
      if oracle c then
        let r := runStrict oracle cs
        ⟨c :: r.trace, r.err⟩
      else ⟨[c], some (.engine c)⟩

/-- Issue every call regardless of failures, which are only logged (the
discipline of the cleanup paths). -/
def runBestEffort (_oracle : Cmd → Bool) (cs : List Cmd) : EngineResult :=
  ⟨cs, none⟩

/-! ## The iptables controller (iptablesctrl, src/unnamed/part_004 and
src/internal/supervisor/iptablesctrl/acls.go) -/

/-- Source constant `uidchain`. -/
def uidchain : String := "UIDCHAIN"

/-- Source constant `targetNetworkSet`. -/
def targetNetworkSet : String := "TargetNetSet"

/-- Source constant `ipTableSectionOutput` (the source maps it to
POSTROUTING). -/
def ipTableSectionOutput : String := "POSTROUTING"

/-- Source constant `ipTableSectionInput`. -/
def ipTableSectionInput : String := "INPUT"

/-- Source constant `ipTableSectionPreRouting`. -/
def ipTableSectionPreRouting : String := "PREROUTING"

/-- Source constant `ipTableSectionPostRouting`. -/
def ipTableSectionPostRouting : String := "POSTROUTING"

/-- Source constant `natProxyOutputChain`. -/
def natProxyOutputChain : String := "RedirProxy-App"

/-- Source constant `natProxyInputChain`. -/
def natProxyInputChain : String := "RedirProxy-Net"

/-- Source constant `proxyOutputChain`. -/
def proxyOutputChain : String := "Proxy-App"

/-- Source constant `proxyInputChain`. -/
def proxyInputChain : String := "Proxy-Net"

/-- Source constant `proxyMark`. -/
def proxyMark : String := "0x40"

/-- Source constant `observeMark` (acls.go:17). -/
def observeMark : String := "39"

/-- `packet.TCPAuthenticationOption`: its definition is not under src/; the
value 34 is pinned by the SynAck capture rule that spells it out
(part_004:1004, `"--tcp-option", "34"`). -/
def TCPAuthenticationOption : Nat := 34

/-- Modelled from the spec: the per-PU filter-queue numbers
(`fqconfig.FilterQueue` is not under src/); only the rendered queue-balance
strings and the mark value appear in rules. -/
structure FilterQueue where
  applicationQueueSynStr : String := "0:3"
  applicationQueueAckStr : String := "4:7"
  applicationQueueSynAckStr : String := "4:7"
  networkQueueSynStr : String := "8:11"
  networkQueueAckStr : String := "12:15"
  networkQueueSynAckStr : String := "12:15"
  markValue : Nat := 1000
  deriving DecidableEq

/-- `iptablesctrl.Instance` (part_004:46-63); the table and section fields
that `NewInstance` derives from the mode are functions below, and
`portSetPresent` records whether the `portSetInstance` pointer is non-nil. -/
structure Instance where
  fqc : FilterQueue
  mode : ModeType
  portSetPresent : Bool

/-- `Instance.appPacketIPTableContext` as set by `NewInstance`. -/
def Instance.appPacketIPTableContext (_ : Instance) : String := "raw"

/-- `Instance.appAckPacketIPTableContext` as set by `NewInstance`. -/
def Instance.appAckPacketIPTableContext (_ : Instance) : String := "mangle"

/-- `Instance.netPacketIPTableContext` as set by `NewInstance`. -/
def Instance.netPacketIPTableContext (_ : Instance) : String := "mangle"

/-- `Instance.appProxyIPTableContext` as set by `NewInstance`. -/
def Instance.appProxyIPTableContext (_ : Instance) : String := "nat"

/-- `Instance.appPacketIPTableSection` as set by `NewInstance`
(part_004:90-100). -/
def Instance.appPacketIPTableSection (i : Instance) : String :=
  match i.mode with
  | .LocalServer | .RemoteContainer => ipTableSectionOutput
  | .LocalContainer => ipTableSectionPreRouting

/-- `Instance.appCgroupIPTableSection` as set by `NewInstance`. -/
def Instance.appCgroupIPTableSection (_ : Instance) : String :=
  ipTableSectionOutput

/-- `Instance.netPacketIPTableSection` as set by `NewInstance`. -/
def Instance.netPacketIPTableSection (i : Instance) : String :=
  match i.mode with
  | .LocalServer | .RemoteContainer => ipTableSectionInput
  | .LocalContainer => ipTableSectionPostRouting

/-- `Instance.appSynAckIPTableSection` as set by `NewInstance`. -/
def Instance.appSynAckIPTableSection (i : Instance) : String :=
  match i.mode with
  | .LocalServer | .RemoteContainer => ipTableSectionOutput
  | .LocalContainer => ipTableSectionInput

/-- Modelled from the spec: `getSetNamePair` is not under src/; per §6 the
per-PU proxy sets are the `-dst` and `-src` suffixed pair of the proxy port
set name. -/
def getSetNamePair (proxyPortSetName : String) : String × String :=
  (proxyPortSetName ++ "-dst", proxyPortSetName ++ "-src")

/-- `Instance.defaultIP` (part_004:146-157). -/
def Instance.defaultIP (i : Instance) (addresslist : ExtendedMap) :
    String × Bool :=
  match addresslist.lookup DefaultNamespace with
  | some ip =>
      if ip.length > 0 then (ip, true)
      else if i.mode = .LocalContainer then ("0.0.0.0/0", false)
      else ("0.0.0.0/0", true)
  | none =>
      if i.mode = .LocalContainer then ("0.0.0.0/0", false)
      else ("0.0.0.0/0", true)

/-- A `[][]string` entry of the rule-list builders: table, chain, rulespec. -/
abbrev RuleTriple := String × String × List String

/-- `Instance.cgroupChainRules` (acls.go:19-102). -/
def Instance.cgroupChainRules (i : Instance)
    (appChain netChain mark port _uid proxyPort proxyPortSetName : String) :
    List RuleTriple :=
  let (destSetName, srcSetName) := getSetNamePair proxyPortSetName
  [(i.appAckPacketIPTableContext, i.appCgroupIPTableSection,
      ["-m", "cgroup", "--cgroup", mark,
       "-m", "comment", "--comment", "Server-specific-chain",
       "-j", "MARK", "--set-mark", mark]),
   (i.appAckPacketIPTableContext, i.appCgroupIPTableSection,
      ["-m", "cgroup", "--cgroup", mark,
       "-m", "comment", "--comment", "Server-specific-chain",
       "-j", appChain]),
   (i.appProxyIPTableContext, natProxyInputChain,
      ["-p", "tcp", "-m", "mark", "!", "--mark", proxyMark,
       "-m", "set", "--match-set", srcSetName, "src,dst",
       "-j", "REDIRECT", "--to-port", proxyPort]),
   (i.appProxyIPTableContext, natProxyOutputChain,
      ["-p", "tcp", "-m", "set", "--match-set", destSetName, "dst,dst",
       "-m", "mark", "!", "--mark", proxyMark,
       "-j", "REDIRECT", "--to-port", proxyPort]),
   (i.netPacketIPTableContext, proxyInputChain,
      ["-p", "tcp", "-m", "set", "--match-set", destSetName, "src,src",
       "-m", "mark", "!", "--mark", proxyMark, "-j", "ACCEPT"]),
   (i.netPacketIPTableContext, proxyInputChain,
      ["-p", "tcp", "-m", "set", "--match-set", srcSetName, "src,dst",
       "-m", "mark", "!", "--mark", proxyMark, "-j", "ACCEPT"]),
   (i.appAckPacketIPTableContext, proxyOutputChain,
      ["-p", "tcp", "-m", "set", "--match-set", destSetName, "dst,dst",
       "-m", "mark", "!", "--mark", proxyMark, "-j", "ACCEPT"]),
   (i.netPacketIPTableContext, i.netPacketIPTableSection,
      ["-p", "tcp", "-m", "multiport", "--destination-ports", port,
       "-m", "comment", "--comment", "Container-specific-chain",
       "-j", netChain])]

/-- `Instance.uidChainRules` (acls.go:104-138). -/
def Instance.uidChainRules (i : Instance)
    (portSetName appChain netChain mark _port uid _proxyPort
      _proxyPortSetName : String) : List RuleTriple :=
  [(i.appAckPacketIPTableContext, uidchain,
      ["-m", "owner", "--uid-owner", uid, "-j", "MARK", "--set-mark", mark]),
   (i.appAckPacketIPTableContext, uidchain,
      ["-m", "mark", "--mark", mark,
       "-m", "comment", "--comment", "Server-specific-chain",
       "-j", appChain]),
   (i.appAckPacketIPTableContext, ipTableSectionPreRouting,
      ["-m", "set", "--match-set", portSetName, "dst",
       "-j", "MARK", "--set-mark", mark]),
   (i.netPacketIPTableContext, i.netPacketIPTableSection,
      ["-p", "tcp", "-m", "mark", "--mark", mark,
       "-m", "comment", "--comment", "Container-specific-chain 1",
       "-j", netChain])]

/-- `Instance.chainRules` (acls.go:140-236), the container-mode jump rules. -/
def Instance.chainRules (i : Instance)
    (appChain netChain ip _port proxyPort proxyPortSetName : String) :
    List RuleTriple :=
  let (destSetName, srcSetName) := getSetNamePair proxyPortSetName
  (if i.mode = .LocalContainer then
    [(i.appPacketIPTableContext, i.appPacketIPTableSection,
        ["-s", ip, "-m", "comment", "--comment", "Container-specific-chain",
         "-j", appChain])]
  else []) ++
  [(i.appAckPacketIPTableContext, i.appPacketIPTableSection,
      ["-s", ip, "-m", "comment", "--comment", "Container-specific-chain",
       "-j", appChain]),
   (i.netPacketIPTableContext, i.netPacketIPTableSection,
      ["!", "-i", "lo", "-d", ip,
       "-m", "comment", "--comment", "Container-specific-chain",
       "-j", netChain]),
   (i.appProxyIPTableContext, natProxyInputChain,
      ["-p", "tcp", "-m", "mark", "!", "--mark", proxyMark,
       "-m", "set", "--match-set", srcSetName, "src,dst",
       "-j", "REDIRECT", "--to-port", proxyPort]),
   (i.appProxyIPTableContext, natProxyOutputChain,
      ["-p", "tcp", "-m", "set", "--match-set", destSetName, "dst,dst",
       "-m", "mark", "!", "--mark", proxyMark,
       "-j", "REDIRECT", "--to-port", proxyPort]),
   (i.netPacketIPTableContext, proxyInputChain,
      ["-p", "tcp", "-m", "set", "--match-set", destSetName, "src,src",
       "-m", "mark", "!", "--mark", proxyMark, "-j", "ACCEPT"]),
   (i.netPacketIPTableContext, proxyInputChain,
      ["-p", "tcp", "-m", "set", "--match-set", srcSetName, "src,dst",
       "-m", "mark", "!", "--mark", proxyMark, "-j", "ACCEPT"]),
   (i.netPacketIPTableContext, proxyInputChain,
      ["-p", "tcp", "--dport", proxyPort, "-j", "ACCEPT"]),
   (i.appAckPacketIPTableContext, proxyOutputChain,
      ["-p", "tcp", "-m", "set", "--match-set", destSetName, "dst,dst",
       "-m", "mark", "!", "--mark", proxyMark, "-j", "ACCEPT"])]

/-- `Instance.trapRules` (acls.go:238-325), the NFQUEUE capture rules. -/
def Instance.trapRules (i : Instance) (appChain netChain : String) :
    List RuleTriple :=
  if i.mode = .LocalContainer then
    [(i.appPacketIPTableContext, appChain,
        ["-m", "set", "--match-set", targetNetworkSet, "dst",
         "-p", "tcp", "--tcp-flags", "FIN,SYN,RST,PSH,URG", "SYN",
         "-j", "NFQUEUE", "--queue-balance", i.fqc.applicationQueueSynStr]),
     (i.appAckPacketIPTableContext, appChain,
        ["-m", "set", "--match-set", targetNetworkSet, "dst",
         "-p", "tcp", "--tcp-flags", "SYN,ACK", "ACK",
         "-m", "connbytes", "--connbytes", ":3", "--connbytes-dir",
         "original", "--connbytes-mode", "packets",
         "-j", "NFQUEUE", "--queue-balance", i.fqc.applicationQueueAckStr]),
     (i.appAckPacketIPTableContext, appChain,
        ["-m", "set", "--match-set", targetNetworkSet, "dst",
         "-p", "tcp", "--tcp-flags", "SYN,ACK", "SYN,ACK",
         "-m", "connbytes", "--connbytes", ":3", "--connbytes-dir",
         "original", "--connbytes-mode", "packets",
         "-j", "NFQUEUE", "--queue-balance", i.fqc.applicationQueueAckStr]),
     (i.netPacketIPTableContext, netChain,
        ["-m", "set", "--match-set", targetNetworkSet, "src",
         "-p", "tcp", "--tcp-flags", "SYN,ACK", "SYN",
         "-j", "NFQUEUE", "--queue-balance", i.fqc.networkQueueSynStr]),
     (i.netPacketIPTableContext, netChain,
        ["-m", "set", "--match-set", targetNetworkSet, "src",
         "-p", "tcp",
         "-m", "connbytes", "--connbytes", ":3", "--connbytes-dir",
         "original", "--connbytes-mode", "packets",
         "-j", "NFQUEUE", "--queue-balance", i.fqc.networkQueueAckStr])]
  else
    [(i.appAckPacketIPTableContext, appChain,
        ["-m", "set", "--match-set", targetNetworkSet, "dst",
         "-p", "tcp", "--tcp-flags", "SYN,ACK", "SYN",
         "-j", "NFQUEUE", "--queue-balance", i.fqc.applicationQueueSynStr]),
     (i.appAckPacketIPTableContext, appChain,
        ["-m", "set", "--match-set", targetNetworkSet, "dst",
         "-p", "tcp", "--tcp-flags", "SYN,ACK", "ACK",
         "-j", "NFQUEUE", "--queue-balance", i.fqc.applicationQueueAckStr]),
     (i.appAckPacketIPTableContext, appChain,
        ["-m", "set", "--match-set", targetNetworkSet, "dst",
         "-p", "tcp", "--tcp-flags", "SYN,ACK", "SYN,ACK",
         "-j", "NFQUEUE", "--queue-balance", i.fqc.applicationQueueAckStr]),
     (i.netPacketIPTableContext, netChain,
        ["-m", "set", "--match-set", targetNetworkSet, "src",
         "-p", "tcp", "--tcp-flags", "SYN,ACK", "SYN",
         "-j", "NFQUEUE", "--queue-balance", i.fqc.networkQueueSynStr]),
     (i.netPacketIPTableContext, netChain,
        ["-m", "set", "--match-set", targetNetworkSet, "src",
         "-p", "tcp", "--tcp-flags", "SYN,ACK", "ACK",
         "-j", "NFQUEUE", "--queue-balance", i.fqc.networkQueueAckStr])]

/-- The method argument of `processRulesFromList`. -/
inductive RuleMethod
  | Append
  | Insert
  | Delete
  deriving DecidableEq

/-- `Instance.processRulesFromList` (acls.go:349-369): Append and Insert
stop at the first engine rejection; Delete failures are only logged. -/
def processRulesFromList (oracle : Cmd → Bool) (rulelist : List RuleTriple)
    (method : RuleMethod) : EngineResult :=
  match method with
  | .Append =>
      runStrict oracle (rulelist.map fun r => Cmd.append r.1 r.2.1 r.2.2)
  | .Insert =>
      runStrict oracle (rulelist.map fun r => Cmd.insert r.1 r.2.1 1 r.2.2)
  | .Delete =>
      runBestEffort oracle (rulelist.map fun r => Cmd.delete r.1 r.2.1 r.2.2)

/-- `Instance.addChainRules` (acls.go:371-384). -/
def Instance.addChainRules (i : Instance) (oracle : Cmd → Bool)
    (portSetName appChain netChain ip port mark uid proxyPort
      proxyPortSetName : String) : EngineResult :=
  if i.mode = .LocalServer then
    if port ≠ "0" ∨ uid = "" then
      processRulesFromList oracle
        (i.cgroupChainRules appChain netChain mark port uid proxyPort
          proxyPortSetName) .Append
    else
      processRulesFromList oracle
        (i.uidChainRules portSetName appChain netChain mark port uid
          proxyPort proxyPortSetName) .Append
  else
    processRulesFromList oracle
      (i.chainRules appChain netChain ip port proxyPort proxyPortSetName)
      .Append

/-- `Instance.deleteChainRules` (acls.go:881-892). -/
def Instance.deleteChainRules (i : Instance) (oracle : Cmd → Bool)
    (portSetName appChain netChain ip port mark uid proxyPort
      proxyPortSetName : String) : EngineResult :=
  if i.mode = .LocalServer then
    if uid = "" then
      processRulesFromList oracle
        (i.cgroupChainRules appChain netChain mark port uid proxyPort
          proxyPortSetName) .Delete
    else
      processRulesFromList oracle
        (i.uidChainRules portSetName appChain netChain mark port uid
          proxyPort proxyPortSetName) .Delete
  else
    processRulesFromList oracle
      (i.chainRules appChain netChain ip port proxyPort proxyPortSetName)
      .Delete

/-- `Instance.addPacketTrap` (acls.go:386-391). -/
def Instance.addPacketTrap (i : Instance) (oracle : Cmd → Bool)
    (appChain netChain _ip : String) (_networks : List String) :
    EngineResult :=
  processRulesFromList oracle (i.trapRules appChain netChain) .Append

/-- `Instance.addContainerChain` (acls.go:327-347). -/
def Instance.addContainerChain (i : Instance) (oracle : Cmd → Bool)
    (appChain netChain : String) : EngineResult :=
  runStrict oracle
    ((if i.mode = .LocalContainer then
        [Cmd.newChain i.appPacketIPTableContext appChain]
      else []) ++
     [Cmd.newChain i.appAckPacketIPTableContext appChain,
      Cmd.newChain i.netPacketIPTableContext netChain])

/-- `Instance.deleteAllContainerChains` (acls.go:894-946): clear and delete
both chains in every table, all failures only logged. -/
def Instance.deleteAllContainerChains (i : Instance) (oracle : Cmd → Bool)
    (appChain netChain : String) : EngineResult :=
  runBestEffort oracle
    [Cmd.clearChain i.appPacketIPTableContext appChain,
     Cmd.deleteChain i.appPacketIPTableContext appChain,
     Cmd.clearChain i.appAckPacketIPTableContext appChain,
     Cmd.deleteChain i.appAckPacketIPTableContext appChain,
     Cmd.clearChain i.netPacketIPTableContext netChain,
     Cmd.deleteChain i.netPacketIPTableContext netChain]

/-- Modelled from the spec: `createProxySets` is not under src/; per §6 it
creates the per-PU `-dst`/`-src` proxy ipset pair. -/
def Instance.createProxySets (_i : Instance) (oracle : Cmd → Bool)
    (_public _private : List String) (proxyPortSetName : String) :
    EngineResult :=
  let (destSetName, srcSetName) := getSetNamePair proxyPortSetName
  runStrict oracle [Cmd.createSet destSetName, Cmd.createSet srcSetName]

/-- Modelled from the spec: `createPUPortSet` is not under src/; it creates
the (initially empty) per-PU port ipset (§4.8). -/
def Instance.createPUPortSet (_i : Instance) (oracle : Cmd → Bool)
    (setname : String) : EngineResult :=
  runStrict oracle [Cmd.createSet setname]

/-- Modelled from the spec: `updateProxySet` is not under src/; it replaces
the members of the per-PU proxy set pair (it neither creates nor destroys
sets). -/
def Instance.updateProxySet (_i : Instance) (oracle : Cmd → Bool)
    (_public _private : List String) (proxyPortSetName : String) :
    EngineResult :=
  runStrict oracle [Cmd.updateProxySet proxyPortSetName]

/-- ASCII lower-casing of one character. -/
def lowerCh (c : Char) : Char :=
  if 'A' ≤ c ∧ c ≤ 'Z' then Char.ofNat (c.toNat + 32) else c

/-- `strings.ToLower` for the ASCII protocol names compared here. -/
def toLower (s : String) : String := ⟨s.data.map lowerCh⟩

/-- The engine calls `addAppACLs` (acls.go:395-634) issues for one rule of
the list (none when the rule's action is neither accept nor reject). -/
def Instance.appACLRuleCmds (i : Instance) (contextID chain : String)
    (r : IPRule) : List Cmd :=
  let observeContinue := r.Policy.ObserveAction.observeContinue
  let proto := toLower r.Protocol
  let masked := r.Policy.Action &&& (ActionAccept ||| ActionReject)
  if proto = "udp" ∨ proto = "tcp" then
    if masked = ActionAccept then
      (if r.Policy.Action &&& ActionLog > 0 ∨ observeContinue then
        [Cmd.append i.appAckPacketIPTableContext chain
          ["-p", r.Protocol, "-d", r.Address, "--dport", r.Port,
           "-m", "mark", "!", "--mark", observeMark,
           "-m", "state", "--state", "NEW",
           "-j", "NFLOG", "--nflog-group", "10",
           "--nflog-prefix", r.Policy.logPfxOf contextID]]
      else []) ++
      (if observeContinue then
        [Cmd.append i.appAckPacketIPTableContext chain
          ["-p", r.Protocol, "-m", "state", "--state", "NEW",
           "-d", r.Address, "--dport", r.Port,
           "-m", "mark", "!", "--mark", observeMark,
           "-j", "MARK", "--set-mark", observeMark]]
      else
        [Cmd.append i.appAckPacketIPTableContext chain
          ["-p", r.Protocol, "-m", "state", "--state", "NEW",
           "-d", r.Address, "--dport", r.Port, "-j", "ACCEPT"]])
    else if masked = ActionReject then
      (if observeContinue then
        [Cmd.insert i.appAckPacketIPTableContext chain 1
          ["-p", r.Protocol, "-m", "state", "--state", "NEW",
           "-d", r.Address, "--dport", r.Port,
           "-m", "mark", "!", "--mark", observeMark,
           "-j", "MARK", "--set-mark", observeMark]]
      else
        [Cmd.insert i.appAckPacketIPTableContext chain 1
          ["-p", r.Protocol, "-m", "state", "--state", "NEW",
           "-d", r.Address, "--dport", r.Port, "-j", "DROP"]]) ++
      (if r.Policy.Action &&& ActionLog > 0 ∨ observeContinue then
        [Cmd.insert i.appAckPacketIPTableContext chain 1
          ["-p", r.Protocol, "-d", r.Address, "--dport", r.Port,
           "-m", "mark", "!", "--mark", observeMark,
           "-m", "state", "--state", "NEW",
           "-j", "NFLOG", "--nflog-group", "10",
           "--nflog-prefix", r.Policy.logPfxOf contextID]]
      else [])
    else []
  else
    if masked = ActionAccept then
      (if r.Policy.Action &&& ActionLog > 0 ∨ observeContinue then
        [Cmd.append i.appAckPacketIPTableContext chain
          ["-p", r.Protocol, "-d", r.Address,
           "-m", "state", "--state", "NEW",
           "-m", "mark", "!", "--mark", observeMark,
           "-j", "NFLOG", "--nflog-group", "10",
           "--nflog-prefix", r.Policy.logPfxOf contextID]]
      else []) ++
      (if observeContinue then
        [Cmd.append i.appAckPacketIPTableContext chain
          ["-p", r.Protocol, "-d", r.Address,
           "-m", "mark", "!", "--mark", observeMark,
           "-j", "MARK", "--set-mark", observeMark]]
      else
        [Cmd.append i.appAckPacketIPTableContext chain
          ["-p", r.Protocol, "-d", r.Address, "-j", "ACCEPT"]])
    else if masked = ActionReject then
      (if observeContinue then
        [Cmd.insert i.appAckPacketIPTableContext chain 1
          ["-p", r.Protocol, "-d", r.Address,
           "-m", "mark", "!", "--mark", observeMark,
           "-j", "MARK", "--set-mark", observeMark]]
      else
        [Cmd.insert i.appAckPacketIPTableContext chain 1
          ["-p", r.Protocol, "-d", r.Address, "-j", "DROP"]]) ++
      (if r.Policy.Action &&& ActionLog > 0 ∨ observeContinue then
        [Cmd.insert i.appAckPacketIPTableContext chain 1
          ["-p", r.Protocol, "-d", r.Address,
           "-m", "state", "--state", "NEW",
           "-m", "mark", "!", "--mark", observeMark,
           "-j", "NFLOG", "--nflog-group", "10",
           "--nflog-prefix", r.Policy.logPfxOf contextID]]
      else [])
    else []

/-- Whether the inner loop of the ACL renderers skips a rule in pass
`loop` (acls.go:401-415 and 644-658). -/
def aclPassSkips (loop : Nat) (r : IPRule) : Bool :=
  match loop with
  | 0 => !r.Policy.ObserveAction.observeContinue
  | 1 => r.Policy.ObserveAction.observed
  | _ => !r.Policy.ObserveAction.observeApply

/-- One pass of the `addAppACLs` loop over the rule list. -/
def Instance.appACLPassCmds (i : Instance) (contextID chain : String)
    (loop : Nat) : IPRuleList → List Cmd
  | [] => []
  | r :: rs =>
      if aclPassSkips loop r then i.appACLPassCmds contextID chain loop rs
      else i.appACLRuleCmds contextID chain r ++
        i.appACLPassCmds contextID chain loop rs

/-- The tail rules of `addAppACLs` (acls.go:593-631): accept established
connections, log and drop everything else. -/
def Instance.appACLTailCmds (i : Instance) (contextID chain : String) :
    List Cmd :=
  [Cmd.append i.appAckPacketIPTableContext chain
     ["-d", "0.0.0.0/0", "-p", "udp",
      "-m", "state", "--state", "ESTABLISHED", "-j", "ACCEPT"],
   Cmd.append i.appAckPacketIPTableContext chain
     ["-d", "0.0.0.0/0", "-p", "tcp",
      "-m", "state", "--state", "ESTABLISHED", "-j", "ACCEPT"],
   Cmd.append i.appAckPacketIPTableContext chain
     ["-d", "0.0.0.0/0", "-m", "state", "--state", "NEW",
      "-j", "NFLOG", "--nflog-group", "10",
      "--nflog-prefix", defaultLogPfxOf contextID],
   Cmd.append i.appAckPacketIPTableContext chain
     ["-d", "0.0.0.0/0", "-j", "DROP"]]

/-- `Instance.addAppACLs` (acls.go:395-634): three passes over the rules,
then the tail rules, every engine call strict. -/
def Instance.addAppACLs (i : Instance) (oracle : Cmd → Bool)
    (contextID chain _ip : String) (rules : IPRuleList) : EngineResult :=
  runStrict oracle
    (i.appACLPassCmds contextID chain 0 rules ++
     i.appACLPassCmds contextID chain 1 rules ++
     i.appACLPassCmds contextID chain 2 rules ++
     i.appACLTailCmds contextID chain)

/-- The engine calls `addNetACLs` (acls.go:638-879) issues for one rule. -/
def Instance.netACLRuleCmds (i : Instance) (contextID chain : String)
    (r : IPRule) : List Cmd :=
  let observeContinue := r.Policy.ObserveAction.observeContinue
  let proto := toLower r.Protocol
  let masked := r.Policy.Action &&& (ActionAccept ||| ActionReject)
  if proto = "udp" ∨ proto = "tcp" then
    if masked = ActionAccept then
      (if r.Policy.Action &&& ActionLog > 0 ∨ observeContinue then
        [Cmd.append i.netPacketIPTableContext chain
          ["-p", r.Protocol, "-s", r.Address, "--dport", r.Port,
           "-m", "mark", "!", "--mark", observeMark,
           "-m", "state", "--state", "NEW",
           "-j", "NFLOG", "--nflog-group", "11",
           "--nflog-prefix", r.Policy.logPfxOf contextID]]
      else []) ++
      (if observeContinue then
        [Cmd.append i.netPacketIPTableContext chain
          ["-p", r.Protocol, "-s", r.Address, "--dport", r.Port,
           "-m", "mark", "!", "--mark", observeMark,
           "-j", "MARK", "--set-mark", observeMark]]
      else
        [Cmd.append i.netPacketIPTableContext chain
          ["-p", r.Protocol, "-s", r.Address, "--dport", r.Port,
           "-j", "ACCEPT"]])
    else if masked = ActionReject then
      (if observeContinue then
        [Cmd.insert i.netPacketIPTableContext chain 1
          ["-p", r.Protocol, "-s", r.Address, "--dport", r.Port,
           "-m", "mark", "!", "--mark", observeMark,
           "-j", "MARK", "--set-mark", observeMark]]
      else
        [Cmd.insert i.netPacketIPTableContext chain 1
          ["-p", r.Protocol, "-s", r.Address, "--dport", r.Port,
           "-j", "DROP"]]) ++
      (if r.Policy.Action &&& ActionLog > 0 ∨ observeContinue then
        [Cmd.insert i.netPacketIPTableContext chain 1
          ["-p", r.Protocol, "-s", r.Address, "--dport", r.Port,
           "-m", "mark", "!", "--mark", observeMark,
           "-m", "state", "--state", "NEW",
           "-j", "NFLOG", "--nflog-group", "11",
           "--nflog-prefix", r.Policy.logPfxOf contextID]]
      else [])
    else []
  else
    if masked = ActionAccept then
      (if r.Policy.Action &&& ActionLog > 0 ∨ observeContinue then
        [Cmd.append i.netPacketIPTableContext chain
          ["-p", r.Protocol, "-s", r.Address,
           "-m", "mark", "!", "--mark", observeMark,
           "-m", "state", "--state", "NEW",
           "-j", "NFLOG", "--nflog-group", "11",
           "--nflog-prefix", r.Policy.logPfxOf contextID]]
      else []) ++
      (if observeContinue then
        [Cmd.append i.netPacketIPTableContext chain
          ["-p", r.Protocol, "-s", r.Address,
           "-m", "mark", "!", "--mark", observeMark,
           "-j", "MARK", "--set-mark", observeMark]]
      else
        [Cmd.append i.netPacketIPTableContext chain
          ["-p", r.Protocol, "-s", r.Address, "-j", "ACCEPT"]])
    else if masked = ActionReject then
      (if observeContinue then
        [Cmd.insert i.netPacketIPTableContext chain 1
          ["-p", r.Protocol, "-s", r.Address,
           "-m", "mark", "!", "--mark", observeMark,
           "-j", "MARK", "--set-mark", observeMark]]
      else
        [Cmd.insert i.netPacketIPTableContext chain 1
          ["-p", r.Protocol, "-s", r.Address, "-j", "DROP"]]) ++
      (if r.Policy.Action &&& ActionLog > 0 ∨ observeContinue then
        [Cmd.insert i.netPacketIPTableContext chain 1
          ["-p", r.Protocol, "-s", r.Address,
           "-m", "mark", "!", "--mark", observeMark,
           "-m", "state", "--state", "NEW",
           "-j", "NFLOG", "--nflog-group", "11",
           "--nflog-prefix", r.Policy.logPfxOf contextID]]
      else [])
    else []

/-- One pass of the `addNetACLs` loop over the rule list. -/
def Instance.netACLPassCmds (i : Instance) (contextID chain : String)
    (loop : Nat) : IPRuleList → List Cmd
  | [] => []
  | r :: rs =>
      if aclPassSkips loop r then i.netACLPassCmds contextID chain loop rs
      else i.netACLRuleCmds contextID chain r ++
        i.netACLPassCmds contextID chain loop rs

/-- The tail rules of `addNetACLs` (acls.go:835-877). -/
def Instance.netACLTailCmds (i : Instance) (contextID chain : String) :
    List Cmd :=
  [Cmd.append i.netPacketIPTableContext chain
     ["-s", "0.0.0.0/0", "-p", "tcp",
      "-m", "state", "--state", "ESTABLISHED", "-j", "ACCEPT"],
   Cmd.append i.netPacketIPTableContext chain
     ["-s", "0.0.0.0/0", "-p", "udp",
      "-m", "state", "--state", "ESTABLISHED", "-j", "ACCEPT"],
   Cmd.append i.netPacketIPTableContext chain
     ["-s", "0.0.0.0/0", "-m", "state", "--state", "NEW",
      "-j", "NFLOG", "--nflog-group", "11",
      "--nflog-prefix", defaultLogPfxOf contextID],
   Cmd.append i.netPacketIPTableContext chain
     ["-s", "0.0.0.0/0", "-j", "DROP"]]

/-- `Instance.addNetACLs` (acls.go:638-879). -/
def Instance.addNetACLs (i : Instance) (oracle : Cmd → Bool)
    (contextID chain _ip : String) (rules : IPRuleList) : EngineResult :=
  runStrict oracle
    (i.netACLPassCmds contextID chain 0 rules ++
     i.netACLPassCmds contextID chain 1 rules ++
     i.netACLPassCmds contextID chain 2 rules ++
     i.netACLTailCmds contextID chain)

/-- The two commands `addExclusionACLs` (acls.go:1364-1390) issues per
excluded CIDR: a highest-priority unconditional accept in the app chain and
a highest-priority accept in the net chain restricted to TCP packets that do
not carry the authentication TCP option. -/
def Instance.exclusionCmds (i : Instance) (appChain netChain ip e : String) :
    List Cmd :=
  [Cmd.insert i.appAckPacketIPTableContext appChain 1
     ["-s", ip, "-d", e, "-j", "ACCEPT"],
   Cmd.insert i.netPacketIPTableContext netChain 1
     ["-s", e, "-d", ip,
      "-p", "tcp", "!", "--tcp-option", itoa TCPAuthenticationOption,
      "-j", "ACCEPT"]]

/-- `Instance.addExclusionACLs` (acls.go:1364-1390). -/
def Instance.addExclusionACLs (i : Instance) (oracle : Cmd → Bool)
    (appChain netChain ip : String) (exclusions : List String) :
    EngineResult :=
  runStrict oracle
    (exclusions.flatMap (i.exclusionCmds appChain netChain ip))

/-- `Instance.ConfigureRules` (part_004:160-252). -/
def Instance.ConfigureRules (i : Instance) (oracle : Cmd → Bool)
    (version : Nat) (contextID : String) (containerInfo : PUInfo) :
    EngineResult :=
  let policyrules := containerInfo.Policy
  let (appChain, netChain) := chainName contextID version
  match i.defaultIP policyrules.ipAddresses with
  | (_, false) => engineErr .noIP
  | (ipAddress, true) =>
    let proxyPort := containerInfo.Runtime.Options.ProxyPort
    let proxiedServices := containerInfo.Policy.proxiedServices
    (i.addContainerChain oracle appChain netChain).seq
      ((if i.mode ≠ .LocalServer then
          let proxyPortSetName := PuPortSetName contextID "" proxyPortSetPfx
          (i.createProxySets oracle proxiedServices.PublicIPPortPair
              proxiedServices.PrivateIPPortPair proxyPortSetName).seq
            (i.addChainRules oracle "" appChain netChain ipAddress "" "" ""
              proxyPort proxyPortSetName)
        else
          let mark := containerInfo.Runtime.Options.CgroupMark
          if mark = "" then engineErr .noMark
          else
            let port :=
              ConvertServicesToPortList containerInfo.Runtime.Options.Services
            let uid := containerInfo.Runtime.Options.UserID
            let uidPart :=
              if uid ≠ "" then
                let portSetName := PuPortSetName contextID mark puPortSetPfx
                (i.createPUPortSet oracle portSetName).seq
                  (if ¬i.portSetPresent then engineErr .portsetNil
                   else runStrict oracle
                     [Cmd.addUserPortSet uid portSetName mark])
              else ⟨[], none⟩
            let portSetName := PuPortSetName contextID mark puPortSetPfx
            let proxyPortSetName :=
              PuPortSetName contextID mark proxyPortSetPfx
            uidPart.seq
              ((i.createProxySets oracle proxiedServices.PublicIPPortPair
                  proxiedServices.PrivateIPPortPair proxyPortSetName).seq
                (i.addChainRules oracle portSetName appChain netChain
                  ipAddress port mark uid proxyPort proxyPortSetName))).seq
        ((i.addPacketTrap oracle appChain netChain ipAddress
            containerInfo.Policy.triremeNetworks).seq
          ((i.addAppACLs oracle contextID appChain ipAddress
              policyrules.applicationACLs).seq
            ((i.addNetACLs oracle contextID netChain ipAddress
                policyrules.networkACLs).seq
              (i.addExclusionACLs oracle appChain netChain ipAddress
                policyrules.excludedNetworks)))))

/-- `Instance.DeleteRules` (part_004:255-317). -/
def Instance.DeleteRules (i : Instance) (oracle : Cmd → Bool)
    (version : Nat) (contextID : String) (ipAddresses : Option ExtendedMap)
    (port mark uid proxyPort proxyPortSetName : String) : EngineResult :=
  let ipCheck : Except Err String :=
    if i.mode ≠ .LocalServer then
      match ipAddresses with
      | none => .error .noIP
      | some m =>
          match i.defaultIP m with
          | (_, false) => .error .noIP
          | (ip, true) => .ok ip
    else .ok ""
  match ipCheck with
  | .error e => engineErr e
  | .ok ipAddress =>
    let (appChain, netChain) := chainName contextID version
    let portSetName := PuPortSetName contextID mark puPortSetPfx
    let r1 := i.deleteChainRules oracle portSetName appChain netChain
      ipAddress port mark uid proxyPort proxyPortSetName
    let r2 := i.deleteAllContainerChains oracle appChain netChain
    let uidPart : EngineResult :=
      if uid ≠ "" then
        let portSetName := PuPortSetName contextID mark puPortSetPfx
        (runBestEffort oracle [Cmd.destroySet portSetName]).seq
          (if ¬i.portSetPresent then engineErr .portsetNil
           else if oracle (Cmd.delUserPortSet uid mark) then
             ⟨[Cmd.delUserPortSet uid mark], none⟩
           else ⟨[Cmd.delUserPortSet uid mark],
             some (.engine (Cmd.delUserPortSet uid mark))⟩)
      else ⟨[], none⟩
    let (dstPortSetName, srcPortSetName) := getSetNamePair proxyPortSetName
    (r1.seq (r2.seq uidPart)).seq
      (runBestEffort oracle
        [Cmd.destroySet dstPortSetName, Cmd.destroySet srcPortSetName])

/-- `Instance.UpdateRules` (part_004:320-429): render the chains at the new
version, install the jump rules to them, delete the jump rules to the old
version, refresh the proxy sets, then clear and delete the old chains. -/
def Instance.UpdateRules (i : Instance) (oracle : Cmd → Bool)
    (version : Nat) (contextID : String) (containerInfo : Option PUInfo)
    (_oldContainerInfo : Option PUInfo) : EngineResult :=
  match containerInfo with
  | none => engineErr .nilContainer
  | some info =>
    let policyrules := info.Policy
    match i.defaultIP policyrules.ipAddresses with
    | (_, false) => engineErr .noIP
    | (ipAddress, true) =>
      let proxyPort := info.Runtime.Options.ProxyPort
      let (appChain, netChain) := chainName contextID version
      let (oldAppChain, oldNetChain) := chainName contextID (version ^^^ 1)
      ((i.addContainerChain oracle appChain netChain).seq
        ((i.addPacketTrap oracle appChain netChain ipAddress
            info.Policy.triremeNetworks).seq
          ((i.addAppACLs oracle contextID appChain ipAddress
              policyrules.applicationACLs).seq
            ((i.addNetACLs oracle contextID netChain ipAddress
                policyrules.networkACLs).seq
              (i.addExclusionACLs oracle appChain netChain ipAddress
                policyrules.excludedNetworks))))).seq
        ((if i.mode ≠ .LocalServer then
            let proxyPortSetName :=
              PuPortSetName contextID "" proxyPortSetPfx
            i.addChainRules oracle "" appChain netChain ipAddress "" "" ""
              proxyPort proxyPortSetName
          else
            let mark := info.Runtime.Options.CgroupMark
            if mark = "" then engineErr .noMark
            else
              let portlist :=
                ConvertServicesToPortList info.Runtime.Options.Services
              let uid := info.Runtime.Options.UserID
              let portSetName := PuPortSetName contextID mark puPortSetPfx
              let proxyPortSetName :=
                PuPortSetName contextID mark proxyPortSetPfx
              i.addChainRules oracle portSetName appChain netChain ipAddress
                portlist mark uid proxyPort proxyPortSetName).seq
          ((if i.mode ≠ .LocalServer then
              let proxyPortSetName :=
                PuPortSetName contextID "" proxyPortSetPfx
              i.deleteChainRules oracle "" oldAppChain oldNetChain ipAddress
                "" "" "" proxyPort proxyPortSetName
            else
              let mark := info.Runtime.Options.CgroupMark
              let port :=
                ConvertServicesToPortList info.Runtime.Options.Services
              let uid := info.Runtime.Options.UserID
              let portSetName := PuPortSetName contextID mark puPortSetPfx
              let proxyPortSetName :=
                PuPortSetName contextID mark proxyPortSetPfx
              i.deleteChainRules oracle portSetName oldAppChain oldNetChain
                ipAddress port mark uid proxyPort proxyPortSetName).seq
            ((let mark :=
                if i.mode = .LocalServer then info.Runtime.Options.CgroupMark
                else ""
              let proxyPortSetName :=
                PuPortSetName contextID mark proxyPortSetPfx
              let proxiedServiceList := info.Policy.proxiedServices
              i.updateProxySet oracle proxiedServiceList.PublicIPPortPair
                proxiedServiceList.PrivateIPPortPair proxyPortSetName).seq
              (i.deleteAllContainerChains oracle oldAppChain oldNetChain))))

/-! ## The supervisor (supervisor.Config, src/unnamed/part_006) -/

/-- `cacheData` (part_006:20-27). -/
structure CacheData where
  version : Nat
  ips : ExtendedMap
  mark : String
  port : String
  uid : String
  containerInfo : PUInfo

/-- The supervisor's `versionTracker` cache.  Modelled from the spec: the
`utils/cache` DataStore is not under src/; per §4.3 it is a map from
contextID to an entry, with atomic replace (`AddOrUpdate`), lookup (`Get`),
removal (`Remove`) and in-place update (`LockedModify`). -/
abbrev VersionTracker := List (String × CacheData)

/-- `cache.Get`. -/
def VersionTracker.get (s : VersionTracker) (contextID : String) :
    Option CacheData :=
  (s.lookup contextID)

/-- `cache.Remove`. -/
def VersionTracker.remove (s : VersionTracker) (contextID : String) :
    VersionTracker :=
  s.filter (fun p => ¬(p.1 = contextID))

/-- `cache.AddOrUpdate`. -/
def VersionTracker.addOrUpdate (s : VersionTracker) (contextID : String)
    (d : CacheData) : VersionTracker :=
  (contextID, d) :: s.remove contextID

/-- `cache.LockedModify`: apply the modifier to the stored entry and store
the result, or fail when the contextID is unknown. -/
def VersionTracker.lockedModify (s : VersionTracker) (contextID : String)
    (f : CacheData → Nat → CacheData) (arg : Nat) :
    Option (CacheData × VersionTracker) :=
  match s.get contextID with
  | none => none
  | some d =>
      let d' := f d arg
      some (d', s.addOrUpdate contextID d')

/-- `revert` (part_006:206-210): xor the stored version with 1 (the second
argument of the modifier is ignored by the source). -/
def revert (a : CacheData) (_b : Nat) : CacheData :=
  { a with version := a.version ^^^ 1 }

/-- `Config.Unsupervise` (part_006:109-129): fail only when the contextID is
not tracked; otherwise run `DeleteRules` (its error only logged), drop the
cache entry, and succeed. -/
def Unsupervise (impl : Instance) (oracle : Cmd → Bool)
    (tracker : VersionTracker) (contextID : String) :
    VersionTracker × EngineResult :=
  match tracker.get contextID with
  | none => (tracker, engineErr (.notFound contextID))
  | some cfg =>
      let port := cfg.containerInfo.Runtime.Options.ProxyPort
      let proxyPortSetName := PuPortSetName contextID cfg.mark "Proxy-"
      let r := impl.DeleteRules oracle cfg.version contextID (some cfg.ips)
        cfg.port cfg.mark cfg.uid port proxyPortSetName
      (tracker.remove contextID, ⟨r.trace, none⟩)

/-- `Config.doCreatePU` (part_006:163-185): cache the entry at version 0,
configure the rules, and on failure roll back through `Unsupervise` while
returning the original error. -/
def doCreatePU (impl : Instance) (oracle : Cmd → Bool)
    (tracker : VersionTracker) (contextID : String) (pu : PUInfo) :
    VersionTracker × EngineResult :=
  let c : CacheData :=
    { version := 0,
      ips := pu.Policy.ipAddresses,
      mark := pu.Runtime.Options.CgroupMark,
      port := ConvertServicesToPortList pu.Runtime.Options.Services,
      uid := pu.Runtime.Options.UserID,
      containerInfo := pu }
  let tracker1 := tracker.addOrUpdate contextID c
  let r := impl.ConfigureRules oracle c.version contextID pu
  match r.err with
  | none => (tracker1, r)
  | some e =>
      let (tracker2, ru) := Unsupervise impl oracle tracker1 contextID
      (tracker2, ⟨r.trace ++ ru.trace, some e⟩)

/-- `Config.doUpdatePU` (part_006:189-204): flip the cached version through
`LockedModify`/`revert`, update the rules at the new version, and on failure
roll back through `Unsupervise` while returning the original error. -/
def doUpdatePU (impl : Instance) (oracle : Cmd → Bool)
    (tracker : VersionTracker) (contextID : String) (pu : PUInfo) :
    VersionTracker × EngineResult :=
  match tracker.lockedModify contextID revert 1 with
  | none => (tracker, engineErr (.notFound contextID))
  | some (c, tracker1) =>
      let r := impl.UpdateRules oracle c.version contextID (some pu)
        (some c.containerInfo)
      match r.err with
      | none => (tracker1, r)
      | some e =>
          let (tracker2, ru) := Unsupervise impl oracle tracker1 contextID
          (tracker2, ⟨r.trace ++ ru.trace, some e⟩)

/-- `Config.Supervise` (part_006:90-104): reject nil PU/policy/runtime,
create on the first sighting of a contextID, update afterwards. -/
def Supervise (impl : Instance) (oracle : Cmd → Bool)
    (tracker : VersionTracker) (contextID : String) (pu : Option PUInfo) :
    VersionTracker × EngineResult :=
  match pu with
  | none => (tracker, engineErr .invalidPU)
  | some info =>
      match tracker.get contextID with
      | none => doCreatePU impl oracle tracker contextID info
      | some _ => doUpdatePU impl oracle tracker contextID info

/-! ## The packet-filter state

Modelled from the spec: the host packet filter itself is an assumed
collaborator (§1, §6) — "a rule-based stateful firewall with named chains
and set-based matches".  Its state is the chains that exist per table, the
rules sitting in each chain, and the named sets; each `Cmd` acts on it in
the evident way. -/

structure FilterState where
  chains : List (String × String)
  rules : List RuleTriple
  sets : List String
  deriving DecidableEq

/-- The state of a packet filter with nothing installed. -/
def FilterState.empty : FilterState := ⟨[], [], []⟩

/-- The effect of one engine call on the filter state. -/
def FilterState.apply (s : FilterState) (c : Cmd) : FilterState :=
  match c with
  | .newChain t n => { s with chains := (t, n) :: s.chains }
  | .clearChain t n =>
      { s with rules := s.rules.filter fun r => ¬(r.1 = t ∧ r.2.1 = n) }
  | .deleteChain t n =>
      { s with chains := s.chains.filter fun p => ¬(p = (t, n)) }
  | .append t n spec => { s with rules := (t, n, spec) :: s.rules }
  | .insert t n _pos spec => { s with rules := (t, n, spec) :: s.rules }
  | .delete t n spec =>
      { s with rules := s.rules.filter fun r => ¬(r = (t, n, spec)) }
  | .createSet n => { s with sets := n :: s.sets }
  | .destroySet n => { s with sets := s.sets.filter fun m => ¬(m = n) }
  | .addUserPortSet _ _ _ => s
  | .delUserPortSet _ _ => s
  | .updateProxySet _ => s

/-- The effect of a whole trace on the filter state. -/
def FilterState.applyTrace (s : FilterState) (tr : List Cmd) : FilterState :=
  tr.foldl FilterState.apply s

/-! ## Packet matching

Modelled from the spec: the firewall's match semantics on the rule forms the
exclusion renderer emits (§1, §6).  A packet has source and destination
addresses, a protocol, and the set of TCP option kinds it carries; CIDR
membership is an arbitrary address-in-network relation. -/

structure Packet where
  src : String
  dst : String
  proto : String
  tcpOptions : List String
  deriving DecidableEq

/-- Whether a packet satisfies every match of a rulespec (the forms emitted
by `exclusionCmds`); the terminal `-j` target ends the matches. -/
def specMatches (inCidr : String → String → Bool) (p : Packet) :
    List String → Bool
  | [] => true
  | "-j" :: _ => true
  | "-s" :: a :: rest => inCidr p.src a && specMatches inCidr p rest
  | "-d" :: a :: rest => inCidr p.dst a && specMatches inCidr p rest
  | "-p" :: pr :: rest =>
      (toLower p.proto == toLower pr) && specMatches inCidr p rest
  | "!" :: "--tcp-option" :: n :: rest =>
      !(p.tcpOptions.contains n) && specMatches inCidr p rest
  | "--tcp-option" :: n :: rest =>
      p.tcpOptions.contains n && specMatches inCidr p rest
  | _ => false

/-- The jump target of a rulespec: the value of the trailing `-j`. -/
def specTarget (spec : List String) : Option String :=
  match spec.reverse with
  | t :: "-j" :: _ => some t
  | _ => none

/-- The rulespec of a rule-installing command. -/
def cmdSpec : Cmd → List String
  | .append _ _ spec => spec
  | .insert _ _ _ spec => spec
  | _ => []

/-- Whether an installed rule command accepts a packet: it is a rule, it
matches the packet, and its target is ACCEPT. -/
def cmdAccepts (inCidr : String → String → Bool) (c : Cmd) (p : Packet) :
    Bool :=
  match c with
  | .append _ _ spec =>
      specMatches inCidr p spec && specTarget spec = some "ACCEPT"
  | .insert _ _ _ spec =>
      specMatches inCidr p spec && specTarget spec = some "ACCEPT"
  | _ => false

/-! ## Concrete fixtures used by witnesses and counterexamples -/

/-- The engine oracle under which every call succeeds. -/
def okOracle : Cmd → Bool := fun _ => true

/-- A filter queue with the default queue strings. -/
def testFqc : FilterQueue := {}

/-- A remote-container controller instance. -/
def testInstance : Instance :=
  { fqc := testFqc, mode := .RemoteContainer, portSetPresent := false }

/-- A local-server controller instance with a port-set tracker. -/
def testInstanceLS : Instance :=
  { fqc := testFqc, mode := .LocalServer, portSetPresent := true }

/-- A policy holding one default-namespace IP and nothing else. -/
def testPolicy : PUPolicy :=
  { ipAddresses := [(DefaultNamespace, "172.17.0.1")],
    applicationACLs := [], networkACLs := [],
    excludedNetworks := [], triremeNetworks := [],
    proxiedServices := {} }

/-- A PU with the default runtime (no mark, no uid, proxy port 5000). -/
def testPU : PUInfo := ⟨testPolicy, NewPURuntimeWithDefaults⟩

/-- An observe-continue accept ACL rule. -/
def wRule1 : IPRule :=
  { Address := "192.30.253.0/24", Port := "80", Protocol := "TCP",
    Policy := { Action := ActionAccept,
                ObserveAction := .ObserveContinue, PolicyID := "p1" } }

/-- A plain (non-observed) reject ACL rule. -/
def wRule2 : IPRule :=
  { Address := "192.30.253.0/24", Port := "443", Protocol := "TCP",
    Policy := { Action := ActionReject,
                ObserveAction := .ObserveNone, PolicyID := "p2" } }

/-- A concrete address-in-CIDR relation: literal equality, plus the one
host 10.1.0.5 lying in 10.1.0.0/16. -/
def cexInCidr : String → String → Bool :=
  fun a c => a == c || (a == "10.1.0.5" && c == "10.1.0.0/16")

/-- A TCP packet from the excluded network to the PU's IP that carries the
authentication TCP option. -/
def cexPacket : Packet :=
  { src := "10.1.0.5", dst := "172.17.0.1", proto := "tcp",
    tcpOptions := [itoa TCPAuthenticationOption] }

/-- A local-container controller instance. -/
def testInstanceLC : Instance :=
  { fqc := testFqc, mode := .LocalContainer, portSetPresent := true }

/-- A policy with no IP addresses at all. -/
def testPolicyNoIP : PUPolicy := { testPolicy with ipAddresses := [] }

/-- A PU whose policy carries no IP address. -/
def testPUNoIP : PUInfo := ⟨testPolicyNoIP, NewPURuntimeWithDefaults⟩

/-- The cache entry `doCreatePU` would store for `testPU` under "c". -/
def cfgX : CacheData :=
  { version := 0, ips := testPolicy.ipAddresses, mark := "", port := "0",
    uid := "", containerInfo := testPU }


/-- A PU whose runtime options carry a cgroup mark (as a sidecar or enforcerd
setup would) while the controller runs in a container mode. -/
def markedPU : PUInfo :=
  ⟨testPolicy, NewPURuntime "" 0 "" none none .ContainerPU
    (some { CgroupMark := "m", ProxyPort := "5000" }) ""⟩


/-- A LocalServer PU with a cgroup mark, a uid and a non-"0" service port
list: `addChainRules` then takes the cgroup branch while `deleteChainRules`
takes the uid branch. -/
def markedUIDPU : PUInfo :=
  ⟨testPolicy, NewPURuntime "" 0 "" none none .LinuxProcessPU
    (some { CgroupMark := "m", UserID := "u", Services := ["80"],
            ProxyPort := "5000" }) ""⟩

/-- A LocalServer PU with a cgroup mark, a uid and no services (port "0"):
both the add and the delete path use the uid jump rules. -/
def uidPU : PUInfo :=
  ⟨testPolicy, NewPURuntime "" 0 "" none none .UIDLoginPU
    (some { CgroupMark := "m", UserID := "u", ProxyPort := "5000" }) ""⟩

/-! # Theorems -/

/-! ## Basic facts about the engine-run combinators -/

theorem runStrict_ok (cs : List Cmd) : runStrict okOracle cs = ⟨cs, none⟩ := by
  induction cs with
  | nil => rfl
  | cons c cs ih => simp [runStrict, okOracle, ih]

theorem seq_ok_left (t : List Cmd) (s : EngineResult) :
    EngineResult.seq ⟨t, none⟩ s = ⟨t ++ s.trace, s.err⟩ := rfl

theorem seq_err_left (t : List Cmd) (e : Err) (s : EngineResult) :
    EngineResult.seq ⟨t, some e⟩ s = ⟨t, some e⟩ := rfl

/-! ## MD5 and base64 sanity checks against the RFC 1321 test vectors and
Go's encoding (the digest of "Context" matches
`base64.URLEncoding.EncodeToString(md5.Sum([]byte("Context")))`). -/

theorem md5_empty :
    md5Bytes [] =
      [0xd4, 0x1d, 0x8c, 0xd9, 0x8f, 0x00, 0xb2, 0x04,
       0xe9, 0x80, 0x09, 0x98, 0xec, 0xf8, 0x42, 0x7e] := by decide

theorem md5_abc :
    md5Bytes (strBytes "abc") =
      [0x90, 0x01, 0x50, 0x98, 0x3c, 0xd2, 0x4f, 0xb0,
       0xd6, 0x96, 0x3f, 0x7d, 0x28, 0xe1, 0x7f, 0x72] := by decide

theorem md5B64_context : md5B64 "Context" = "rU4gZAjBxZv7igV7p4V0Rg==" := by
  decide

/-! ## Claim C10: NewPURuntime never stores nil collaborator data -/

/-- C10.  `NewPURuntime` never stores nil collaborator data: a nil `tags`
argument is replaced by an empty tag store, a nil `ips` argument by an empty
address map, and a nil `options` argument by an options record whose
`ProxyPort` is "5000"; and `PURuntime.Options` returns the zero-value
`OptionsType` when the stored options pointer is nil, so the accessors used
by the supervisor never dereference a nil pointer. -/
theorem claim_C10_runtime_never_nil (name : String) (pid : Int)
    (nsPath : String) (tags : Option TagStore) (ips : Option ExtendedMap)
    (puType : PUType) (options : Option OptionsType) (sidecarUID : String) :
    (NewPURuntime name pid nsPath tags ips puType options sidecarUID).tags =
        some (tags.getD NewTagStore) ∧
    (NewPURuntime name pid nsPath tags ips puType options sidecarUID).ips =
        some (ips.getD []) ∧
    (NewPURuntime name pid nsPath tags ips puType options
        sidecarUID).options =
      some (options.getD { ProxyPort := "5000" }) ∧
    (∀ r : PURuntime, r.options = none → r.Options = {}) := by
  refine ⟨?_, ?_, ?_, ?_⟩
  · cases tags <;> rfl
  · cases ips <;> rfl
  · cases options <;> rfl
  · intro r h
    simp [PURuntime.Options, h]

/-- Witness for C10 at the defaults constructor: the stored collaborator
data of `NewPURuntimeWithDefaults` is non-nil with the documented values,
and a runtime with a nil options pointer yields the zero options. -/
theorem claim_C10_witness :
    (NewPURuntimeWithDefaults).tags = some NewTagStore ∧
    (NewPURuntimeWithDefaults).ips = some ([] : ExtendedMap) ∧
    (NewPURuntimeWithDefaults).options =
      some ({ ProxyPort := "5000" } : OptionsType) ∧
    ({ NewPURuntimeWithDefaults with options := none } : PURuntime).Options =
      {} :=
  have h := claim_C10_runtime_never_nil "" 0 "" none none PUType.ContainerPU
    none ""
  ⟨h.1, h.2.1, h.2.2.1, h.2.2.2 _ rfl⟩

/-! ## Claim C3: chain names — determinism, shape, injectivity -/

theorem digitCh_ne_dash (m : Nat) : digitCh m ≠ '-' := by
  rcases m with _ | _ | _ | _ | _ | _ | _ | _ | _ | m <;> simp [digitCh]

theorem natDigits_ne_dash (fuel n : Nat) :
    ∀ c ∈ natDigits fuel n, c ≠ '-' := by
  induction fuel generalizing n with
  | zero => intro c hc; simp [natDigits] at hc
  | succ fuel ih =>
      intro c hc
      simp only [natDigits] at hc
      split at hc
      · simp at hc
        exact hc ▸ digitCh_ne_dash n
      · rcases List.mem_append.mp hc with h | h
        · exact ih _ c h
        · simp at h
          exact h ▸ digitCh_ne_dash (n % 10)

/-- Appending a dash and a dash-free tail is an injective way of building a
list: the dash separates unambiguously. -/
theorem dash_split_inj (t1 : List Char) :
    ∀ (t2 d1 d2 : List Char), (∀ c ∈ d1, c ≠ '-') → (∀ c ∈ d2, c ≠ '-') →
      t1 ++ '-' :: d1 = t2 ++ '-' :: d2 → t1 = t2 ∧ d1 = d2 := by
  induction t1 with
  | nil =>
      intro t2 d1 d2 h1 h2 heq
      cases t2 with
      | nil => simpa using heq
      | cons y t2 =>
          simp at heq
          obtain ⟨hy, hd⟩ := heq
          exact absurd rfl (h1 '-' (hd ▸ List.mem_append_right t2 (by simp)))
  | cons x t1 ih =>
      intro t2 d1 d2 h1 h2 heq
      cases t2 with
      | nil =>
          simp at heq
          obtain ⟨hy, hd⟩ := heq
          exact absurd rfl
            (h2 '-' (hd ▸ List.mem_append_right t1 (by simp)))
      | cons y t2 =>
          simp at heq
          obtain ⟨hxy, hrest⟩ := heq
          obtain ⟨ht, hd⟩ := ih t2 d1 d2 h1 h2 hrest
          exact ⟨by rw [hxy, ht], hd⟩

theorem strTake_md5B64_len (s : String) :
    (strTake (md5B64 s) 6).data.length = 6 := rfl

theorem strTake_md5B64_4_len (s : String) :
    (strTake (md5B64 s) 4).data.length = 4 := rfl

/-- `chainTag` always equals the first four bytes of the contextID followed
by the first six characters of its base64 MD5 (taking at most 4 bytes of a
short contextID is taking all of it). -/
theorem chainTag_eq (c : String) :
    chainTag c = strTake c 4 ++ strTake (md5B64 c) 6 := by
  unfold chainTag
  split
  · rfl
  · next h =>
      have hle : c.data.length ≤ 4 := Nat.le_of_not_lt h
      have : strTake c 4 = c := String.ext (by simp [strTake, List.take_of_length_le hle])
      rw [this]

/-- Equal chain tags force equal 4-byte contextID prefixes and equal 6-char
MD5-base64 prefixes. -/
theorem chainTag_inj {c1 c2 : String} (h : chainTag c1 = chainTag c2) :
    strTake c1 4 = strTake c2 4 ∧
      strTake (md5B64 c1) 6 = strTake (md5B64 c2) 6 := by
  rw [chainTag_eq, chainTag_eq] at h
  have hd := congrArg String.data h
  simp only [String.data_append] at hd
  have hlen : (strTake (md5B64 c1) 6).data.length =
      (strTake (md5B64 c2) 6).data.length := by
    rw [strTake_md5B64_len, strTake_md5B64_len]
  obtain ⟨h1, h2⟩ := List.append_inj' hd hlen
  exact ⟨String.ext h1, String.ext h2⟩

/-- C3.  The chain-name function is deterministic with the documented shape —
`TRIREME-App-`/`TRIREME-Net-`, then the first 4 bytes of the contextID (all
of it when it is short), then the first 6 base64 characters of its MD5, then
a dash and the version — and it is injective on pairs whose contextIDs do
not share both the 4-byte prefix and the 6-character MD5-base64 prefix. -/
theorem claim_C3_chain_names :
    (∀ c v, chainName c v =
      (appChainPfx ++ (strTake c 4 ++ strTake (md5B64 c) 6) ++ "-" ++ itoa v,
       netChainPfx ++ (strTake c 4 ++ strTake (md5B64 c) 6) ++ "-" ++
         itoa v)) ∧
    (∀ c1 c2 v1 v2 : _,
      ¬(strTake c1 4 = strTake c2 4 ∧
          strTake (md5B64 c1) 6 = strTake (md5B64 c2) 6) →
        (chainName c1 v1).1 ≠ (chainName c2 v2).1 ∧
        (chainName c1 v1).2 ≠ (chainName c2 v2).2) := by
  constructor
  · intro c v
    unfold chainName
    rw [chainTag_eq]
  · intro c1 c2 v1 v2 hne
    have key : ∀ pfx : String, (pfx ++ chainTag c1 ++ "-" ++ itoa v1 =
        pfx ++ chainTag c2 ++ "-" ++ itoa v2) → False := by
      intro pfx heq
      have hd := congrArg String.data heq
      simp only [String.data_append] at hd
      rw [List.append_assoc, List.append_assoc, List.append_assoc,
        List.append_assoc] at hd
      have hd' := List.append_cancel_left hd
      have hdash : ∀ l : List Char, ['-'] ++ l = '-' :: l := fun _ => rfl
      rw [hdash, hdash] at hd'
      have := dash_split_inj (chainTag c1).data (chainTag c2).data
        (itoa v1).data (itoa v2).data
        (natDigits_ne_dash _ _) (natDigits_ne_dash _ _) hd'
      exact hne (chainTag_inj (String.ext this.1))
    exact ⟨fun h => key appChainPfx h, fun h => key netChainPfx h⟩

/-- Witness for C3: the names for "Context" are as documented
(`ad4e…` is MD5("Context"), whose base64 starts `rU4gZA`), and the names for
"Context" and "Other" at any versions differ since their prefixes differ. -/
theorem claim_C3_witness :
    chainName "Context" 1 =
      ("TRIREME-App-ContrU4gZA-1", "TRIREME-Net-ContrU4gZA-1") ∧
    (chainName "Context" 0).1 ≠ (chainName "Other" 1).1 := by
  constructor
  · rw [(claim_C3_chain_names.1 "Context" 1)]
    decide
  · exact (claim_C3_chain_names.2 "Context" "Other" 0 1
      (fun h => by
        have := h.1
        revert this
        decide)).1

/-! ## Claim C7: the three observation passes of the ACL renderers -/

/-- Each pass of `addAppACLs` renders, in input order, exactly the rules its
skip condition lets through. -/
theorem appACLPassCmds_eq_filter (i : Instance) (ctx chain : String)
    (loop : Nat) (rules : IPRuleList) :
    i.appACLPassCmds ctx chain loop rules =
      (rules.filter fun r => !aclPassSkips loop r).flatMap
        (i.appACLRuleCmds ctx chain) := by
  induction rules with
  | nil => rfl
  | cons r rs ih =>
      by_cases h : aclPassSkips loop r
      · simp [Instance.appACLPassCmds, List.filter_cons, h, ih]
      · simp only [Bool.not_eq_true] at h
        simp [Instance.appACLPassCmds, List.filter_cons, h, ih]

/-- Each pass of `addNetACLs` renders, in input order, exactly the rules its
skip condition lets through. -/
theorem netACLPassCmds_eq_filter (i : Instance) (ctx chain : String)
    (loop : Nat) (rules : IPRuleList) :
    i.netACLPassCmds ctx chain loop rules =
      (rules.filter fun r => !aclPassSkips loop r).flatMap
        (i.netACLRuleCmds ctx chain) := by
  induction rules with
  | nil => rfl
  | cons r rs ih =>
      by_cases h : aclPassSkips loop r
      · simp [Instance.netACLPassCmds, List.filter_cons, h, ih]
      · simp only [Bool.not_eq_true] at h
        simp [Instance.netACLPassCmds, List.filter_cons, h, ih]

theorem aclPass0_keeps (r : IPRule) :
    (!aclPassSkips 0 r) = r.Policy.ObserveAction.observeContinue := by
  simp [aclPassSkips]

theorem aclPass1_keeps (r : IPRule) :
    (!aclPassSkips 1 r) = !r.Policy.ObserveAction.observed := by
  simp [aclPassSkips]

theorem aclPass2_keeps (r : IPRule) :
    (!aclPassSkips 2 r) = r.Policy.ObserveAction.observeApply := by
  simp [aclPassSkips]

/-- A rulespec that only marks the packet or logs it, deferring the verdict:
it ends in a set-observe-mark action or in an NFLOG prefix. -/
def defersVerdict (spec : List String) : Bool :=
  match spec.reverse with
  | m :: "--set-mark" :: "MARK" :: "-j" :: _ => m == observeMark
  | _ :: "--nflog-prefix" :: _ => true
  | _ => false

/-- Every command rendered for an observe-continue rule defers the verdict:
it either sets the observe mark or logs, and never accepts or drops. -/
theorem appACLRuleCmds_observeContinue_defers (i : Instance)
    (ctx chain : String) (r : IPRule)
    (h : r.Policy.ObserveAction.observeContinue = true) :
    ∀ c ∈ i.appACLRuleCmds ctx chain r, defersVerdict (cmdSpec c) = true := by
  intro c hc
  by_cases hp : toLower r.Protocol = "udp" ∨ toLower r.Protocol = "tcp" <;>
    by_cases ha :
      r.Policy.Action &&& (ActionAccept ||| ActionReject) = ActionAccept <;>
    by_cases hr :
      r.Policy.Action &&& (ActionAccept ||| ActionReject) = ActionReject <;>
    simp only [Instance.appACLRuleCmds, h, or_true, if_true, hp, ha, hr,
      if_false, ite_true, ite_false, List.append_nil, List.nil_append,
      if_pos, if_neg, reduceIte] at hc <;>
    simp [ActionAccept, ActionReject] at hc <;>
    rcases hc with rfl | rfl <;> rfl

theorem netACLRuleCmds_observeContinue_defers (i : Instance)
    (ctx chain : String) (r : IPRule)
    (h : r.Policy.ObserveAction.observeContinue = true) :
    ∀ c ∈ i.netACLRuleCmds ctx chain r, defersVerdict (cmdSpec c) = true := by
  intro c hc
  by_cases hp : toLower r.Protocol = "udp" ∨ toLower r.Protocol = "tcp" <;>
    by_cases ha :
      r.Policy.Action &&& (ActionAccept ||| ActionReject) = ActionAccept <;>
    by_cases hr :
      r.Policy.Action &&& (ActionAccept ||| ActionReject) = ActionReject <;>
    simp only [Instance.netACLRuleCmds, h, or_true, if_true, hp, ha, hr,
      if_false, ite_true, ite_false, List.append_nil, List.nil_append,
      if_pos, if_neg, reduceIte] at hc <;>
    simp [ActionAccept, ActionReject] at hc <;>
    rcases hc with rfl | rfl <;> rfl

/-- For a non-observed rule the renderer emits a terminal verdict: an ACCEPT
rule when the action is accept, a DROP rule when it is reject. -/
theorem appACLRuleCmds_terminal (i : Instance) (ctx chain : String)
    (r : IPRule) (h : r.Policy.ObserveAction.observed = false) :
    (r.Policy.Action &&& (ActionAccept ||| ActionReject) = ActionAccept →
      ∃ c ∈ i.appACLRuleCmds ctx chain r,
        specTarget (cmdSpec c) = some "ACCEPT") ∧
    (r.Policy.Action &&& (ActionAccept ||| ActionReject) = ActionReject →
      ∃ c ∈ i.appACLRuleCmds ctx chain r,
        specTarget (cmdSpec c) = some "DROP") := by
  have hoc : r.Policy.ObserveAction.observeContinue = false := by
    cases hobs : r.Policy.ObserveAction <;>
      simp_all [ObserveActionType.observed, ObserveActionType.observeContinue]
  constructor
  · intro hm
    by_cases hp : toLower r.Protocol = "udp" ∨ toLower r.Protocol = "tcp"
    · refine ⟨Cmd.append i.appAckPacketIPTableContext chain
        ["-p", r.Protocol, "-m", "state", "--state", "NEW",
         "-d", r.Address, "--dport", r.Port, "-j", "ACCEPT"], ?_, rfl⟩
      unfold Instance.appACLRuleCmds
      rw [if_pos hp, if_pos hm]
      simp [hoc]
    · refine ⟨Cmd.append i.appAckPacketIPTableContext chain
        ["-p", r.Protocol, "-d", r.Address, "-j", "ACCEPT"], ?_, rfl⟩
      unfold Instance.appACLRuleCmds
      rw [if_neg hp, if_pos hm]
      simp [hoc]
  · intro hm
    have ham : ¬(r.Policy.Action &&& (ActionAccept ||| ActionReject) =
        ActionAccept) := by
      rw [hm]; decide
    by_cases hp : toLower r.Protocol = "udp" ∨ toLower r.Protocol = "tcp"
    · refine ⟨Cmd.insert i.appAckPacketIPTableContext chain 1
        ["-p", r.Protocol, "-m", "state", "--state", "NEW",
         "-d", r.Address, "--dport", r.Port, "-j", "DROP"], ?_, rfl⟩
      unfold Instance.appACLRuleCmds
      rw [if_pos hp, if_neg ham, if_pos hm]
      simp [hoc]
    · refine ⟨Cmd.insert i.appAckPacketIPTableContext chain 1
        ["-p", r.Protocol, "-d", r.Address, "-j", "DROP"], ?_, rfl⟩
      unfold Instance.appACLRuleCmds
      rw [if_neg hp, if_neg ham, if_pos hm]
      simp [hoc]

/-- C7.  Both ACL renderers run exactly three passes over the input rule
list, preserving input order within each pass: pass 0 renders exactly the
observe-continue rules (as mark/log rules that defer the verdict), pass 1
exactly the non-observed rules (with a terminal accept/drop), pass 2 exactly
the observe-apply rules; the whole rendered sequence is pass 0, pass 1,
pass 2, then the fixed tail rules. -/
theorem claim_C7_three_pass_rendering (i : Instance)
    (ctx appChain netChain ip : String) (rules : IPRuleList) :
    ((i.addAppACLs okOracle ctx appChain ip rules).trace =
      (rules.filter fun r => r.Policy.ObserveAction.observeContinue).flatMap
          (i.appACLRuleCmds ctx appChain) ++
        (rules.filter fun r => !r.Policy.ObserveAction.observed).flatMap
          (i.appACLRuleCmds ctx appChain) ++
        (rules.filter fun r => r.Policy.ObserveAction.observeApply).flatMap
          (i.appACLRuleCmds ctx appChain) ++
        i.appACLTailCmds ctx appChain) ∧
    ((i.addNetACLs okOracle ctx netChain ip rules).trace =
      (rules.filter fun r => r.Policy.ObserveAction.observeContinue).flatMap
          (i.netACLRuleCmds ctx netChain) ++
        (rules.filter fun r => !r.Policy.ObserveAction.observed).flatMap
          (i.netACLRuleCmds ctx netChain) ++
        (rules.filter fun r => r.Policy.ObserveAction.observeApply).flatMap
          (i.netACLRuleCmds ctx netChain) ++
        i.netACLTailCmds ctx netChain) ∧
    (∀ r : IPRule, r.Policy.ObserveAction.observeContinue = true →
      (∀ c ∈ i.appACLRuleCmds ctx appChain r,
        defersVerdict (cmdSpec c) = true) ∧
      (∀ c ∈ i.netACLRuleCmds ctx netChain r,
        defersVerdict (cmdSpec c) = true)) ∧
    (∀ r : IPRule, r.Policy.ObserveAction.observed = false →
      (r.Policy.Action &&& (ActionAccept ||| ActionReject) = ActionAccept →
        ∃ c ∈ i.appACLRuleCmds ctx appChain r,
          specTarget (cmdSpec c) = some "ACCEPT") ∧
      (r.Policy.Action &&& (ActionAccept ||| ActionReject) = ActionReject →
        ∃ c ∈ i.appACLRuleCmds ctx appChain r,
          specTarget (cmdSpec c) = some "DROP")) := by
  refine ⟨?_, ?_, ?_, ?_⟩
  · show (runStrict okOracle _).trace = _
    rw [runStrict_ok]
    simp [appACLPassCmds_eq_filter, aclPass0_keeps, aclPass1_keeps,
      aclPass2_keeps]
  · show (runStrict okOracle _).trace = _
    rw [runStrict_ok]
    simp [netACLPassCmds_eq_filter, aclPass0_keeps, aclPass1_keeps,
      aclPass2_keeps]
  · intro r h
    exact ⟨appACLRuleCmds_observeContinue_defers i ctx appChain r h,
      netACLRuleCmds_observeContinue_defers i ctx netChain r h⟩
  · intro r h
    exact appACLRuleCmds_terminal i ctx appChain r h

/-- Witness for C7 on a two-rule list: the rendered trace decomposes into
the three passes (with the observe-continue rule in pass 0 and the plain
reject rule in pass 1), every command of the observe-continue rule defers
the verdict, and the reject rule renders a DROP. -/
theorem claim_C7_witness :
    ((testInstance.addAppACLs okOracle "c" "app" "1.2.3.4"
        [wRule1, wRule2]).trace =
      [wRule1].flatMap (testInstance.appACLRuleCmds "c" "app") ++
        [wRule2].flatMap (testInstance.appACLRuleCmds "c" "app") ++
        [] ++ testInstance.appACLTailCmds "c" "app") ∧
    defersVerdict (cmdSpec (Cmd.append "mangle" "app"
      ["-p", "TCP", "-m", "state", "--state", "NEW",
       "-d", "192.30.253.0/24", "--dport", "80",
       "-m", "mark", "!", "--mark", observeMark,
       "-j", "MARK", "--set-mark", observeMark])) = true ∧
    specTarget (cmdSpec (Cmd.insert "mangle" "app" 1
      ["-p", "TCP", "-m", "state", "--state", "NEW",
       "-d", "192.30.253.0/24", "--dport", "443", "-j", "DROP"])) =
      some "DROP" := by
  refine ⟨?_, ?_, by decide⟩
  · have h := (claim_C7_three_pass_rendering testInstance "c" "app" "net"
      "1.2.3.4" [wRule1, wRule2]).1
    rw [h]
    decide
  · exact ((claim_C7_three_pass_rendering testInstance "c" "app" "net"
      "1.2.3.4" [wRule1, wRule2]).2.2.1 wRule1 rfl).1 _ (by decide)

/-! ## Claim C8: exclusion rules -/

theorem toLower_tcp : toLower "tcp" = "tcp" := by decide

/-- C8 counterexample.  A TCP packet from the excluded CIDR to the PU's IP
that carries the authentication TCP option (option kind 34) is accepted by
neither of the two rendered exclusion rules: the net-chain rule only matches
packets without the option (`! --tcp-option 34`), so the exclusion does not
accept traffic "regardless of whether the packets carry the authentication
TCP option". -/
theorem claim_C8_counterexample :
    cexInCidr cexPacket.src "10.1.0.0/16" = true ∧
    cexInCidr cexPacket.dst "172.17.0.1" = true ∧
    cexPacket.tcpOptions = [itoa TCPAuthenticationOption] ∧
    ((testInstance.exclusionCmds "app" "net" "172.17.0.1"
        "10.1.0.0/16").any
      fun c => cmdAccepts cexInCidr c cexPacket) = false := by
  decide

/-- C8 (amended).  Per excluded CIDR the renderer inserts, at position 1 of
both the PU's app chain and net chain, one accept rule each; the app-chain
rule accepts exactly the traffic from the PU's IP to the CIDR — regardless
of protocol or TCP options — while the net-chain rule accepts exactly the
TCP traffic from the CIDR to the PU's IP that does NOT carry the
authentication TCP option. -/
theorem claim_C8_exclusion_rules (i : Instance)
    (appChain netChain ip e : String) (exclusions : List String) :
    ((i.addExclusionACLs okOracle appChain netChain ip exclusions).trace =
      exclusions.flatMap (i.exclusionCmds appChain netChain ip)) ∧
    (i.exclusionCmds appChain netChain ip e =
      [Cmd.insert i.appAckPacketIPTableContext appChain 1
         ["-s", ip, "-d", e, "-j", "ACCEPT"],
       Cmd.insert i.netPacketIPTableContext netChain 1
         ["-s", e, "-d", ip, "-p", "tcp", "!", "--tcp-option",
          itoa TCPAuthenticationOption, "-j", "ACCEPT"]]) ∧
    (∀ (inCidr : String → String → Bool) (p : Packet),
      cmdAccepts inCidr (Cmd.insert i.appAckPacketIPTableContext appChain 1
          ["-s", ip, "-d", e, "-j", "ACCEPT"]) p =
        (inCidr p.src ip && inCidr p.dst e) ∧
      cmdAccepts inCidr (Cmd.insert i.netPacketIPTableContext netChain 1
          ["-s", e, "-d", ip, "-p", "tcp", "!", "--tcp-option",
           itoa TCPAuthenticationOption, "-j", "ACCEPT"]) p =
        (inCidr p.src e && inCidr p.dst ip && (toLower p.proto == "tcp") &&
          !(p.tcpOptions.contains (itoa TCPAuthenticationOption)))) := by
  refine ⟨?_, rfl, ?_⟩
  · show (runStrict okOracle _).trace = _
    rw [runStrict_ok]
  · intro inCidr p
    constructor
    · simp [cmdAccepts, specMatches, specTarget]
    · simp [cmdAccepts, specMatches, specTarget, itoa, natDigits,
        TCPAuthenticationOption, digitCh, Bool.and_assoc, toLower_tcp]

/-! ## Cache lemmas -/

theorem get_addOrUpdate (s : VersionTracker) (ctx : String) (d : CacheData) :
    (s.addOrUpdate ctx d).get ctx = some d := by
  simp [VersionTracker.get, VersionTracker.addOrUpdate, List.lookup]

theorem get_remove (s : VersionTracker) (ctx : String) :
    (s.remove ctx).get ctx = none := by
  induction s with
  | nil => rfl
  | cons p s ih =>
      obtain ⟨k, v⟩ := p
      by_cases h : k = ctx
      · simpa [VersionTracker.remove, List.filter_cons, h] using ih
      · have hb : (ctx == k) = false := by
          simp only [beq_eq_false_iff_ne]
          exact fun hh => h hh.symm
        simpa [VersionTracker.remove, VersionTracker.get,
          List.filter_cons, h, List.lookup, hb] using ih

/-! ## Claim C1: create on first Supervise, hitless update afterwards -/

/-- C1.  For a valid PU, the first `Supervise` of a contextID (no tracker
entry) caches the entry at version 0 and installs the packet-filter state
through `ConfigureRules` at version 0, while every `Supervise` of an already
tracked contextID leaves creation alone and runs `UpdateRules` at the
bit-flipped version — a hitless update, not a re-creation. -/
theorem claim_C1_create_then_update (impl : Instance) (oracle : Cmd → Bool)
    (tracker : VersionTracker) (ctx : String) (pu : PUInfo) :
    (tracker.get ctx = none →
      (impl.ConfigureRules oracle 0 ctx pu).err = none →
      Supervise impl oracle tracker ctx (some pu) =
        (tracker.addOrUpdate ctx
          { version := 0, ips := pu.Policy.ipAddresses,
            mark := pu.Runtime.Options.CgroupMark,
            port := ConvertServicesToPortList pu.Runtime.Options.Services,
            uid := pu.Runtime.Options.UserID, containerInfo := pu },
         impl.ConfigureRules oracle 0 ctx pu)) ∧
    (∀ c : CacheData, tracker.get ctx = some c →
      (impl.UpdateRules oracle (c.version ^^^ 1) ctx (some pu)
          (some c.containerInfo)).err = none →
      Supervise impl oracle tracker ctx (some pu) =
        (tracker.addOrUpdate ctx { c with version := c.version ^^^ 1 },
         impl.UpdateRules oracle (c.version ^^^ 1) ctx (some pu)
           (some c.containerInfo))) := by
  constructor
  · intro h herr
    simp [Supervise, doCreatePU, h, herr]
  · intro c h herr
    simp [Supervise, doUpdatePU, VersionTracker.lockedModify, h, revert,
      herr]

/-- Witness for C1: on the empty tracker, supervising "c" runs
`ConfigureRules` at version 0 and caches version 0; on a tracker already
holding "c" at version 0, supervising runs `UpdateRules` at version 1 and
moves the cache to version 1. -/
theorem claim_C1_witness :
    Supervise testInstance okOracle [] "c" (some testPU) =
      (VersionTracker.addOrUpdate [] "c" cfgX,
       testInstance.ConfigureRules okOracle 0 "c" testPU) ∧
    Supervise testInstance okOracle [("c", cfgX)] "c" (some testPU) =
      (VersionTracker.addOrUpdate [("c", cfgX)] "c"
         { cfgX with version := 1 },
       testInstance.UpdateRules okOracle 1 "c" (some testPU)
         (some testPU)) :=
  ⟨(claim_C1_create_then_update testInstance okOracle [] "c" testPU).1
      rfl rfl,
   (claim_C1_create_then_update testInstance okOracle [("c", cfgX)] "c"
      testPU).2 cfgX rfl rfl⟩

/-! ## Claim C5: Supervise failure surfaces the error and leaves no state -/

theorem defaultIP_snd_true (i : Instance) (m : ExtendedMap)
    (h : i.mode ≠ .LocalContainer) : (i.defaultIP m).2 = true := by
  unfold Instance.defaultIP
  rcases m.lookup DefaultNamespace with _ | ip <;> simp [h]
  split <;> simp [h]

/-- C5.  A failing `Supervise` surfaces the error and leaves no supervisor
state for the contextID: a nil PU/policy/runtime is rejected outright with
the tracker untouched; a missing PU IP (in the mode that requires one) makes
`ConfigureRules` fail with the no-IP error; a missing cgroup mark in
local-server mode makes it fail with the no-mark error; and any error from
`ConfigureRules` or `UpdateRules` makes `Supervise` roll back through
`Unsupervise` — the tracker ends without the contextID — and return the
original error. -/
theorem claim_C5_failure_rollback (impl : Instance) (oracle : Cmd → Bool)
    (tracker : VersionTracker) (ctx : String) (pu : PUInfo) (v : Nat) :
    (Supervise impl oracle tracker ctx none =
      (tracker, engineErr .invalidPU)) ∧
    ((impl.defaultIP pu.Policy.ipAddresses).2 = false →
      (impl.ConfigureRules oracle v ctx pu).err = some .noIP) ∧
    (impl.mode = .LocalServer → pu.Runtime.Options.CgroupMark = "" →
      (impl.ConfigureRules okOracle v ctx pu).err = some .noMark) ∧
    (∀ e : Err, tracker.get ctx = none →
      (impl.ConfigureRules oracle 0 ctx pu).err = some e →
      (Supervise impl oracle tracker ctx (some pu)).2.err = some e ∧
      (Supervise impl oracle tracker ctx (some pu)).1.get ctx = none) ∧
    (∀ (e : Err) (c : CacheData), tracker.get ctx = some c →
      (impl.UpdateRules oracle (c.version ^^^ 1) ctx (some pu)
          (some c.containerInfo)).err = some e →
      (Supervise impl oracle tracker ctx (some pu)).2.err = some e ∧
      (Supervise impl oracle tracker ctx (some pu)).1.get ctx = none) := by
  refine ⟨rfl, ?_, ?_, ?_, ?_⟩
  · intro h
    rcases hip : impl.defaultIP pu.Policy.ipAddresses with ⟨a, b⟩
    rw [hip] at h
    simp at h
    subst h
    simp [Instance.ConfigureRules, hip, engineErr]
  · intro hm hmark
    have h2 : (impl.defaultIP pu.Policy.ipAddresses).2 = true :=
      defaultIP_snd_true impl _ (by rw [hm]; intro hh; cases hh)
    rcases hip : impl.defaultIP pu.Policy.ipAddresses with ⟨a, b⟩
    rw [hip] at h2
    simp at h2
    subst h2
    simp [Instance.ConfigureRules, hip, hm, hmark, Instance.addContainerChain,
      runStrict_ok, EngineResult.seq, engineErr]
  · intro e h herr
    simp [Supervise, doCreatePU, h, herr, Unsupervise, get_addOrUpdate,
      get_remove]
  · intro e c h herr
    simp [Supervise, doUpdatePU, VersionTracker.lockedModify, h, revert,
      herr, Unsupervise, get_addOrUpdate, get_remove]

/-- Witness for C5: a nil PU is rejected; on a local-container instance a
PU without IP makes ConfigureRules fail with no-IP; on a local-server
instance a PU without mark fails with no-mark; and a failing create on the
empty tracker surfaces the no-IP error with no state left for "c". -/
theorem claim_C5_witness :
    Supervise testInstanceLC okOracle [] "c" none =
      ([], engineErr .invalidPU) ∧
    (testInstanceLC.ConfigureRules okOracle 0 "c" testPUNoIP).err =
      some .noIP ∧
    (testInstanceLS.ConfigureRules okOracle 0 "c" testPU).err =
      some .noMark ∧
    (Supervise testInstanceLC okOracle [] "c" (some testPUNoIP)).2.err =
      some .noIP ∧
    (Supervise testInstanceLC okOracle [] "c"
      (some testPUNoIP)).1.get "c" = none := by
  have h := claim_C5_failure_rollback testInstanceLC okOracle [] "c"
    testPUNoIP 0
  have hmark := (claim_C5_failure_rollback testInstanceLS okOracle [] "c"
    testPU 0).2.2.1 rfl rfl
  have hfail := h.2.2.2.1 Err.noIP rfl (h.2.1 rfl)
  exact ⟨h.1, h.2.1 rfl, hmark, hfail.1, hfail.2⟩

/-! ## Claim C6: Unsupervise — corrected -/

/-- C6 counterexample.  `Unsupervise` on a contextID that is not being
supervised does return an error the caller sees ("cannot find policy
version"), refuting "for every contextID, Unsupervise never returns an
error". -/
theorem claim_C6_counterexample :
    (Unsupervise testInstance okOracle [] "c").2.err =
      some (Err.notFound "c") ∧
    (Unsupervise testInstance okOracle [] "c").1 = [] :=
  ⟨rfl, rfl⟩

theorem seq_decompose (r1 r2 u f : EngineResult) (h1 : r1.err = none)
    (h2 : r2.err = none) :
    ∃ rest, ((r1.seq (r2.seq u)).seq f).trace =
      r1.trace ++ r2.trace ++ rest := by
  cases hu : u.err
  · exact ⟨u.trace ++ f.trace, by simp [EngineResult.seq, h1, h2, hu]⟩
  · exact ⟨u.trace, by simp [EngineResult.seq, h1, h2, hu]⟩

theorem deleteChainRules_err_none (i : Instance) (oracle : Cmd → Bool)
    (psn app net ip port mark uid pp ppsn : String) :
    (i.deleteChainRules oracle psn app net ip port mark uid pp ppsn).err =
      none := by
  unfold Instance.deleteChainRules
  split <;> [skip; rfl]
  split <;> rfl

/-- C6 (amended).  For every supervised contextID, `Unsupervise` never
returns an error, whatever the engine does: the jump-rule deletions and the
chain clear/deletions are all attempted (they are a prefix of the issued
trace, failures being only logged) and the cache entry is removed; only an
unknown contextID produces an error (`claim_C6_counterexample`). -/
theorem claim_C6_unsupervise_cleanup (impl : Instance) (oracle : Cmd → Bool)
    (tracker : VersionTracker) (ctx : String) (cfg : CacheData)
    (h : tracker.get ctx = some cfg)
    (hip : impl.mode ≠ .LocalServer → (impl.defaultIP cfg.ips).2 = true) :
    (Unsupervise impl oracle tracker ctx).2.err = none ∧
    (Unsupervise impl oracle tracker ctx).1.get ctx = none ∧
    ∃ rest, (Unsupervise impl oracle tracker ctx).2.trace =
      (impl.deleteChainRules oracle (PuPortSetName ctx cfg.mark puPortSetPfx)
        (chainName ctx cfg.version).1 (chainName ctx cfg.version).2
        (if impl.mode = .LocalServer then ""
          else (impl.defaultIP cfg.ips).1)
        cfg.port cfg.mark cfg.uid
        cfg.containerInfo.Runtime.Options.ProxyPort
        (PuPortSetName ctx cfg.mark "Proxy-")).trace ++
      (impl.deleteAllContainerChains oracle (chainName ctx cfg.version).1
        (chainName ctx cfg.version).2).trace ++ rest := by
  refine ⟨by simp [Unsupervise, h], by simp [Unsupervise, h, get_remove], ?_⟩
  by_cases hls : impl.mode = .LocalServer
  · simp only [Unsupervise, h, Instance.DeleteRules, hls, if_pos,
      Ne, not_true, ite_false, if_neg, not_false_iff, ite_true, reduceIte]
    refine seq_decompose _ _ _ _ ?_ ?_
    · exact deleteChainRules_err_none _ _ _ _ _ _ _ _ _ _ _
    · rfl
  · have hb : (impl.defaultIP cfg.ips).2 = true := hip hls
    rcases hdef : impl.defaultIP cfg.ips with ⟨a, b⟩
    rw [hdef] at hb
    simp at hb
    subst hb
    simp only [Unsupervise, h, Instance.DeleteRules, hls, hdef, if_neg,
      not_false_iff, ite_true, ite_false, reduceIte]
    rw [if_pos hls]
    refine seq_decompose _ _ _ _ ?_ ?_
    · exact deleteChainRules_err_none _ _ _ _ _ _ _ _ _ _ _
    · rfl

/-- Witness for C6 (amended): for a tracker supervising "c", Unsupervise
returns no error and drops the entry. -/
theorem claim_C6_witness :
    (Unsupervise testInstance okOracle [("c", cfgX)] "c").2.err = none ∧
    (Unsupervise testInstance okOracle
      [("c", cfgX)] "c").1.get "c" = none :=
  have h := claim_C6_unsupervise_cleanup testInstance okOracle
    [("c", cfgX)] "c" cfgX rfl (fun _ => rfl)
  ⟨h.1, h.2.1⟩

/-! ## Claims C2 and C4: the hitless-update order and the version flip -/

theorem addContainerChain_ok_err (i : Instance) (a n : String) :
    (i.addContainerChain okOracle a n).err = none := by
  simp [Instance.addContainerChain, runStrict_ok]

theorem addPacketTrap_ok_err (i : Instance) (a n ip : String)
    (nets : List String) :
    (i.addPacketTrap okOracle a n ip nets).err = none := by
  simp [Instance.addPacketTrap, processRulesFromList, runStrict_ok]

theorem addAppACLs_ok_err (i : Instance) (ctx ch ip : String)
    (rules : IPRuleList) : (i.addAppACLs okOracle ctx ch ip rules).err =
      none := by
  simp [Instance.addAppACLs, runStrict_ok]

theorem addNetACLs_ok_err (i : Instance) (ctx ch ip : String)
    (rules : IPRuleList) : (i.addNetACLs okOracle ctx ch ip rules).err =
      none := by
  simp [Instance.addNetACLs, runStrict_ok]

theorem addExclusionACLs_ok_err (i : Instance) (a n ip : String)
    (ex : List String) : (i.addExclusionACLs okOracle a n ip ex).err =
      none := by
  simp [Instance.addExclusionACLs, runStrict_ok]

theorem addChainRules_ok_err (i : Instance)
    (psn a n ip port mark uid pp ppsn : String) :
    (i.addChainRules okOracle psn a n ip port mark uid pp ppsn).err =
      none := by
  unfold Instance.addChainRules
  split
  · split <;> simp [processRulesFromList, runStrict_ok]
  · simp [processRulesFromList, runStrict_ok]

theorem updateProxySet_ok_err (i : Instance) (pub priv : List String)
    (ppsn : String) :
    (i.updateProxySet okOracle pub priv ppsn).err = none := by
  simp [Instance.updateProxySet, runStrict_ok, okOracle]

theorem deleteAllContainerChains_err (i : Instance) (oracle : Cmd → Bool)
    (a n : String) :
    (i.deleteAllContainerChains oracle a n).err = none := rfl

theorem xor_one_one (a : Nat) : a ^^^ 1 ^^^ 1 = a := by
  simp [Nat.xor_assoc]

/-- `doUpdatePU` under a cooperating engine: the tracked version flips from
`v` to `v ^^^ 1`, and the rule engine sees, in this order: the new chains
created and fully rendered at `v ^^^ 1`, the jump rules installed into them,
the jump rules to the version-`v` chains removed, the proxy set refreshed,
and finally the version-`v` chains cleared and deleted. -/
theorem doUpdatePU_ok (impl : Instance) (tracker : VersionTracker)
    (ctx : String) (pu : PUInfo) (c : CacheData) (ip : String)
    (h : tracker.get ctx = some c)
    (hip : impl.defaultIP pu.Policy.ipAddresses = (ip, true))
    (hmark : impl.mode = .LocalServer →
      pu.Runtime.Options.CgroupMark ≠ "") :
    doUpdatePU impl okOracle tracker ctx pu =
      (VersionTracker.addOrUpdate tracker ctx
        { c with version := c.version ^^^ 1 },
       ⟨(impl.addContainerChain okOracle
            (chainName ctx (c.version ^^^ 1)).1
            (chainName ctx (c.version ^^^ 1)).2).trace ++
          (impl.addPacketTrap okOracle (chainName ctx (c.version ^^^ 1)).1
            (chainName ctx (c.version ^^^ 1)).2 ip
            pu.Policy.triremeNetworks).trace ++
          (impl.addAppACLs okOracle ctx (chainName ctx (c.version ^^^ 1)).1
            ip pu.Policy.applicationACLs).trace ++
          (impl.addNetACLs okOracle ctx (chainName ctx (c.version ^^^ 1)).2
            ip pu.Policy.networkACLs).trace ++
          (impl.addExclusionACLs okOracle
            (chainName ctx (c.version ^^^ 1)).1
            (chainName ctx (c.version ^^^ 1)).2 ip
            pu.Policy.excludedNetworks).trace ++
          (if impl.mode = .LocalServer then
            impl.addChainRules okOracle
              (PuPortSetName ctx pu.Runtime.Options.CgroupMark puPortSetPfx)
              (chainName ctx (c.version ^^^ 1)).1
              (chainName ctx (c.version ^^^ 1)).2 ip
              (ConvertServicesToPortList pu.Runtime.Options.Services)
              pu.Runtime.Options.CgroupMark pu.Runtime.Options.UserID
              pu.Runtime.Options.ProxyPort
              (PuPortSetName ctx pu.Runtime.Options.CgroupMark
                proxyPortSetPfx)
          else
            impl.addChainRules okOracle "" (chainName ctx (c.version ^^^ 1)).1
              (chainName ctx (c.version ^^^ 1)).2 ip "" "" ""
              pu.Runtime.Options.ProxyPort
              (PuPortSetName ctx "" proxyPortSetPfx)).trace ++
          (if impl.mode = .LocalServer then
            impl.deleteChainRules okOracle
              (PuPortSetName ctx pu.Runtime.Options.CgroupMark puPortSetPfx)
              (chainName ctx c.version).1 (chainName ctx c.version).2 ip
              (ConvertServicesToPortList pu.Runtime.Options.Services)
              pu.Runtime.Options.CgroupMark pu.Runtime.Options.UserID
              pu.Runtime.Options.ProxyPort
              (PuPortSetName ctx pu.Runtime.Options.CgroupMark
                proxyPortSetPfx)
          else
            impl.deleteChainRules okOracle "" (chainName ctx c.version).1
              (chainName ctx c.version).2 ip "" "" ""
              pu.Runtime.Options.ProxyPort
              (PuPortSetName ctx "" proxyPortSetPfx)).trace ++
          [Cmd.updateProxySet (PuPortSetName ctx
            (if impl.mode = .LocalServer then
              pu.Runtime.Options.CgroupMark
            else "") proxyPortSetPfx)] ++
          (impl.deleteAllContainerChains okOracle (chainName ctx c.version).1
            (chainName ctx c.version).2).trace,
        none⟩) := by
  by_cases hls : impl.mode = .LocalServer
  · have hm := hmark hls
    simp only [doUpdatePU, VersionTracker.lockedModify, h, revert,
      Instance.UpdateRules, hip, xor_one_one, hls, hm, reduceIte, Ne,
      not_true, ite_false, ite_true, not_false_iff, eq_self_iff_true,
      if_false, if_true]
    simp only [EngineResult.seq, addContainerChain_ok_err,
      addPacketTrap_ok_err, addAppACLs_ok_err, addNetACLs_ok_err,
      addExclusionACLs_ok_err, addChainRules_ok_err,
      deleteChainRules_err_none, updateProxySet_ok_err,
      deleteAllContainerChains_err, Instance.updateProxySet, runStrict_ok,
      okOracle, Instance.deleteAllContainerChains, runBestEffort]
    simp [List.append_assoc]
  · simp only [doUpdatePU, VersionTracker.lockedModify, h, revert,
      Instance.UpdateRules, hip, xor_one_one, hls, reduceIte, Ne,
      not_false_iff, ite_true, ite_false, eq_self_iff_true, if_false,
      if_true]
    simp only [EngineResult.seq, addContainerChain_ok_err,
      addPacketTrap_ok_err, addAppACLs_ok_err, addNetACLs_ok_err,
      addExclusionACLs_ok_err, addChainRules_ok_err,
      deleteChainRules_err_none, updateProxySet_ok_err,
      deleteAllContainerChains_err, Instance.updateProxySet, runStrict_ok,
      okOracle, Instance.deleteAllContainerChains, runBestEffort]
    simp [List.append_assoc]

/-- C2.  For every policy update of an existing PU, the supervisor (through
`doUpdatePU`'s `revert` and `UpdateRules`) performs the hitless update in
this order: render and install the chains at version `v ^^^ 1` (bit flip of
the tracked version `v`), install the jump rules into the new chains, delete
the jump rules to the version-`v` chains, refresh the proxy set, and only
then clear and delete the old chains. -/
theorem claim_C2_hitless_update_order (impl : Instance)
    (tracker : VersionTracker) (ctx : String) (pu : PUInfo) (c : CacheData)
    (ip : String) (h : tracker.get ctx = some c)
    (hip : impl.defaultIP pu.Policy.ipAddresses = (ip, true))
    (hmark : impl.mode = .LocalServer →
      pu.Runtime.Options.CgroupMark ≠ "") :
    (doUpdatePU impl okOracle tracker ctx pu).2.trace =
      (impl.addContainerChain okOracle (chainName ctx (c.version ^^^ 1)).1
          (chainName ctx (c.version ^^^ 1)).2).trace ++
        (impl.addPacketTrap okOracle (chainName ctx (c.version ^^^ 1)).1
          (chainName ctx (c.version ^^^ 1)).2 ip
          pu.Policy.triremeNetworks).trace ++
        (impl.addAppACLs okOracle ctx (chainName ctx (c.version ^^^ 1)).1
          ip pu.Policy.applicationACLs).trace ++
        (impl.addNetACLs okOracle ctx (chainName ctx (c.version ^^^ 1)).2
          ip pu.Policy.networkACLs).trace ++
        (impl.addExclusionACLs okOracle (chainName ctx (c.version ^^^ 1)).1
          (chainName ctx (c.version ^^^ 1)).2 ip
          pu.Policy.excludedNetworks).trace ++
        (if impl.mode = .LocalServer then
          impl.addChainRules okOracle
            (PuPortSetName ctx pu.Runtime.Options.CgroupMark puPortSetPfx)
            (chainName ctx (c.version ^^^ 1)).1
            (chainName ctx (c.version ^^^ 1)).2 ip
            (ConvertServicesToPortList pu.Runtime.Options.Services)
            pu.Runtime.Options.CgroupMark pu.Runtime.Options.UserID
            pu.Runtime.Options.ProxyPort
            (PuPortSetName ctx pu.Runtime.Options.CgroupMark proxyPortSetPfx)
        else
          impl.addChainRules okOracle "" (chainName ctx (c.version ^^^ 1)).1
            (chainName ctx (c.version ^^^ 1)).2 ip "" "" ""
            pu.Runtime.Options.ProxyPort
            (PuPortSetName ctx "" proxyPortSetPfx)).trace ++
        (if impl.mode = .LocalServer then
          impl.deleteChainRules okOracle
            (PuPortSetName ctx pu.Runtime.Options.CgroupMark puPortSetPfx)
            (chainName ctx c.version).1 (chainName ctx c.version).2 ip
            (ConvertServicesToPortList pu.Runtime.Options.Services)
            pu.Runtime.Options.CgroupMark pu.Runtime.Options.UserID
            pu.Runtime.Options.ProxyPort
            (PuPortSetName ctx pu.Runtime.Options.CgroupMark proxyPortSetPfx)
        else
          impl.deleteChainRules okOracle "" (chainName ctx c.version).1
            (chainName ctx c.version).2 ip "" "" ""
            pu.Runtime.Options.ProxyPort
            (PuPortSetName ctx "" proxyPortSetPfx)).trace ++
        [Cmd.updateProxySet (PuPortSetName ctx
          (if impl.mode = .LocalServer then pu.Runtime.Options.CgroupMark
           else "") proxyPortSetPfx)] ++
        (impl.deleteAllContainerChains okOracle (chainName ctx c.version).1
          (chainName ctx c.version).2).trace := by
  rw [doUpdatePU_ok impl tracker ctx pu c ip h hip hmark]

/-- Witness for C2 on a tracked PU at version 0: the update trace is the
documented sequence with the new chains at version 1 and the old at 0. -/
theorem claim_C2_witness :
    (doUpdatePU testInstance okOracle [("c", cfgX)] "c" testPU).2.trace =
      (testInstance.addContainerChain okOracle
          (chainName "c" (cfgX.version ^^^ 1)).1
          (chainName "c" (cfgX.version ^^^ 1)).2).trace ++
        (testInstance.addPacketTrap okOracle
          (chainName "c" (cfgX.version ^^^ 1)).1
          (chainName "c" (cfgX.version ^^^ 1)).2 "172.17.0.1"
          testPU.Policy.triremeNetworks).trace ++
        (testInstance.addAppACLs okOracle "c"
          (chainName "c" (cfgX.version ^^^ 1)).1 "172.17.0.1"
          testPU.Policy.applicationACLs).trace ++
        (testInstance.addNetACLs okOracle "c"
          (chainName "c" (cfgX.version ^^^ 1)).2 "172.17.0.1"
          testPU.Policy.networkACLs).trace ++
        (testInstance.addExclusionACLs okOracle
          (chainName "c" (cfgX.version ^^^ 1)).1
          (chainName "c" (cfgX.version ^^^ 1)).2 "172.17.0.1"
          testPU.Policy.excludedNetworks).trace ++
        (if testInstance.mode = .LocalServer then
          testInstance.addChainRules okOracle
            (PuPortSetName "c" testPU.Runtime.Options.CgroupMark
              puPortSetPfx)
            (chainName "c" (cfgX.version ^^^ 1)).1
            (chainName "c" (cfgX.version ^^^ 1)).2 "172.17.0.1"
            (ConvertServicesToPortList testPU.Runtime.Options.Services)
            testPU.Runtime.Options.CgroupMark testPU.Runtime.Options.UserID
            testPU.Runtime.Options.ProxyPort
            (PuPortSetName "c" testPU.Runtime.Options.CgroupMark
              proxyPortSetPfx)
        else
          testInstance.addChainRules okOracle ""
            (chainName "c" (cfgX.version ^^^ 1)).1
            (chainName "c" (cfgX.version ^^^ 1)).2 "172.17.0.1" "" "" ""
            testPU.Runtime.Options.ProxyPort
            (PuPortSetName "c" "" proxyPortSetPfx)).trace ++
        (if testInstance.mode = .LocalServer then
          testInstance.deleteChainRules okOracle
            (PuPortSetName "c" testPU.Runtime.Options.CgroupMark
              puPortSetPfx)
            (chainName "c" cfgX.version).1 (chainName "c" cfgX.version).2
            "172.17.0.1"
            (ConvertServicesToPortList testPU.Runtime.Options.Services)
            testPU.Runtime.Options.CgroupMark testPU.Runtime.Options.UserID
            testPU.Runtime.Options.ProxyPort
            (PuPortSetName "c" testPU.Runtime.Options.CgroupMark
              proxyPortSetPfx)
        else
          testInstance.deleteChainRules okOracle ""
            (chainName "c" cfgX.version).1 (chainName "c" cfgX.version).2
            "172.17.0.1" "" "" "" testPU.Runtime.Options.ProxyPort
            (PuPortSetName "c" "" proxyPortSetPfx)).trace ++
        [Cmd.updateProxySet (PuPortSetName "c"
          (if testInstance.mode = .LocalServer then
            testPU.Runtime.Options.CgroupMark
           else "") proxyPortSetPfx)] ++
        (testInstance.deleteAllContainerChains okOracle
          (chainName "c" cfgX.version).1
          (chainName "c" cfgX.version).2).trace :=
  claim_C2_hitless_update_order testInstance [("c", cfgX)] "c" testPU cfgX
    "172.17.0.1" rfl rfl (fun hh => absurd hh (by decide))

/-! ## Claim C4 -/

/-- C4 counterexample.  Versions are not monotonically increasing: starting
from nothing, create gives version 0, the first update version 1, and the
second update version 0 again — strictly smaller, not larger. -/
theorem claim_C4_counterexample :
    (VersionTracker.get (Supervise testInstance okOracle [] "c"
        (some testPU)).1 "c").map CacheData.version = some 0 ∧
    (VersionTracker.get (Supervise testInstance okOracle
        (Supervise testInstance okOracle [] "c" (some testPU)).1
        "c" (some testPU)).1 "c").map CacheData.version = some 1 ∧
    (VersionTracker.get (Supervise testInstance okOracle
        (Supervise testInstance okOracle
          (Supervise testInstance okOracle [] "c" (some testPU)).1
          "c" (some testPU)).1 "c" (some testPU)).1 "c").map
      CacheData.version = some 0 ∧
    ¬((0 : Nat) > 1) :=
  ⟨rfl, rfl, rfl, by decide⟩

theorem mid_decompose {α : Type} (s1 s2 s3 s4 s5 s6 s7 s8 s9 : List α) :
    ∃ mid, s1 ++ s2 ++ s3 ++ s4 ++ s5 ++ s6 ++ s7 ++ s8 ++ s9 =
      s1 ++ mid ++ s9 :=
  ⟨s2 ++ s3 ++ s4 ++ s5 ++ s6 ++ s7 ++ s8, by simp [List.append_assoc]⟩

theorem xor_one_ne (a : Nat) : a ^^^ 1 ≠ a := by
  intro hh
  have h2 := congrArg (fun x => Nat.testBit x 0) hh
  simp [Nat.testBit_xor] at h2
  omega

/-- C4 (amended).  Every policy update flips the tracked version with
`xor 1` — always to a different value (alternating 0 and 1), not to a
strictly larger one — and the new version's chains are created and rendered
before the previous version's chains are cleared and deleted. -/
theorem claim_C4_version_flip (impl : Instance) (tracker : VersionTracker)
    (ctx : String) (pu : PUInfo) (c : CacheData) (ip : String)
    (h : tracker.get ctx = some c)
    (hip : impl.defaultIP pu.Policy.ipAddresses = (ip, true))
    (hmark : impl.mode = .LocalServer →
      pu.Runtime.Options.CgroupMark ≠ "") :
    (doUpdatePU impl okOracle tracker ctx pu).1.get ctx =
      some { c with version := c.version ^^^ 1 } ∧
    c.version ^^^ 1 ≠ c.version ∧
    ∃ mid, (doUpdatePU impl okOracle tracker ctx pu).2.trace =
      (impl.addContainerChain okOracle (chainName ctx (c.version ^^^ 1)).1
        (chainName ctx (c.version ^^^ 1)).2).trace ++ mid ++
      (impl.deleteAllContainerChains okOracle (chainName ctx c.version).1
        (chainName ctx c.version).2).trace := by
  rw [doUpdatePU_ok impl tracker ctx pu c ip h hip hmark]
  exact ⟨get_addOrUpdate _ _ _, xor_one_ne c.version,
    mid_decompose _ _ _ _ _ _ _ _ _⟩

/-- Witness for C4 (amended): updating the version-0 entry for "c" moves
the tracker to version 1. -/
theorem claim_C4_witness :
    (VersionTracker.get (doUpdatePU testInstance okOracle [("c", cfgX)]
      "c" testPU).1 "c").map CacheData.version = some 1 := by
  rw [(claim_C4_version_flip testInstance [("c", cfgX)] "c" testPU cfgX
    "172.17.0.1" rfl rfl (fun hh => absurd hh (by decide))).1]
  rfl

/-! ## Claim C9: teardown completeness — state-level machinery -/

/-- A command that only installs a rule into one of the given
(table, chain) pairs. -/
def inChains (cs : List (String × String)) (c : Cmd) : Prop :=
  ∃ t ch spec, (t, ch) ∈ cs ∧
    (c = Cmd.append t ch spec ∨ ∃ pos, c = Cmd.insert t ch pos spec)

theorem applyTrace_append (s : FilterState) (t1 t2 : List Cmd) :
    FilterState.applyTrace s (t1 ++ t2) =
      FilterState.applyTrace (FilterState.applyTrace s t1) t2 := by
  simp [FilterState.applyTrace, List.foldl_append]

/-- Running a trace of in-chain rule installations changes neither the
chains nor the sets, and every rule it leaves either was there before or
sits in one of the given chains. -/
theorem applyTrace_inChains (cs : List (String × String)) (tr : List Cmd)
    (h : ∀ c ∈ tr, inChains cs c) (s : FilterState) :
    (FilterState.applyTrace s tr).chains = s.chains ∧
    (FilterState.applyTrace s tr).sets = s.sets ∧
    ∀ r ∈ (FilterState.applyTrace s tr).rules,
      r ∈ s.rules ∨ (r.1, r.2.1) ∈ cs := by
  induction tr generalizing s with
  | nil => exact ⟨rfl, rfl, fun r hr => Or.inl hr⟩
  | cons c tr ih =>
      obtain ⟨t, ch, spec, hcs, hc⟩ := h c (by simp)
      have htail : ∀ c ∈ tr, inChains cs c := fun c hc => h c (by simp [hc])
      rcases hc with rfl | ⟨pos, rfl⟩
      all_goals
        obtain ⟨h1, h2, h3⟩ := ih htail
          { s with rules := (t, ch, spec) :: s.rules }
      all_goals
        refine ⟨h1, h2, fun r hr => ?_⟩
      all_goals
        rcases h3 r hr with hin | hin
      all_goals
        first
        | exact Or.inr hin
        | (rcases List.mem_cons.mp hin with rfl | hin
           · exact Or.inr hcs
           · exact Or.inl hin)

theorem inChains_append {cs : List (String × String)} {t ch : String}
    (hcs : (t, ch) ∈ cs) (spec : List String) :
    inChains cs (Cmd.append t ch spec) :=
  ⟨t, ch, spec, hcs, Or.inl rfl⟩

theorem inChains_insert {cs : List (String × String)} {t ch : String}
    (hcs : (t, ch) ∈ cs) (pos : Nat) (spec : List String) :
    inChains cs (Cmd.insert t ch pos spec) :=
  ⟨t, ch, spec, hcs, Or.inr ⟨pos, rfl⟩⟩

/-- Each per-rule command of the app-ACL renderer installs into the given
chain of the mangle table. -/
theorem appACLRuleCmds_inChains (i : Instance) {ch : String}
    (cs : List (String × String))
    (hcs : (i.appAckPacketIPTableContext, ch) ∈ cs) (ctx : String)
    (r : IPRule) :
    ∀ c ∈ i.appACLRuleCmds ctx ch r, inChains cs c := by
  intro c hc
  unfold Instance.appACLRuleCmds at hc
  dsimp only at hc
  split_ifs at hc <;> simp at hc <;>
    rcases hc with rfl | rfl <;>
    first
    | exact inChains_append hcs _
    | exact inChains_insert hcs _ _

/-- Each per-rule command of the net-ACL renderer installs into the given
chain of the mangle table. -/
theorem netACLRuleCmds_inChains (i : Instance) {ch : String}
    (cs : List (String × String))
    (hcs : (i.netPacketIPTableContext, ch) ∈ cs) (ctx : String)
    (r : IPRule) :
    ∀ c ∈ i.netACLRuleCmds ctx ch r, inChains cs c := by
  intro c hc
  unfold Instance.netACLRuleCmds at hc
  dsimp only at hc
  split_ifs at hc <;> simp at hc <;>
    rcases hc with rfl | rfl <;>
    first
    | exact inChains_append hcs _
    | exact inChains_insert hcs _ _

theorem appACLPassCmds_inChains (i : Instance) {ch : String}
    (cs : List (String × String))
    (hcs : (i.appAckPacketIPTableContext, ch) ∈ cs) (ctx : String)
    (loop : Nat) (rules : IPRuleList) :
    ∀ c ∈ i.appACLPassCmds ctx ch loop rules, inChains cs c := by
  intro c hc
  rw [appACLPassCmds_eq_filter] at hc
  obtain ⟨r, _, hcr⟩ := List.mem_flatMap.mp hc
  exact appACLRuleCmds_inChains i cs hcs ctx r c hcr

theorem netACLPassCmds_inChains (i : Instance) {ch : String}
    (cs : List (String × String))
    (hcs : (i.netPacketIPTableContext, ch) ∈ cs) (ctx : String)
    (loop : Nat) (rules : IPRuleList) :
    ∀ c ∈ i.netACLPassCmds ctx ch loop rules, inChains cs c := by
  intro c hc
  rw [netACLPassCmds_eq_filter] at hc
  obtain ⟨r, _, hcr⟩ := List.mem_flatMap.mp hc
  exact netACLRuleCmds_inChains i cs hcs ctx r c hcr

theorem addAppACLs_trace_inChains (i : Instance) {ch : String}
    (cs : List (String × String))
    (hcs : (i.appAckPacketIPTableContext, ch) ∈ cs) (ctx ip : String)
    (rules : IPRuleList) :
    ∀ c ∈ (i.addAppACLs okOracle ctx ch ip rules).trace, inChains cs c := by
  intro c hc
  simp only [Instance.addAppACLs, runStrict_ok, List.mem_append] at hc
  rcases hc with ((hc | hc) | hc) | hc
  · exact appACLPassCmds_inChains i cs hcs ctx 0 rules c hc
  · exact appACLPassCmds_inChains i cs hcs ctx 1 rules c hc
  · exact appACLPassCmds_inChains i cs hcs ctx 2 rules c hc
  · simp [Instance.appACLTailCmds] at hc
    rcases hc with rfl | rfl | rfl | rfl <;> exact inChains_append hcs _

theorem addNetACLs_trace_inChains (i : Instance) {ch : String}
    (cs : List (String × String))
    (hcs : (i.netPacketIPTableContext, ch) ∈ cs) (ctx ip : String)
    (rules : IPRuleList) :
    ∀ c ∈ (i.addNetACLs okOracle ctx ch ip rules).trace, inChains cs c := by
  intro c hc
  simp only [Instance.addNetACLs, runStrict_ok, List.mem_append] at hc
  rcases hc with ((hc | hc) | hc) | hc
  · exact netACLPassCmds_inChains i cs hcs ctx 0 rules c hc
  · exact netACLPassCmds_inChains i cs hcs ctx 1 rules c hc
  · exact netACLPassCmds_inChains i cs hcs ctx 2 rules c hc
  · simp [Instance.netACLTailCmds] at hc
    rcases hc with rfl | rfl | rfl | rfl <;> exact inChains_append hcs _

theorem addPacketTrap_trace_inChains (i : Instance) (a n ip : String)
    (nets : List String) :
    ∀ c ∈ (i.addPacketTrap okOracle a n ip nets).trace,
      inChains [(i.appPacketIPTableContext, a),
        (i.appAckPacketIPTableContext, a),
        (i.netPacketIPTableContext, n)] c := by
  intro c hc
  by_cases hm : i.mode = .LocalContainer <;>
    simp [Instance.addPacketTrap, processRulesFromList, runStrict_ok,
      Instance.trapRules, hm] at hc
  all_goals
    rcases hc with rfl | rfl | rfl | rfl | rfl <;>
      exact inChains_append (by simp) _

theorem addExclusionACLs_trace_inChains (i : Instance)
    {a n : String} (cs : List (String × String))
    (h1 : (i.appAckPacketIPTableContext, a) ∈ cs)
    (h2 : (i.netPacketIPTableContext, n) ∈ cs) (ip : String)
    (ex : List String) :
    ∀ c ∈ (i.addExclusionACLs okOracle a n ip ex).trace, inChains cs c := by
  intro c hc
  simp only [Instance.addExclusionACLs, runStrict_ok] at hc
  obtain ⟨e, _, hce⟩ := List.mem_flatMap.mp hc
  simp [Instance.exclusionCmds] at hce
  rcases hce with rfl | rfl
  · exact inChains_insert h1 _ _
  · exact inChains_insert h2 _ _

theorem applyTrace_append_list (L : List RuleTriple) (s : FilterState) :
    FilterState.applyTrace s (L.map fun r => Cmd.append r.1 r.2.1 r.2.2) =
      { s with rules := L.reverse ++ s.rules } := by
  induction L generalizing s with
  | nil => rfl
  | cons l L ih =>
      obtain ⟨t, ch, spec⟩ := l
      show FilterState.applyTrace
          (s.apply (Cmd.append t ch spec))
          (L.map fun r => Cmd.append r.1 r.2.1 r.2.2) = _
      rw [ih]
      simp [FilterState.apply, List.append_assoc]

theorem applyTrace_newChains (ps : List (String × String)) (s : FilterState) :
    FilterState.applyTrace s (ps.map fun p => Cmd.newChain p.1 p.2) =
      { s with chains := ps.reverse ++ s.chains } := by
  induction ps generalizing s with
  | nil => rfl
  | cons p ps ih =>
      obtain ⟨t, n⟩ := p
      show FilterState.applyTrace
          (s.apply (Cmd.newChain t n))
          (ps.map fun p => Cmd.newChain p.1 p.2) = _
      rw [ih]
      simp [FilterState.apply, List.append_assoc]

theorem applyTrace_delete_list (L : List RuleTriple) (s : FilterState) :
    (FilterState.applyTrace s
        (L.map fun r => Cmd.delete r.1 r.2.1 r.2.2)).chains = s.chains ∧
    (FilterState.applyTrace s
        (L.map fun r => Cmd.delete r.1 r.2.1 r.2.2)).sets = s.sets ∧
    ∀ x, x ∈ (FilterState.applyTrace s
        (L.map fun r => Cmd.delete r.1 r.2.1 r.2.2)).rules ↔
      x ∈ s.rules ∧ x ∉ L := by
  induction L generalizing s with
  | nil => simp [FilterState.applyTrace]
  | cons l L ih =>
      obtain ⟨t, ch, spec⟩ := l
      have hstep :
          FilterState.applyTrace s
              (((t, ch, spec) :: L).map fun r =>
                Cmd.delete r.1 r.2.1 r.2.2) =
            FilterState.applyTrace (s.apply (Cmd.delete t ch spec))
              (L.map fun r => Cmd.delete r.1 r.2.1 r.2.2) := rfl
      rw [hstep]
      obtain ⟨h1, h2, h3⟩ := ih (s.apply (Cmd.delete t ch spec))
      refine ⟨by rw [h1]; rfl, by rw [h2]; rfl, fun x => ?_⟩
      rw [h3 x]
      simp [FilterState.apply, List.mem_filter, and_assoc]

theorem createProxySets_ok_err (i : Instance) (pub priv : List String)
    (ppsn : String) :
    (i.createProxySets okOracle pub priv ppsn).err = none := by
  simp [Instance.createProxySets, runStrict_ok]

/-- The `_port` argument of the container-mode jump-rule list is unused
(acls.go:140-236 reads only the chains, ip, proxy port and set names). -/
theorem chainRules_port_irrel (i : Instance)
    (a n ip p1 p2 pp ppsn : String) :
    i.chainRules a n ip p1 pp ppsn = i.chainRules a n ip p2 pp ppsn := rfl

/-- `ConfigureRules` in a container mode under a cooperating engine: create
the two (or three) per-PU chains, create the proxy set pair named with the
empty mark, append the jump rules, then render the traps, ACLs and
exclusions into the new chains. -/
theorem configureRules_container_ok (impl : Instance) (ctx : String)
    (pu : PUInfo) (ip : String)
    (hls : ¬impl.mode = .LocalServer)
    (hip : impl.defaultIP pu.Policy.ipAddresses = (ip, true)) :
    impl.ConfigureRules okOracle 0 ctx pu =
      ⟨((if impl.mode = .LocalContainer then
            [Cmd.newChain impl.appPacketIPTableContext (chainName ctx 0).1]
          else []) ++
         [Cmd.newChain impl.appAckPacketIPTableContext (chainName ctx 0).1,
          Cmd.newChain impl.netPacketIPTableContext (chainName ctx 0).2]) ++
        [Cmd.createSet (PuPortSetName ctx "" "Proxy-" ++ "-dst"),
         Cmd.createSet (PuPortSetName ctx "" "Proxy-" ++ "-src")] ++
        ((impl.chainRules (chainName ctx 0).1 (chainName ctx 0).2 ip ""
            pu.Runtime.Options.ProxyPort
            (PuPortSetName ctx "" "Proxy-")).map
          fun r => Cmd.append r.1 r.2.1 r.2.2) ++
        ((impl.addPacketTrap okOracle (chainName ctx 0).1 (chainName ctx 0).2
            ip pu.Policy.triremeNetworks).trace ++
         (impl.addAppACLs okOracle ctx (chainName ctx 0).1 ip
            pu.Policy.applicationACLs).trace ++
         (impl.addNetACLs okOracle ctx (chainName ctx 0).2 ip
            pu.Policy.networkACLs).trace ++
         (impl.addExclusionACLs okOracle (chainName ctx 0).1
            (chainName ctx 0).2 ip pu.Policy.excludedNetworks).trace),
       none⟩ := by
  simp only [Instance.ConfigureRules, hip]
  rw [if_pos hls]
  simp only [EngineResult.seq, addContainerChain_ok_err,
    createProxySets_ok_err, addChainRules_ok_err, addPacketTrap_ok_err,
    addAppACLs_ok_err, addNetACLs_ok_err, addExclusionACLs_ok_err]
  simp only [Instance.addContainerChain, Instance.createProxySets,
    getSetNamePair, Instance.addChainRules, hls, runStrict_ok,
    processRulesFromList, proxyPortSetPfx, if_false, ite_false, reduceIte]
  simp [List.append_assoc]

/-- `DeleteRules` in a container mode with an empty uid under a cooperating
engine: delete the jump rules, clear and delete both chains in every table,
and destroy the proxy set pair named from the cached mark. -/
theorem deleteRules_container_ok (impl : Instance) (ctx : String) (v : Nat)
    (m : ExtendedMap) (ip port mark pp ppsn : String)
    (hls : ¬impl.mode = .LocalServer)
    (hip : impl.defaultIP m = (ip, true)) :
    impl.DeleteRules okOracle v ctx (some m) port mark "" pp ppsn =
      ⟨((impl.chainRules (chainName ctx v).1 (chainName ctx v).2 ip port pp
          ppsn).map fun r => Cmd.delete r.1 r.2.1 r.2.2) ++
        [Cmd.clearChain impl.appPacketIPTableContext (chainName ctx v).1,
         Cmd.deleteChain impl.appPacketIPTableContext (chainName ctx v).1,
         Cmd.clearChain impl.appAckPacketIPTableContext (chainName ctx v).1,
         Cmd.deleteChain impl.appAckPacketIPTableContext (chainName ctx v).1,
         Cmd.clearChain impl.netPacketIPTableContext (chainName ctx v).2,
         Cmd.deleteChain impl.netPacketIPTableContext (chainName ctx v).2] ++
        [Cmd.destroySet (ppsn ++ "-dst"), Cmd.destroySet (ppsn ++ "-src")],
       none⟩ := by
  simp only [Instance.DeleteRules]
  rw [if_pos hls]
  simp only [hip, Instance.deleteChainRules, hls, if_false, ite_false,
    reduceIte, processRulesFromList, runBestEffort,
    Instance.deleteAllContainerChains, getSetNamePair, EngineResult.seq]
  simp [List.append_assoc]

/-- The teardown endgame shared by every mode: from any state whose chains
are among the PU's app/net chains, whose sets are the proxy pair, and whose
rules are either jump rules of the list `CR` or rules sitting inside the
PU's chains, the delete trace (jump-rule deletions, chain clears and
deletions, set destructions) leaves the filter empty. -/
theorem c9_endgame (impl : Instance) (a n d0 s0 : String)
    (CR : List RuleTriple) (sB : FilterState)
    (hch : ∀ p ∈ sB.chains,
      p = (impl.appPacketIPTableContext, a) ∨
      p = (impl.appAckPacketIPTableContext, a) ∨
      p = (impl.netPacketIPTableContext, n))
    (hsets : ∀ x ∈ sB.sets, x = s0 ∨ x = d0)
    (hru : ∀ r ∈ sB.rules, r ∈ CR ∨
      (r.1, r.2.1) ∈ [(impl.appPacketIPTableContext, a),
        (impl.appAckPacketIPTableContext, a),
        (impl.netPacketIPTableContext, n)]) :
    FilterState.applyTrace (FilterState.applyTrace (FilterState.applyTrace sB
      (CR.map fun r => Cmd.delete r.1 r.2.1 r.2.2))
      [Cmd.clearChain impl.appPacketIPTableContext a,
       Cmd.deleteChain impl.appPacketIPTableContext a,
       Cmd.clearChain impl.appAckPacketIPTableContext a,
       Cmd.deleteChain impl.appAckPacketIPTableContext a,
       Cmd.clearChain impl.netPacketIPTableContext n,
       Cmd.deleteChain impl.netPacketIPTableContext n])
      [Cmd.destroySet d0, Cmd.destroySet s0] = FilterState.empty := by
  have hsplit : ∀ st : FilterState,
      st.chains = [] → st.rules = [] → st.sets = [] →
      st = FilterState.empty := by
    intro st h1 h2 h3
    cases st
    simp_all [FilterState.empty]
  obtain ⟨g1, g2, g3⟩ := applyTrace_delete_list CR sB
  set f1 := FilterState.applyTrace sB
    (CR.map fun r => Cmd.delete r.1 r.2.1 r.2.2) with hf1
  apply hsplit
  · rw [List.eq_nil_iff_forall_not_mem]
    intro x hx
    simp only [FilterState.applyTrace, List.foldl, FilterState.apply,
      List.mem_filter, decide_eq_true_eq] at hx
    obtain ⟨⟨⟨hx0, h1⟩, h2⟩, h3⟩ := hx
    rw [g1] at hx0
    rcases hch x hx0 with rfl | rfl | rfl
    · exact h1 rfl
    · exact h2 rfl
    · exact h3 rfl
  · rw [List.eq_nil_iff_forall_not_mem]
    intro x hx
    simp only [FilterState.applyTrace, List.foldl, FilterState.apply,
      List.mem_filter, decide_eq_true_eq] at hx
    obtain ⟨⟨⟨hx0, p1⟩, p2⟩, p3⟩ := hx
    obtain ⟨hx2, hnotCR⟩ := (g3 x).mp hx0
    rcases hru x hx2 with hin | hin
    · exact hnotCR hin
    · simp only [List.mem_cons, List.not_mem_nil, or_false,
        Prod.mk.injEq] at hin
      rcases hin with ⟨e1, e2⟩ | ⟨e1, e2⟩ | ⟨e1, e2⟩
      · exact p1 ⟨e1, e2⟩
      · exact p2 ⟨e1, e2⟩
      · exact p3 ⟨e1, e2⟩
  · rw [List.eq_nil_iff_forall_not_mem]
    intro x hx
    simp only [FilterState.applyTrace, List.foldl, FilterState.apply,
      List.mem_filter, decide_eq_true_eq] at hx
    obtain ⟨⟨hx0, hd⟩, hs⟩ := hx
    rw [g2] at hx0
    rcases hsets x hx0 with rfl | rfl
    · exact hs rfl
    · exact hd rfl

set_option maxHeartbeats 1600000 in
/-- Supervise-then-Unsupervise in a container mode (with the empty mark the
create path itself uses for the proxy-set names, and no uid) tears
everything down: the final filter state is empty. -/
theorem c9_teardown_container (impl : Instance) (ctx : String) (pu : PUInfo)
    (ip : String)
    (hls : ¬impl.mode = ModeType.LocalServer)
    (hip : impl.defaultIP pu.Policy.ipAddresses = (ip, true))
    (hmark : pu.Runtime.Options.CgroupMark = "")
    (huid : pu.Runtime.Options.UserID = "") :
    (Supervise impl okOracle [] ctx (some pu)).2.err = none ∧
    FilterState.applyTrace FilterState.empty
      ((Supervise impl okOracle [] ctx (some pu)).2.trace ++
       (Unsupervise impl okOracle
         (Supervise impl okOracle [] ctx (some pu)).1 ctx).2.trace) =
      FilterState.empty := by
  have hconf := configureRules_container_ok impl ctx pu ip hls hip
  have herr : (impl.ConfigureRules okOracle 0 ctx pu).err = none := by
    rw [hconf]
  have hsup : Supervise impl okOracle [] ctx (some pu) =
      ([(ctx, { version := 0, ips := pu.Policy.ipAddresses,
                mark := "",
                port :=
                  ConvertServicesToPortList pu.Runtime.Options.Services,
                uid := "", containerInfo := pu })],
       impl.ConfigureRules okOracle 0 ctx pu) := by
    simp only [Supervise, VersionTracker.get, List.lookup, doCreatePU, herr,
      VersionTracker.addOrUpdate, VersionTracker.remove, List.filter,
      hmark, huid]
  have hget : VersionTracker.get
      [(ctx, { version := 0, ips := pu.Policy.ipAddresses,
               mark := "",
               port :=
                 ConvertServicesToPortList pu.Runtime.Options.Services,
               uid := "", containerInfo := pu })]
      ctx =
      some { version := 0, ips := pu.Policy.ipAddresses,
             mark := "",
             port := ConvertServicesToPortList pu.Runtime.Options.Services,
             uid := "", containerInfo := pu } := by
    simp [VersionTracker.get]
  have hdel := deleteRules_container_ok impl ctx 0 pu.Policy.ipAddresses ip
    (ConvertServicesToPortList pu.Runtime.Options.Services) ""
    pu.Runtime.Options.ProxyPort (PuPortSetName ctx "" "Proxy-") hls hip
  rw [chainRules_port_irrel impl (chainName ctx 0).1 (chainName ctx 0).2 ip
    (ConvertServicesToPortList pu.Runtime.Options.Services) ""
    pu.Runtime.Options.ProxyPort (PuPortSetName ctx "" "Proxy-")] at hdel
  have hB1m := addPacketTrap_trace_inChains impl (chainName ctx 0).1 (chainName ctx 0).2 ip
    pu.Policy.triremeNetworks
  have hB2m := @addAppACLs_trace_inChains impl (chainName ctx 0).1
    ([(impl.appPacketIPTableContext, (chainName ctx 0).1),
      (impl.appAckPacketIPTableContext, (chainName ctx 0).1),
      (impl.netPacketIPTableContext, (chainName ctx 0).2)]) (by simp) ctx ip pu.Policy.applicationACLs
  have hB3m := @addNetACLs_trace_inChains impl (chainName ctx 0).2
    ([(impl.appPacketIPTableContext, (chainName ctx 0).1),
      (impl.appAckPacketIPTableContext, (chainName ctx 0).1),
      (impl.netPacketIPTableContext, (chainName ctx 0).2)]) (by simp) ctx ip pu.Policy.networkACLs
  have hB4m := @addExclusionACLs_trace_inChains impl (chainName ctx 0).1 (chainName ctx 0).2
    ([(impl.appPacketIPTableContext, (chainName ctx 0).1),
      (impl.appAckPacketIPTableContext, (chainName ctx 0).1),
      (impl.netPacketIPTableContext, (chainName ctx 0).2)]) (by simp) (by simp) ip pu.Policy.excludedNetworks
  have hSH : (FilterState.applyTrace (FilterState.applyTrace (FilterState.applyTrace (FilterState.applyTrace FilterState.empty
    (if impl.mode = ModeType.LocalContainer then
        [Cmd.newChain impl.appPacketIPTableContext (chainName ctx 0).1]
      else []))
    [Cmd.newChain impl.appAckPacketIPTableContext (chainName ctx 0).1,
     Cmd.newChain impl.netPacketIPTableContext (chainName ctx 0).2])
    [Cmd.createSet (PuPortSetName ctx "" "Proxy-" ++ "-dst"),
     Cmd.createSet (PuPortSetName ctx "" "Proxy-" ++ "-src")])
    ((impl.chainRules (chainName ctx 0).1 (chainName ctx 0).2 ip ""
      pu.Runtime.Options.ProxyPort (PuPortSetName ctx "" "Proxy-")).map
      fun r => Cmd.append r.1 r.2.1 r.2.2)) =
      ⟨((if impl.mode = ModeType.LocalContainer then
          [(impl.appPacketIPTableContext, (chainName ctx 0).1)]
        else []) ++
        [(impl.appAckPacketIPTableContext, (chainName ctx 0).1),
         (impl.netPacketIPTableContext, (chainName ctx 0).2)]).reverse,
       (impl.chainRules (chainName ctx 0).1 (chainName ctx 0).2 ip ""
      pu.Runtime.Options.ProxyPort (PuPortSetName ctx "" "Proxy-")).reverse,
       [PuPortSetName ctx "" "Proxy-" ++ "-src",
        PuPortSetName ctx "" "Proxy-" ++ "-dst"]⟩ := by
    rw [applyTrace_append_list]
    by_cases hlc : impl.mode = ModeType.LocalContainer <;>
      simp [hlc, FilterState.applyTrace, FilterState.apply, FilterState.empty]
  obtain ⟨c1, s1e, r1⟩ := applyTrace_inChains _ _ hB1m (FilterState.applyTrace (FilterState.applyTrace (FilterState.applyTrace (FilterState.applyTrace FilterState.empty
    (if impl.mode = ModeType.LocalContainer then
        [Cmd.newChain impl.appPacketIPTableContext (chainName ctx 0).1]
      else []))
    [Cmd.newChain impl.appAckPacketIPTableContext (chainName ctx 0).1,
     Cmd.newChain impl.netPacketIPTableContext (chainName ctx 0).2])
    [Cmd.createSet (PuPortSetName ctx "" "Proxy-" ++ "-dst"),
     Cmd.createSet (PuPortSetName ctx "" "Proxy-" ++ "-src")])
    ((impl.chainRules (chainName ctx 0).1 (chainName ctx 0).2 ip ""
      pu.Runtime.Options.ProxyPort (PuPortSetName ctx "" "Proxy-")).map
      fun r => Cmd.append r.1 r.2.1 r.2.2))
  obtain ⟨c2, s2e, r2⟩ := applyTrace_inChains _ _ hB2m (FilterState.applyTrace (FilterState.applyTrace (FilterState.applyTrace (FilterState.applyTrace (FilterState.applyTrace FilterState.empty
    (if impl.mode = ModeType.LocalContainer then
        [Cmd.newChain impl.appPacketIPTableContext (chainName ctx 0).1]
      else []))
    [Cmd.newChain impl.appAckPacketIPTableContext (chainName ctx 0).1,
     Cmd.newChain impl.netPacketIPTableContext (chainName ctx 0).2])
    [Cmd.createSet (PuPortSetName ctx "" "Proxy-" ++ "-dst"),
     Cmd.createSet (PuPortSetName ctx "" "Proxy-" ++ "-src")])
    ((impl.chainRules (chainName ctx 0).1 (chainName ctx 0).2 ip ""
      pu.Runtime.Options.ProxyPort (PuPortSetName ctx "" "Proxy-")).map
      fun r => Cmd.append r.1 r.2.1 r.2.2))
    (impl.addPacketTrap okOracle (chainName ctx 0).1 (chainName ctx 0).2 ip
      pu.Policy.triremeNetworks).trace)
  obtain ⟨c3, s3e, r3⟩ := applyTrace_inChains _ _ hB3m (FilterState.applyTrace (FilterState.applyTrace (FilterState.applyTrace (FilterState.applyTrace (FilterState.applyTrace (FilterState.applyTrace FilterState.empty
    (if impl.mode = ModeType.LocalContainer then
        [Cmd.newChain impl.appPacketIPTableContext (chainName ctx 0).1]
      else []))
    [Cmd.newChain impl.appAckPacketIPTableContext (chainName ctx 0).1,
     Cmd.newChain impl.netPacketIPTableContext (chainName ctx 0).2])
    [Cmd.createSet (PuPortSetName ctx "" "Proxy-" ++ "-dst"),
     Cmd.createSet (PuPortSetName ctx "" "Proxy-" ++ "-src")])
    ((impl.chainRules (chainName ctx 0).1 (chainName ctx 0).2 ip ""
      pu.Runtime.Options.ProxyPort (PuPortSetName ctx "" "Proxy-")).map
      fun r => Cmd.append r.1 r.2.1 r.2.2))
    (impl.addPacketTrap okOracle (chainName ctx 0).1 (chainName ctx 0).2 ip
      pu.Policy.triremeNetworks).trace)
    (impl.addAppACLs okOracle ctx (chainName ctx 0).1 ip
      pu.Policy.applicationACLs).trace)
  obtain ⟨c4, s4e, r4⟩ := applyTrace_inChains _ _ hB4m (FilterState.applyTrace (FilterState.applyTrace (FilterState.applyTrace (FilterState.applyTrace (FilterState.applyTrace (FilterState.applyTrace (FilterState.applyTrace FilterState.empty
    (if impl.mode = ModeType.LocalContainer then
        [Cmd.newChain impl.appPacketIPTableContext (chainName ctx 0).1]
      else []))
    [Cmd.newChain impl.appAckPacketIPTableContext (chainName ctx 0).1,
     Cmd.newChain impl.netPacketIPTableContext (chainName ctx 0).2])
    [Cmd.createSet (PuPortSetName ctx "" "Proxy-" ++ "-dst"),
     Cmd.createSet (PuPortSetName ctx "" "Proxy-" ++ "-src")])
    ((impl.chainRules (chainName ctx 0).1 (chainName ctx 0).2 ip ""
      pu.Runtime.Options.ProxyPort (PuPortSetName ctx "" "Proxy-")).map
      fun r => Cmd.append r.1 r.2.1 r.2.2))
    (impl.addPacketTrap okOracle (chainName ctx 0).1 (chainName ctx 0).2 ip
      pu.Policy.triremeNetworks).trace)
    (impl.addAppACLs okOracle ctx (chainName ctx 0).1 ip
      pu.Policy.applicationACLs).trace)
    (impl.addNetACLs okOracle ctx (chainName ctx 0).2 ip
      pu.Policy.networkACLs).trace)
  refine ⟨by rw [hsup]; exact herr, ?_⟩
  rw [hsup]
  dsimp only
  simp only [Unsupervise, hget]
  rw [hdel, hconf]
  dsimp only
  simp only [applyTrace_append]
  apply c9_endgame
  · intro p hp
    rw [c4, c3, c2, c1, hSH] at hp
    by_cases hlc : impl.mode = ModeType.LocalContainer <;>
      simp [hlc] at hp <;> tauto
  · intro x hx
    rw [s4e, s3e, s2e, s1e, hSH] at hx
    simpa using hx
  · intro r hr
    rcases r4 r hr with h | h
    on_goal 2 => exact Or.inr h
    rcases r3 r h with h | h
    on_goal 2 => exact Or.inr h
    rcases r2 r h with h | h
    on_goal 2 => exact Or.inr h
    rcases r1 r h with h | h
    on_goal 2 => exact Or.inr h
    rw [hSH] at h
    exact Or.inl (List.mem_reverse.mp (by simpa using h))

/-- `ConfigureRules` in LocalServer mode with a mark and no uid, under a
cooperating engine: create the two per-PU chains, create the proxy set pair
named with the cgroup mark, append the cgroup jump rules, then render the
traps, ACLs and exclusions into the new chains. -/
theorem configureRules_server_ok (impl : Instance) (ctx : String)
    (pu : PUInfo) (ip : String)
    (hls : impl.mode = ModeType.LocalServer)
    (hip : impl.defaultIP pu.Policy.ipAddresses = (ip, true))
    (hmark : ¬pu.Runtime.Options.CgroupMark = "")
    (huid : pu.Runtime.Options.UserID = "") :
    impl.ConfigureRules okOracle 0 ctx pu =
      ⟨[Cmd.newChain impl.appAckPacketIPTableContext (chainName ctx 0).1,
        Cmd.newChain impl.netPacketIPTableContext (chainName ctx 0).2] ++
        [Cmd.createSet ((PuPortSetName ctx pu.Runtime.Options.CgroupMark "Proxy-") ++ "-dst"),
         Cmd.createSet ((PuPortSetName ctx pu.Runtime.Options.CgroupMark "Proxy-") ++ "-src")] ++
        ((impl.cgroupChainRules (chainName ctx 0).1 (chainName ctx 0).2
      pu.Runtime.Options.CgroupMark (ConvertServicesToPortList pu.Runtime.Options.Services) "" pu.Runtime.Options.ProxyPort
      (PuPortSetName ctx pu.Runtime.Options.CgroupMark "Proxy-")).map
      fun r => Cmd.append r.1 r.2.1 r.2.2) ++
        ((impl.addPacketTrap okOracle (chainName ctx 0).1 (chainName ctx 0).2 ip
      pu.Policy.triremeNetworks).trace ++
         (impl.addAppACLs okOracle ctx (chainName ctx 0).1 ip
      pu.Policy.applicationACLs).trace ++
         (impl.addNetACLs okOracle ctx (chainName ctx 0).2 ip
      pu.Policy.networkACLs).trace ++
         (impl.addExclusionACLs okOracle (chainName ctx 0).1 (chainName ctx 0).2 ip
      pu.Policy.excludedNetworks).trace),
       none⟩ := by
  simp only [Instance.ConfigureRules, hip, hls, huid]
  rw [if_neg hmark]
  simp only [EngineResult.seq, addContainerChain_ok_err,
    createProxySets_ok_err, addChainRules_ok_err, addPacketTrap_ok_err,
    addAppACLs_ok_err, addNetACLs_ok_err, addExclusionACLs_ok_err]
  simp only [Instance.addContainerChain, Instance.createProxySets,
    getSetNamePair, Instance.addChainRules, hls, runStrict_ok,
    processRulesFromList, proxyPortSetPfx, if_false, ite_false, reduceIte]
  simp [List.append_assoc, EngineResult.seq]

/-- `DeleteRules` in LocalServer mode with an empty uid under a cooperating
engine: delete the cgroup jump rules, clear and delete both chains, destroy
the proxy set pair. -/
theorem deleteRules_server_ok (impl : Instance) (ctx : String) (v : Nat)
    (ips : Option ExtendedMap) (port mark pp ppsn : String)
    (hls : impl.mode = ModeType.LocalServer) :
    impl.DeleteRules okOracle v ctx ips port mark "" pp ppsn =
      ⟨((impl.cgroupChainRules (chainName ctx v).1 (chainName ctx v).2 mark
          port "" pp ppsn).map fun r => Cmd.delete r.1 r.2.1 r.2.2) ++
        [Cmd.clearChain impl.appPacketIPTableContext (chainName ctx v).1,
         Cmd.deleteChain impl.appPacketIPTableContext (chainName ctx v).1,
         Cmd.clearChain impl.appAckPacketIPTableContext (chainName ctx v).1,
         Cmd.deleteChain impl.appAckPacketIPTableContext (chainName ctx v).1,
         Cmd.clearChain impl.netPacketIPTableContext (chainName ctx v).2,
         Cmd.deleteChain impl.netPacketIPTableContext (chainName ctx v).2] ++
        [Cmd.destroySet (ppsn ++ "-dst"), Cmd.destroySet (ppsn ++ "-src")],
       none⟩ := by
  simp only [Instance.DeleteRules, hls, Instance.deleteChainRules,
    processRulesFromList, runBestEffort,
    Instance.deleteAllContainerChains, getSetNamePair, EngineResult.seq]
  simp [List.append_assoc]

set_option maxHeartbeats 1600000 in
/-- Supervise-then-Unsupervise in LocalServer mode (non-empty mark, no uid)
tears everything down: the final filter state is empty. -/
theorem c9_teardown_server (impl : Instance) (ctx : String) (pu : PUInfo)
    (ip : String)
    (hls : impl.mode = ModeType.LocalServer)
    (hip : impl.defaultIP pu.Policy.ipAddresses = (ip, true))
    (hmark : ¬pu.Runtime.Options.CgroupMark = "")
    (huid : pu.Runtime.Options.UserID = "") :
    (Supervise impl okOracle [] ctx (some pu)).2.err = none ∧
    FilterState.applyTrace FilterState.empty
      ((Supervise impl okOracle [] ctx (some pu)).2.trace ++
       (Unsupervise impl okOracle
         (Supervise impl okOracle [] ctx (some pu)).1 ctx).2.trace) =
      FilterState.empty := by
  have hconf := configureRules_server_ok impl ctx pu ip hls hip hmark huid
  have herr : (impl.ConfigureRules okOracle 0 ctx pu).err = none := by
    rw [hconf]
  have hsup : Supervise impl okOracle [] ctx (some pu) =
      ([(ctx, { version := 0, ips := pu.Policy.ipAddresses,
                mark := pu.Runtime.Options.CgroupMark,
                port :=
                  ConvertServicesToPortList pu.Runtime.Options.Services,
                uid := "", containerInfo := pu })],
       impl.ConfigureRules okOracle 0 ctx pu) := by
    simp only [Supervise, VersionTracker.get, List.lookup, doCreatePU, herr,
      VersionTracker.addOrUpdate, VersionTracker.remove, List.filter, huid]
  have hget : VersionTracker.get
      [(ctx, { version := 0, ips := pu.Policy.ipAddresses,
               mark := pu.Runtime.Options.CgroupMark,
               port :=
                 ConvertServicesToPortList pu.Runtime.Options.Services,
               uid := "", containerInfo := pu })]
      ctx =
      some { version := 0, ips := pu.Policy.ipAddresses,
             mark := pu.Runtime.Options.CgroupMark,
             port := ConvertServicesToPortList pu.Runtime.Options.Services,
             uid := "", containerInfo := pu } := by
    simp [VersionTracker.get]
  have hdel := deleteRules_server_ok impl ctx 0
    (some pu.Policy.ipAddresses) (ConvertServicesToPortList pu.Runtime.Options.Services)
    pu.Runtime.Options.CgroupMark pu.Runtime.Options.ProxyPort (PuPortSetName ctx pu.Runtime.Options.CgroupMark "Proxy-") hls
  have hB1m := addPacketTrap_trace_inChains impl (chainName ctx 0).1 (chainName ctx 0).2 ip
    pu.Policy.triremeNetworks
  have hB2m := @addAppACLs_trace_inChains impl (chainName ctx 0).1
    ([(impl.appPacketIPTableContext, (chainName ctx 0).1),
      (impl.appAckPacketIPTableContext, (chainName ctx 0).1),
      (impl.netPacketIPTableContext, (chainName ctx 0).2)]) (by simp) ctx ip pu.Policy.applicationACLs
  have hB3m := @addNetACLs_trace_inChains impl (chainName ctx 0).2
    ([(impl.appPacketIPTableContext, (chainName ctx 0).1),
      (impl.appAckPacketIPTableContext, (chainName ctx 0).1),
      (impl.netPacketIPTableContext, (chainName ctx 0).2)]) (by simp) ctx ip pu.Policy.networkACLs
  have hB4m := @addExclusionACLs_trace_inChains impl (chainName ctx 0).1 (chainName ctx 0).2
    ([(impl.appPacketIPTableContext, (chainName ctx 0).1),
      (impl.appAckPacketIPTableContext, (chainName ctx 0).1),
      (impl.netPacketIPTableContext, (chainName ctx 0).2)]) (by simp) (by simp) ip pu.Policy.excludedNetworks
  have hSH : (FilterState.applyTrace (FilterState.applyTrace (FilterState.applyTrace FilterState.empty
    [Cmd.newChain impl.appAckPacketIPTableContext (chainName ctx 0).1,
     Cmd.newChain impl.netPacketIPTableContext (chainName ctx 0).2])
    [Cmd.createSet ((PuPortSetName ctx pu.Runtime.Options.CgroupMark "Proxy-") ++ "-dst"),
     Cmd.createSet ((PuPortSetName ctx pu.Runtime.Options.CgroupMark "Proxy-") ++ "-src")])
    ((impl.cgroupChainRules (chainName ctx 0).1 (chainName ctx 0).2
      pu.Runtime.Options.CgroupMark (ConvertServicesToPortList pu.Runtime.Options.Services) "" pu.Runtime.Options.ProxyPort
      (PuPortSetName ctx pu.Runtime.Options.CgroupMark "Proxy-")).map
      fun r => Cmd.append r.1 r.2.1 r.2.2)) =
      ⟨[(impl.netPacketIPTableContext, (chainName ctx 0).2),
        (impl.appAckPacketIPTableContext, (chainName ctx 0).1)],
       (impl.cgroupChainRules (chainName ctx 0).1 (chainName ctx 0).2
      pu.Runtime.Options.CgroupMark (ConvertServicesToPortList pu.Runtime.Options.Services) "" pu.Runtime.Options.ProxyPort
      (PuPortSetName ctx pu.Runtime.Options.CgroupMark "Proxy-")).reverse,
       [(PuPortSetName ctx pu.Runtime.Options.CgroupMark "Proxy-") ++ "-src",
        (PuPortSetName ctx pu.Runtime.Options.CgroupMark "Proxy-") ++ "-dst"]⟩ := by
    rw [applyTrace_append_list]
    simp [FilterState.applyTrace, FilterState.apply, FilterState.empty]
  obtain ⟨c1, s1e, r1⟩ := applyTrace_inChains _ _ hB1m (FilterState.applyTrace (FilterState.applyTrace (FilterState.applyTrace FilterState.empty
    [Cmd.newChain impl.appAckPacketIPTableContext (chainName ctx 0).1,
     Cmd.newChain impl.netPacketIPTableContext (chainName ctx 0).2])
    [Cmd.createSet ((PuPortSetName ctx pu.Runtime.Options.CgroupMark "Proxy-") ++ "-dst"),
     Cmd.createSet ((PuPortSetName ctx pu.Runtime.Options.CgroupMark "Proxy-") ++ "-src")])
    ((impl.cgroupChainRules (chainName ctx 0).1 (chainName ctx 0).2
      pu.Runtime.Options.CgroupMark (ConvertServicesToPortList pu.Runtime.Options.Services) "" pu.Runtime.Options.ProxyPort
      (PuPortSetName ctx pu.Runtime.Options.CgroupMark "Proxy-")).map
      fun r => Cmd.append r.1 r.2.1 r.2.2))
  obtain ⟨c2, s2e, r2⟩ := applyTrace_inChains _ _ hB2m (FilterState.applyTrace (FilterState.applyTrace (FilterState.applyTrace (FilterState.applyTrace FilterState.empty
    [Cmd.newChain impl.appAckPacketIPTableContext (chainName ctx 0).1,
     Cmd.newChain impl.netPacketIPTableContext (chainName ctx 0).2])
    [Cmd.createSet ((PuPortSetName ctx pu.Runtime.Options.CgroupMark "Proxy-") ++ "-dst"),
     Cmd.createSet ((PuPortSetName ctx pu.Runtime.Options.CgroupMark "Proxy-") ++ "-src")])
    ((impl.cgroupChainRules (chainName ctx 0).1 (chainName ctx 0).2
      pu.Runtime.Options.CgroupMark (ConvertServicesToPortList pu.Runtime.Options.Services) "" pu.Runtime.Options.ProxyPort
      (PuPortSetName ctx pu.Runtime.Options.CgroupMark "Proxy-")).map
      fun r => Cmd.append r.1 r.2.1 r.2.2))
    (impl.addPacketTrap okOracle (chainName ctx 0).1 (chainName ctx 0).2 ip
      pu.Policy.triremeNetworks).trace)
  obtain ⟨c3, s3e, r3⟩ := applyTrace_inChains _ _ hB3m (FilterState.applyTrace (FilterState.applyTrace (FilterState.applyTrace (FilterState.applyTrace (FilterState.applyTrace FilterState.empty
    [Cmd.newChain impl.appAckPacketIPTableContext (chainName ctx 0).1,
     Cmd.newChain impl.netPacketIPTableContext (chainName ctx 0).2])
    [Cmd.createSet ((PuPortSetName ctx pu.Runtime.Options.CgroupMark "Proxy-") ++ "-dst"),
     Cmd.createSet ((PuPortSetName ctx pu.Runtime.Options.CgroupMark "Proxy-") ++ "-src")])
    ((impl.cgroupChainRules (chainName ctx 0).1 (chainName ctx 0).2
      pu.Runtime.Options.CgroupMark (ConvertServicesToPortList pu.Runtime.Options.Services) "" pu.Runtime.Options.ProxyPort
      (PuPortSetName ctx pu.Runtime.Options.CgroupMark "Proxy-")).map
      fun r => Cmd.append r.1 r.2.1 r.2.2))
    (impl.addPacketTrap okOracle (chainName ctx 0).1 (chainName ctx 0).2 ip
      pu.Policy.triremeNetworks).trace)
    (impl.addAppACLs okOracle ctx (chainName ctx 0).1 ip
      pu.Policy.applicationACLs).trace)
  obtain ⟨c4, s4e, r4⟩ := applyTrace_inChains _ _ hB4m (FilterState.applyTrace (FilterState.applyTrace (FilterState.applyTrace (FilterState.applyTrace (FilterState.applyTrace (FilterState.applyTrace FilterState.empty
    [Cmd.newChain impl.appAckPacketIPTableContext (chainName ctx 0).1,
     Cmd.newChain impl.netPacketIPTableContext (chainName ctx 0).2])
    [Cmd.createSet ((PuPortSetName ctx pu.Runtime.Options.CgroupMark "Proxy-") ++ "-dst"),
     Cmd.createSet ((PuPortSetName ctx pu.Runtime.Options.CgroupMark "Proxy-") ++ "-src")])
    ((impl.cgroupChainRules (chainName ctx 0).1 (chainName ctx 0).2
      pu.Runtime.Options.CgroupMark (ConvertServicesToPortList pu.Runtime.Options.Services) "" pu.Runtime.Options.ProxyPort
      (PuPortSetName ctx pu.Runtime.Options.CgroupMark "Proxy-")).map
      fun r => Cmd.append r.1 r.2.1 r.2.2))
    (impl.addPacketTrap okOracle (chainName ctx 0).1 (chainName ctx 0).2 ip
      pu.Policy.triremeNetworks).trace)
    (impl.addAppACLs okOracle ctx (chainName ctx 0).1 ip
      pu.Policy.applicationACLs).trace)
    (impl.addNetACLs okOracle ctx (chainName ctx 0).2 ip
      pu.Policy.networkACLs).trace)
  refine ⟨by rw [hsup]; exact herr, ?_⟩
  rw [hsup]
  dsimp only
  simp only [Unsupervise, hget]
  rw [hdel, hconf]
  dsimp only
  simp only [applyTrace_append]
  apply c9_endgame
  · intro p hp
    rw [c4, c3, c2, c1, hSH] at hp
    simp at hp
    tauto
  · intro x hx
    rw [s4e, s3e, s2e, s1e, hSH] at hx
    simpa using hx
  · intro r hr
    rcases r4 r hr with h | h
    on_goal 2 => exact Or.inr h
    rcases r3 r h with h | h
    on_goal 2 => exact Or.inr h
    rcases r2 r h with h | h
    on_goal 2 => exact Or.inr h
    rcases r1 r h with h | h
    on_goal 2 => exact Or.inr h
    rw [hSH] at h
    exact Or.inl (List.mem_reverse.mp (by simpa using h))

/-- `ConfigureRules` in LocalServer mode with a mark, a uid and an empty
service list ("0" port), under a cooperating engine: create the chains, the
per-PU port set (registered for the uid), the proxy set pair, append the
uid jump rules, then render traps, ACLs and exclusions. -/
theorem configureRules_server_uid_ok (impl : Instance) (ctx : String)
    (pu : PUInfo) (ip : String)
    (hls : impl.mode = ModeType.LocalServer)
    (hip : impl.defaultIP pu.Policy.ipAddresses = (ip, true))
    (hmark : ¬pu.Runtime.Options.CgroupMark = "")
    (hu : ¬pu.Runtime.Options.UserID = "")
    (hp0 : ConvertServicesToPortList pu.Runtime.Options.Services = "0")
    (hpres : impl.portSetPresent = true) :
    impl.ConfigureRules okOracle 0 ctx pu =
      ⟨[Cmd.newChain impl.appAckPacketIPTableContext (chainName ctx 0).1,
        Cmd.newChain impl.netPacketIPTableContext (chainName ctx 0).2] ++
        [Cmd.createSet (PuPortSetName ctx pu.Runtime.Options.CgroupMark "PUPort-")] ++
        [Cmd.addUserPortSet pu.Runtime.Options.UserID (PuPortSetName ctx pu.Runtime.Options.CgroupMark "PUPort-")
          pu.Runtime.Options.CgroupMark] ++
        [Cmd.createSet ((PuPortSetName ctx pu.Runtime.Options.CgroupMark "Proxy-") ++ "-dst"),
         Cmd.createSet ((PuPortSetName ctx pu.Runtime.Options.CgroupMark "Proxy-") ++ "-src")] ++
        ((impl.uidChainRules (PuPortSetName ctx pu.Runtime.Options.CgroupMark "PUPort-") (chainName ctx 0).1 (chainName ctx 0).2
      pu.Runtime.Options.CgroupMark "0" pu.Runtime.Options.UserID pu.Runtime.Options.ProxyPort
      (PuPortSetName ctx pu.Runtime.Options.CgroupMark "Proxy-")).map
      fun r => Cmd.append r.1 r.2.1 r.2.2) ++
        ((impl.addPacketTrap okOracle (chainName ctx 0).1 (chainName ctx 0).2 ip
      pu.Policy.triremeNetworks).trace ++
         (impl.addAppACLs okOracle ctx (chainName ctx 0).1 ip
      pu.Policy.applicationACLs).trace ++
         (impl.addNetACLs okOracle ctx (chainName ctx 0).2 ip
      pu.Policy.networkACLs).trace ++
         (impl.addExclusionACLs okOracle (chainName ctx 0).1 (chainName ctx 0).2 ip
      pu.Policy.excludedNetworks).trace),
       none⟩ := by
  simp only [Instance.ConfigureRules, hip, hls, hp0]
  rw [if_neg hmark, if_pos hu]
  simp only [hpres, not_true, ite_false, if_false, reduceIte]
  simp only [EngineResult.seq, addContainerChain_ok_err,
    createProxySets_ok_err, addChainRules_ok_err, addPacketTrap_ok_err,
    addAppACLs_ok_err, addNetACLs_ok_err, addExclusionACLs_ok_err]
  simp only [Instance.addContainerChain, Instance.createProxySets,
    Instance.createPUPortSet, getSetNamePair, Instance.addChainRules, hls,
    hu, hp0, runStrict_ok, processRulesFromList, proxyPortSetPfx,
    puPortSetPfx, if_false, ite_false, reduceIte]
  simp [List.append_assoc, EngineResult.seq, runStrict_ok, okOracle, hpres]

/-- `DeleteRules` in LocalServer mode with a uid, under a cooperating
engine: delete the uid jump rules, clear and delete both chains, destroy
the per-PU port set, deregister the uid, destroy the proxy set pair. -/
theorem deleteRules_server_uid_ok (impl : Instance) (ctx : String) (v : Nat)
    (ips : Option ExtendedMap) (port mark u pp ppsn : String)
    (hls : impl.mode = ModeType.LocalServer) (hu : ¬u = "")
    (hpres : impl.portSetPresent = true) :
    impl.DeleteRules okOracle v ctx ips port mark u pp ppsn =
      ⟨((impl.uidChainRules (PuPortSetName ctx mark "PUPort-")
          (chainName ctx v).1 (chainName ctx v).2 mark port u pp
          ppsn).map fun r => Cmd.delete r.1 r.2.1 r.2.2) ++
        [Cmd.clearChain impl.appPacketIPTableContext (chainName ctx v).1,
         Cmd.deleteChain impl.appPacketIPTableContext (chainName ctx v).1,
         Cmd.clearChain impl.appAckPacketIPTableContext (chainName ctx v).1,
         Cmd.deleteChain impl.appAckPacketIPTableContext (chainName ctx v).1,
         Cmd.clearChain impl.netPacketIPTableContext (chainName ctx v).2,
         Cmd.deleteChain impl.netPacketIPTableContext (chainName ctx v).2] ++
        [Cmd.destroySet (PuPortSetName ctx mark "PUPort-"),
         Cmd.delUserPortSet u mark] ++
        [Cmd.destroySet (ppsn ++ "-dst"), Cmd.destroySet (ppsn ++ "-src")],
       none⟩ := by
  simp only [Instance.DeleteRules, hls, Instance.deleteChainRules,
    processRulesFromList, runBestEffort,
    Instance.deleteAllContainerChains, getSetNamePair, EngineResult.seq]
  rw [if_neg hu, if_pos hu]
  simp only [hpres, okOracle, puPortSetPfx]
  simp [List.append_assoc, EngineResult.seq]

/-- The teardown endgame for the uid case: as `c9_endgame`, with the per-PU
port set destroyed and the uid deregistered between the chain deletions and
the proxy-set destructions. -/
theorem c9_endgame_uid (impl : Instance) (a n d0 s0 p0 u mk : String)
    (CR : List RuleTriple) (sB : FilterState)
    (hch : ∀ p ∈ sB.chains,
      p = (impl.appPacketIPTableContext, a) ∨
      p = (impl.appAckPacketIPTableContext, a) ∨
      p = (impl.netPacketIPTableContext, n))
    (hsets : ∀ x ∈ sB.sets, x = s0 ∨ x = d0 ∨ x = p0)
    (hru : ∀ r ∈ sB.rules, r ∈ CR ∨
      (r.1, r.2.1) ∈ [(impl.appPacketIPTableContext, a),
        (impl.appAckPacketIPTableContext, a),
        (impl.netPacketIPTableContext, n)]) :
    FilterState.applyTrace (FilterState.applyTrace
      (FilterState.applyTrace (FilterState.applyTrace sB
        (CR.map fun r => Cmd.delete r.1 r.2.1 r.2.2))
        [Cmd.clearChain impl.appPacketIPTableContext a,
         Cmd.deleteChain impl.appPacketIPTableContext a,
         Cmd.clearChain impl.appAckPacketIPTableContext a,
         Cmd.deleteChain impl.appAckPacketIPTableContext a,
         Cmd.clearChain impl.netPacketIPTableContext n,
         Cmd.deleteChain impl.netPacketIPTableContext n])
        [Cmd.destroySet p0, Cmd.delUserPortSet u mk])
      [Cmd.destroySet d0, Cmd.destroySet s0] = FilterState.empty := by
  have hsplit : ∀ st : FilterState,
      st.chains = [] → st.rules = [] → st.sets = [] →
      st = FilterState.empty := by
    intro st h1 h2 h3
    cases st
    simp_all [FilterState.empty]
  obtain ⟨g1, g2, g3⟩ := applyTrace_delete_list CR sB
  set f1 := FilterState.applyTrace sB
    (CR.map fun r => Cmd.delete r.1 r.2.1 r.2.2) with hf1
  apply hsplit
  · rw [List.eq_nil_iff_forall_not_mem]
    intro x hx
    simp only [FilterState.applyTrace, List.foldl, FilterState.apply,
      List.mem_filter, decide_eq_true_eq] at hx
    obtain ⟨⟨⟨hx0, h1⟩, h2⟩, h3⟩ := hx
    rw [g1] at hx0
    rcases hch x hx0 with rfl | rfl | rfl
    · exact h1 rfl
    · exact h2 rfl
    · exact h3 rfl
  · rw [List.eq_nil_iff_forall_not_mem]
    intro x hx
    simp only [FilterState.applyTrace, List.foldl, FilterState.apply,
      List.mem_filter, decide_eq_true_eq] at hx
    obtain ⟨⟨⟨hx0, p1⟩, p2⟩, p3⟩ := hx
    obtain ⟨hx2, hnotCR⟩ := (g3 x).mp hx0
    rcases hru x hx2 with hin | hin
    · exact hnotCR hin
    · simp only [List.mem_cons, List.not_mem_nil, or_false,
        Prod.mk.injEq] at hin
      rcases hin with ⟨e1, e2⟩ | ⟨e1, e2⟩ | ⟨e1, e2⟩
      · exact p1 ⟨e1, e2⟩
      · exact p2 ⟨e1, e2⟩
      · exact p3 ⟨e1, e2⟩
  · rw [List.eq_nil_iff_forall_not_mem]
    intro x hx
    simp only [FilterState.applyTrace, List.foldl, FilterState.apply,
      List.mem_filter, decide_eq_true_eq] at hx
    obtain ⟨⟨⟨hx0, hp⟩, hd⟩, hs⟩ := hx
    rw [g2] at hx0
    rcases hsets x hx0 with rfl | rfl | rfl
    · exact hs rfl
    · exact hd rfl
    · exact hp rfl

set_option maxHeartbeats 1600000 in
/-- Supervise-then-Unsupervise in LocalServer mode for a uid PU with no
services (port "0"), a mark and a port-set tracker tears everything down,
including the per-PU `PUPort-` set: the final filter state is empty. -/
theorem c9_teardown_server_uid (impl : Instance) (ctx : String)
    (pu : PUInfo) (ip : String)
    (hls : impl.mode = ModeType.LocalServer)
    (hip : impl.defaultIP pu.Policy.ipAddresses = (ip, true))
    (hmark : ¬pu.Runtime.Options.CgroupMark = "")
    (hu : ¬pu.Runtime.Options.UserID = "")
    (hp0 : ConvertServicesToPortList pu.Runtime.Options.Services = "0")
    (hpres : impl.portSetPresent = true) :
    (Supervise impl okOracle [] ctx (some pu)).2.err = none ∧
    FilterState.applyTrace FilterState.empty
      ((Supervise impl okOracle [] ctx (some pu)).2.trace ++
       (Unsupervise impl okOracle
         (Supervise impl okOracle [] ctx (some pu)).1 ctx).2.trace) =
      FilterState.empty := by
  have hconf := configureRules_server_uid_ok impl ctx pu ip hls hip hmark
    hu hp0 hpres
  have herr : (impl.ConfigureRules okOracle 0 ctx pu).err = none := by
    rw [hconf]
  have hsup : Supervise impl okOracle [] ctx (some pu) =
      ([(ctx, { version := 0, ips := pu.Policy.ipAddresses,
                mark := pu.Runtime.Options.CgroupMark,
                port := "0",
                uid := pu.Runtime.Options.UserID, containerInfo := pu })],
       impl.ConfigureRules okOracle 0 ctx pu) := by
    simp only [Supervise, VersionTracker.get, List.lookup, doCreatePU, herr,
      VersionTracker.addOrUpdate, VersionTracker.remove, List.filter, hp0]
  have hget : VersionTracker.get
      [(ctx, { version := 0, ips := pu.Policy.ipAddresses,
               mark := pu.Runtime.Options.CgroupMark,
               port := "0",
               uid := pu.Runtime.Options.UserID, containerInfo := pu })]
      ctx =
      some { version := 0, ips := pu.Policy.ipAddresses,
             mark := pu.Runtime.Options.CgroupMark,
             port := "0",
             uid := pu.Runtime.Options.UserID, containerInfo := pu } := by
    simp [VersionTracker.get]
  have hdel := deleteRules_server_uid_ok impl ctx 0
    (some pu.Policy.ipAddresses) "0" pu.Runtime.Options.CgroupMark
    pu.Runtime.Options.UserID pu.Runtime.Options.ProxyPort (PuPortSetName ctx pu.Runtime.Options.CgroupMark "Proxy-") hls hu hpres
  have hB1m := addPacketTrap_trace_inChains impl (chainName ctx 0).1 (chainName ctx 0).2 ip
    pu.Policy.triremeNetworks
  have hB2m := @addAppACLs_trace_inChains impl (chainName ctx 0).1
    ([(impl.appPacketIPTableContext, (chainName ctx 0).1),
      (impl.appAckPacketIPTableContext, (chainName ctx 0).1),
      (impl.netPacketIPTableContext, (chainName ctx 0).2)]) (by simp) ctx ip pu.Policy.applicationACLs
  have hB3m := @addNetACLs_trace_inChains impl (chainName ctx 0).2
    ([(impl.appPacketIPTableContext, (chainName ctx 0).1),
      (impl.appAckPacketIPTableContext, (chainName ctx 0).1),
      (impl.netPacketIPTableContext, (chainName ctx 0).2)]) (by simp) ctx ip pu.Policy.networkACLs
  have hB4m := @addExclusionACLs_trace_inChains impl (chainName ctx 0).1 (chainName ctx 0).2
    ([(impl.appPacketIPTableContext, (chainName ctx 0).1),
      (impl.appAckPacketIPTableContext, (chainName ctx 0).1),
      (impl.netPacketIPTableContext, (chainName ctx 0).2)]) (by simp) (by simp) ip pu.Policy.excludedNetworks
  have hSH : (FilterState.applyTrace (FilterState.applyTrace (FilterState.applyTrace (FilterState.applyTrace (FilterState.applyTrace FilterState.empty
    [Cmd.newChain impl.appAckPacketIPTableContext (chainName ctx 0).1,
     Cmd.newChain impl.netPacketIPTableContext (chainName ctx 0).2])
    [Cmd.createSet (PuPortSetName ctx pu.Runtime.Options.CgroupMark "PUPort-")])
    [Cmd.addUserPortSet pu.Runtime.Options.UserID (PuPortSetName ctx pu.Runtime.Options.CgroupMark "PUPort-")
      pu.Runtime.Options.CgroupMark])
    [Cmd.createSet ((PuPortSetName ctx pu.Runtime.Options.CgroupMark "Proxy-") ++ "-dst"),
     Cmd.createSet ((PuPortSetName ctx pu.Runtime.Options.CgroupMark "Proxy-") ++ "-src")])
    ((impl.uidChainRules (PuPortSetName ctx pu.Runtime.Options.CgroupMark "PUPort-") (chainName ctx 0).1 (chainName ctx 0).2
      pu.Runtime.Options.CgroupMark "0" pu.Runtime.Options.UserID pu.Runtime.Options.ProxyPort
      (PuPortSetName ctx pu.Runtime.Options.CgroupMark "Proxy-")).map
      fun r => Cmd.append r.1 r.2.1 r.2.2)) =
      ⟨[(impl.netPacketIPTableContext, (chainName ctx 0).2),
        (impl.appAckPacketIPTableContext, (chainName ctx 0).1)],
       (impl.uidChainRules (PuPortSetName ctx pu.Runtime.Options.CgroupMark "PUPort-") (chainName ctx 0).1 (chainName ctx 0).2
      pu.Runtime.Options.CgroupMark "0" pu.Runtime.Options.UserID pu.Runtime.Options.ProxyPort
      (PuPortSetName ctx pu.Runtime.Options.CgroupMark "Proxy-")).reverse,
       [(PuPortSetName ctx pu.Runtime.Options.CgroupMark "Proxy-") ++ "-src",
        (PuPortSetName ctx pu.Runtime.Options.CgroupMark "Proxy-") ++ "-dst",
        (PuPortSetName ctx pu.Runtime.Options.CgroupMark "PUPort-")]⟩ := by
    rw [applyTrace_append_list]
    simp [FilterState.applyTrace, FilterState.apply, FilterState.empty]
  obtain ⟨c1, s1e, r1⟩ := applyTrace_inChains _ _ hB1m (FilterState.applyTrace (FilterState.applyTrace (FilterState.applyTrace (FilterState.applyTrace (FilterState.applyTrace FilterState.empty
    [Cmd.newChain impl.appAckPacketIPTableContext (chainName ctx 0).1,
     Cmd.newChain impl.netPacketIPTableContext (chainName ctx 0).2])
    [Cmd.createSet (PuPortSetName ctx pu.Runtime.Options.CgroupMark "PUPort-")])
    [Cmd.addUserPortSet pu.Runtime.Options.UserID (PuPortSetName ctx pu.Runtime.Options.CgroupMark "PUPort-")
      pu.Runtime.Options.CgroupMark])
    [Cmd.createSet ((PuPortSetName ctx pu.Runtime.Options.CgroupMark "Proxy-") ++ "-dst"),
     Cmd.createSet ((PuPortSetName ctx pu.Runtime.Options.CgroupMark "Proxy-") ++ "-src")])
    ((impl.uidChainRules (PuPortSetName ctx pu.Runtime.Options.CgroupMark "PUPort-") (chainName ctx 0).1 (chainName ctx 0).2
      pu.Runtime.Options.CgroupMark "0" pu.Runtime.Options.UserID pu.Runtime.Options.ProxyPort
      (PuPortSetName ctx pu.Runtime.Options.CgroupMark "Proxy-")).map
      fun r => Cmd.append r.1 r.2.1 r.2.2))
  obtain ⟨c2, s2e, r2⟩ := applyTrace_inChains _ _ hB2m (FilterState.applyTrace (FilterState.applyTrace (FilterState.applyTrace (FilterState.applyTrace (FilterState.applyTrace (FilterState.applyTrace FilterState.empty
    [Cmd.newChain impl.appAckPacketIPTableContext (chainName ctx 0).1,
     Cmd.newChain impl.netPacketIPTableContext (chainName ctx 0).2])
    [Cmd.createSet (PuPortSetName ctx pu.Runtime.Options.CgroupMark "PUPort-")])
    [Cmd.addUserPortSet pu.Runtime.Options.UserID (PuPortSetName ctx pu.Runtime.Options.CgroupMark "PUPort-")
      pu.Runtime.Options.CgroupMark])
    [Cmd.createSet ((PuPortSetName ctx pu.Runtime.Options.CgroupMark "Proxy-") ++ "-dst"),
     Cmd.createSet ((PuPortSetName ctx pu.Runtime.Options.CgroupMark "Proxy-") ++ "-src")])
    ((impl.uidChainRules (PuPortSetName ctx pu.Runtime.Options.CgroupMark "PUPort-") (chainName ctx 0).1 (chainName ctx 0).2
      pu.Runtime.Options.CgroupMark "0" pu.Runtime.Options.UserID pu.Runtime.Options.ProxyPort
      (PuPortSetName ctx pu.Runtime.Options.CgroupMark "Proxy-")).map
      fun r => Cmd.append r.1 r.2.1 r.2.2))
    (impl.addPacketTrap okOracle (chainName ctx 0).1 (chainName ctx 0).2 ip
      pu.Policy.triremeNetworks).trace)
  obtain ⟨c3, s3e, r3⟩ := applyTrace_inChains _ _ hB3m (FilterState.applyTrace (FilterState.applyTrace (FilterState.applyTrace (FilterState.applyTrace (FilterState.applyTrace (FilterState.applyTrace (FilterState.applyTrace FilterState.empty
    [Cmd.newChain impl.appAckPacketIPTableContext (chainName ctx 0).1,
     Cmd.newChain impl.netPacketIPTableContext (chainName ctx 0).2])
    [Cmd.createSet (PuPortSetName ctx pu.Runtime.Options.CgroupMark "PUPort-")])
    [Cmd.addUserPortSet pu.Runtime.Options.UserID (PuPortSetName ctx pu.Runtime.Options.CgroupMark "PUPort-")
      pu.Runtime.Options.CgroupMark])
    [Cmd.createSet ((PuPortSetName ctx pu.Runtime.Options.CgroupMark "Proxy-") ++ "-dst"),
     Cmd.createSet ((PuPortSetName ctx pu.Runtime.Options.CgroupMark "Proxy-") ++ "-src")])
    ((impl.uidChainRules (PuPortSetName ctx pu.Runtime.Options.CgroupMark "PUPort-") (chainName ctx 0).1 (chainName ctx 0).2
      pu.Runtime.Options.CgroupMark "0" pu.Runtime.Options.UserID pu.Runtime.Options.ProxyPort
      (PuPortSetName ctx pu.Runtime.Options.CgroupMark "Proxy-")).map
      fun r => Cmd.append r.1 r.2.1 r.2.2))
    (impl.addPacketTrap okOracle (chainName ctx 0).1 (chainName ctx 0).2 ip
      pu.Policy.triremeNetworks).trace)
    (impl.addAppACLs okOracle ctx (chainName ctx 0).1 ip
      pu.Policy.applicationACLs).trace)
  obtain ⟨c4, s4e, r4⟩ := applyTrace_inChains _ _ hB4m (FilterState.applyTrace (FilterState.applyTrace (FilterState.applyTrace (FilterState.applyTrace (FilterState.applyTrace (FilterState.applyTrace (FilterState.applyTrace (FilterState.applyTrace FilterState.empty
    [Cmd.newChain impl.appAckPacketIPTableContext (chainName ctx 0).1,
     Cmd.newChain impl.netPacketIPTableContext (chainName ctx 0).2])
    [Cmd.createSet (PuPortSetName ctx pu.Runtime.Options.CgroupMark "PUPort-")])
    [Cmd.addUserPortSet pu.Runtime.Options.UserID (PuPortSetName ctx pu.Runtime.Options.CgroupMark "PUPort-")
      pu.Runtime.Options.CgroupMark])
    [Cmd.createSet ((PuPortSetName ctx pu.Runtime.Options.CgroupMark "Proxy-") ++ "-dst"),
     Cmd.createSet ((PuPortSetName ctx pu.Runtime.Options.CgroupMark "Proxy-") ++ "-src")])
    ((impl.uidChainRules (PuPortSetName ctx pu.Runtime.Options.CgroupMark "PUPort-") (chainName ctx 0).1 (chainName ctx 0).2
      pu.Runtime.Options.CgroupMark "0" pu.Runtime.Options.UserID pu.Runtime.Options.ProxyPort
      (PuPortSetName ctx pu.Runtime.Options.CgroupMark "Proxy-")).map
      fun r => Cmd.append r.1 r.2.1 r.2.2))
    (impl.addPacketTrap okOracle (chainName ctx 0).1 (chainName ctx 0).2 ip
      pu.Policy.triremeNetworks).trace)
    (impl.addAppACLs okOracle ctx (chainName ctx 0).1 ip
      pu.Policy.applicationACLs).trace)
    (impl.addNetACLs okOracle ctx (chainName ctx 0).2 ip
      pu.Policy.networkACLs).trace)
  refine ⟨by rw [hsup]; exact herr, ?_⟩
  rw [hsup]
  dsimp only
  simp only [Unsupervise, hget]
  rw [hdel, hconf]
  dsimp only
  simp only [applyTrace_append]
  apply c9_endgame_uid
  · intro p hp
    rw [c4, c3, c2, c1, hSH] at hp
    simp at hp
    tauto
  · intro x hx
    rw [s4e, s3e, s2e, s1e, hSH] at hx
    simpa using hx
  · intro r hr
    rcases r4 r hr with h | h
    on_goal 2 => exact Or.inr h
    rcases r3 r h with h | h
    on_goal 2 => exact Or.inr h
    rcases r2 r h with h | h
    on_goal 2 => exact Or.inr h
    rcases r1 r h with h | h
    on_goal 2 => exact Or.inr h
    rw [hSH] at h
    exact Or.inl (List.mem_reverse.mp (by simpa using h))

/-- C9 counterexample, both teardown gaps.  First, in a container mode the
create path names the proxy sets with an empty mark (part_004:184,
`PuPortSetName(contextID, "", proxyPortSet)`), but Unsupervise destroys the
names built with the cached cgroup mark (part_006:118,
`PuPortSetName(contextID, cfg.mark, "Proxy-")`): for a PU carrying a
non-empty cgroup mark both calls succeed and yet the per-PU `Proxy-…-dst`
ipset is still installed afterwards.  Second, for a LocalServer PU with a
uid and a non-"0" port list, `addChainRules` installs the cgroup jump rules
(`port != "0" || uid == ""`, acls.go:373-378) while `deleteChainRules`
removes the uid jump rules (`uid == ""`, acls.go:884-888), so the cgroup
jump rule in the cgroup output section survives Unsupervise. -/
theorem claim_C9_counterexample :
    ((Supervise testInstance okOracle [] "c" (some markedPU)).2.err = none ∧
     (Unsupervise testInstance okOracle
         (Supervise testInstance okOracle [] "c" (some markedPU)).1
         "c").2.err = none ∧
     (PuPortSetName "c" "" "Proxy-" ++ "-dst") ∈
       (FilterState.applyTrace FilterState.empty
         ((Supervise testInstance okOracle [] "c"
             (some markedPU)).2.trace ++
          (Unsupervise testInstance okOracle
            (Supervise testInstance okOracle [] "c" (some markedPU)).1
            "c").2.trace)).sets) ∧
    ((Supervise testInstanceLS okOracle [] "c"
        (some markedUIDPU)).2.err = none ∧
     (Unsupervise testInstanceLS okOracle
         (Supervise testInstanceLS okOracle [] "c" (some markedUIDPU)).1
         "c").2.err = none ∧
     (testInstanceLS.appAckPacketIPTableContext,
      testInstanceLS.appCgroupIPTableSection,
      ["-m", "cgroup", "--cgroup", "m",
       "-m", "comment", "--comment", "Server-specific-chain",
       "-j", "MARK", "--set-mark", "m"]) ∈
       (FilterState.applyTrace FilterState.empty
         ((Supervise testInstanceLS okOracle [] "c"
             (some markedUIDPU)).2.trace ++
          (Unsupervise testInstanceLS okOracle
            (Supervise testInstanceLS okOracle [] "c"
              (some markedUIDPU)).1
            "c").2.trace)).rules) := by
  refine ⟨⟨rfl, rfl, ?_⟩, ⟨rfl, rfl, ?_⟩⟩ <;> decide

/-- C9 (amended).  Supervise followed by Unsupervise removes everything —
the app and net chains at the tracked version, every jump and rendered
rule, the per-PU `PUPort-` port set and the proxy sets — leaving the packet
filter exactly empty, provided the PU is one the create path itself
installs consistently: the cgroup mark is empty in the container modes
(where `ConfigureRules` names the proxy sets with an empty mark) and
non-empty in LocalServer mode, and the PU either has no uid, or is a
LocalServer uid PU with no service ports (port "0") on a controller with a
port-set tracker.  Outside this scope the cleanup is incomplete on two
counts (`claim_C9_counterexample`): a marked container PU leaves its
`Proxy-` sets behind, and a LocalServer uid PU with a non-"0" port list
leaves its cgroup jump rules behind. -/
theorem claim_C9_teardown_complete (impl : Instance) (ctx : String)
    (pu : PUInfo) (ip : String)
    (hip : impl.defaultIP pu.Policy.ipAddresses = (ip, true))
    (huid : pu.Runtime.Options.UserID = "" ∨
      (impl.mode = ModeType.LocalServer ∧
       ConvertServicesToPortList pu.Runtime.Options.Services = "0" ∧
       impl.portSetPresent = true))
    (hmc : ¬impl.mode = ModeType.LocalServer →
      pu.Runtime.Options.CgroupMark = "")
    (hms : impl.mode = ModeType.LocalServer →
      ¬pu.Runtime.Options.CgroupMark = "") :
    (Supervise impl okOracle [] ctx (some pu)).2.err = none ∧
    FilterState.applyTrace FilterState.empty
      ((Supervise impl okOracle [] ctx (some pu)).2.trace ++
       (Unsupervise impl okOracle
         (Supervise impl okOracle [] ctx (some pu)).1 ctx).2.trace) =
      FilterState.empty := by
  by_cases hu : pu.Runtime.Options.UserID = ""
  · by_cases hls : impl.mode = ModeType.LocalServer
    · exact c9_teardown_server impl ctx pu ip hls hip (hms hls) hu
    · exact c9_teardown_container impl ctx pu ip hls hip (hmc hls) hu
  · rcases huid with h | ⟨hls, hp0, hpres⟩
    · exact absurd h hu
    · exact c9_teardown_server_uid impl ctx pu ip hls hip (hms hls) hu
        hp0 hpres

/-- Witness for C9 (amended), exercising both scopes: a remote-container
controller with the default-runtime PU, and a LocalServer controller with a
marked uid PU (no services), each supervising then unsupervising "c" and
ending with an empty packet filter. -/
theorem claim_C9_witness :
    ((Supervise testInstance okOracle [] "c" (some testPU)).2.err = none ∧
     FilterState.applyTrace FilterState.empty
       ((Supervise testInstance okOracle [] "c" (some testPU)).2.trace ++
        (Unsupervise testInstance okOracle
          (Supervise testInstance okOracle [] "c" (some testPU)).1
          "c").2.trace) = FilterState.empty) ∧
    ((Supervise testInstanceLS okOracle [] "c" (some uidPU)).2.err = none ∧
     FilterState.applyTrace FilterState.empty
       ((Supervise testInstanceLS okOracle [] "c" (some uidPU)).2.trace ++
        (Unsupervise testInstanceLS okOracle
          (Supervise testInstanceLS okOracle [] "c" (some uidPU)).1
          "c").2.trace) = FilterState.empty) :=
  ⟨claim_C9_teardown_complete testInstance "c" testPU "172.17.0.1" rfl
    (Or.inl rfl) (fun _ => rfl) (fun h => absurd h (by decide)),
   claim_C9_teardown_complete testInstanceLS "c" uidPU "172.17.0.1" rfl
    (Or.inr ⟨rfl, rfl, rfl⟩) (fun h => absurd rfl h)
    (fun _ => by decide)⟩

end Trireme
